import Mathlib

/-!
# Football juggling game: the simulation core of `src/main.cpp`

A shallow embedding of the game logic of `main.cpp` (classes `Tile`, `Ball`,
`GameManager`) and theorems about it.

Modelling conventions.

* `float` is modelled twice.  The definitions that carry the names of the
  source idealise it by the exact rationals `ℚ`; their literals are the
  decimal literals of the source (`2.25f` is `2.25`, `0.1f` is `0.1`).  The
  definitions with the suffix `_f32` compute in binary32: every arithmetic
  operation is rounded by `f32` (round to nearest, ties to even), and `3.6f`
  and `0.1f`, which are not binary32 numbers, are `f32 3.6` and `f32 0.1`.
  `Reachable` and `ticks` are the runs of the exact model, `Reachable_f32` and
  `ticks_f32` those of the binary32 model.  The theorems on the arrival of the
  ball and on the pose at the ends of the arc are about the binary32 model.
* `int` is modelled by `Int`.  The conversion `int → char` that happens when
  `GameManager::keyboard_event` passes the key code on is modelled by
  `toChar` (reduction to the signed 8-bit range).  The score counter is
  incremented without wrap-around (signed overflow is undefined in C++).
* `rand()` is modelled by an arbitrary stream `rnd : Nat → Nat` of
  non-negative draws together with the number of calls made so far
  (`rand_calls`); the `i`-th call returns `rnd i`.
* `printf` appends to `stdout`, a list of the lines printed.
* `while (1)` in `Ball::get_random_next_pos_idx` is run with a fuel bound;
  running out of fuel is reported as `Halt.out_of_fuel`.
* Rendering (`draw`, `init_vao`, shaders) is left out; it changes none of the
  fields modelled here.  `CELL_POS[idx]` for an index outside `0..8` is
  undefined in C++; the model returns the zero vector there.
* The matrix `model_mat` of `Ball::draw_during_game` is modelled in binary32 by
  its first three rows, with the operations of `glm::translate` and
  `glm::rotate` in the order of the library.  The values of `cos`, `sin` and
  `inversesqrt` are taken from a parameter `Libm`; `binary32Libm` holds the
  binary32 values that the library returns at the arguments used.
-/

namespace FootballJuggling

/-! ## Constants and vectors -/

/-- Value of type `glm::vec3`. -/
structure Vec3 where
  x : ℚ
  y : ℚ
  z : ℚ
  deriving DecidableEq

namespace Vec3

/-- Componentwise `a + b`. -/
def add (a b : Vec3) : Vec3 := ⟨a.x + b.x, a.y + b.y, a.z + b.z⟩

/-- Componentwise `a - b`. -/
def sub (a b : Vec3) : Vec3 := ⟨a.x - b.x, a.y - b.y, a.z - b.z⟩

/-- Scaling `a * s`. -/
def smul (a : Vec3) (s : ℚ) : Vec3 := ⟨a.x * s, a.y * s, a.z * s⟩

/-- Cross product `glm::cross(a, b)`. -/
def cross (a b : Vec3) : Vec3 :=
  ⟨a.y * b.z - b.y * a.z, a.z * b.x - b.z * a.x, a.x * b.y - b.x * a.y⟩

/-- The zero vector. -/
def zero : Vec3 := ⟨0, 0, 0⟩

/-- Dot product `glm::dot(a, b)`. -/
def dot (a b : Vec3) : ℚ := a.x * b.x + a.y * b.y + a.z * b.z

end Vec3

/-- Constant `INITIAL_POS = 3.0f`. -/
def INITIAL_POS : ℚ := 3.0

/-- Table `CELL_POS[9]`. -/
def CELL_POS : List Vec3 :=
  [⟨-2.0, 0.0, -2.0⟩, ⟨0.0, 0.0, -2.0⟩, ⟨2.0, 0.0, -2.0⟩,
   ⟨-2.0, 0.0, 0.0⟩, ⟨0.0, 0.0, 0.0⟩, ⟨2.0, 0.0, 0.0⟩,
   ⟨-2.0, 0.0, 2.0⟩, ⟨0.0, 0.0, 2.0⟩, ⟨2.0, 0.0, 2.0⟩]

/-- Constant `GLFW_PRESS`. -/
def GLFW_PRESS : Int := 1

/-- Conversion `(char)key` of an `int` to a signed 8-bit `char`. -/
def toChar (key : Int) : Int := (key + 128) % 256 - 128

/-- Character code of a character literal such as `'Q'`. -/
def code (c : Char) : Int := (c.toNat : Int)

/-- Reasons for which a run of the model stops without a result. -/
inductive Halt where
  /-- The fuel given to `while (1)` ran out. -/
  | out_of_fuel
  /-- Call of `std::exit(1)` after the message was printed to `stderr`. -/
  | exit (msg : String)
  deriving DecidableEq

/-- Line written by one of the two `printf` calls of `GameManager::main_loop`. -/
inductive Printed where
  /-- Output of `printf("%d\n", ++m_count)`. -/
  | score (n : Int)
  /-- Output of `printf("Failed!\nScore: %d\nPress space to restart.\n\n", m_count)`. -/
  | failed (n : Int)
  deriving DecidableEq

/-! ## Tile -/

/-- Class `Tile` (the colour is rendering data and left out). -/
structure Tile where
  m_pos_idx : Int
  deriving DecidableEq

namespace Tile

/-- Method `Tile::set_pos_number`. -/
def set_pos_number (_t : Tile) (pos_idx : Int) : Tile := ⟨pos_idx⟩

/-- Method `Tile::set_pos_number_by_key`; `key` is the value of the `char` argument. -/
def set_pos_number_by_key (t : Tile) (key : Int) : Tile :=
  if key = code 'Q' then ⟨0⟩
  else if key = code 'W' then ⟨1⟩
  else if key = code 'E' then ⟨2⟩
  else if key = code 'A' then ⟨3⟩
  else if key = code 'S' then ⟨4⟩
  else if key = code 'D' then ⟨5⟩
  else if key = code 'Z' then ⟨6⟩
  else if key = code 'X' then ⟨7⟩
  else if key = code 'C' then ⟨8⟩
  else t

/-- Method `Tile::get_pos_idx`. -/
def get_pos_idx (t : Tile) : Int := t.m_pos_idx

end Tile

/-! ## Ball -/

/-- Class `Ball`. -/
structure Ball where
  m_falling_pos : ℚ
  m_last_pos_idx : Int
  m_next_pos_idx : Int
  m_rot_angle : ℚ
  m_rev_angle : ℚ
  m_rot_angular_vel : ℚ
  m_rev_angular_vel : ℚ
  m_to_center : Vec3
  m_scale : ℚ
  m_rotation_axis : Vec3
  m_rotation_center : Vec3
  deriving DecidableEq

namespace Ball

/-- Method `Ball::get_falling_pos`. -/
def get_falling_pos (b : Ball) : ℚ := b.m_falling_pos

/-- Method `Ball::is_fallen`. -/
def is_fallen (b : Ball) : Bool := decide (b.m_rev_angle ≥ 180.0)

/-- Method `Ball::get_next_pos_idx`. -/
def get_next_pos_idx (b : Ball) : Int := b.m_next_pos_idx

/-- Method `Ball::reset`. -/
def reset (b : Ball) : Ball :=
  { b with
    m_falling_pos := INITIAL_POS
    m_last_pos_idx := 4
    m_next_pos_idx := 4
    m_rot_angle := 0.0
    m_rev_angle := 0.0
    m_rot_angular_vel := 1.0
    m_rev_angular_vel := 2.25 }

/-- Zero-initialised storage of a `Ball` with static storage duration
(`g_game` is a static object), before the constructor runs. -/
def zeroed : Ball :=
  { m_falling_pos := 0, m_last_pos_idx := 0, m_next_pos_idx := 0, m_rot_angle := 0,
    m_rev_angle := 0, m_rot_angular_vel := 0, m_rev_angular_vel := 0,
    m_to_center := Vec3.zero, m_scale := 0, m_rotation_axis := Vec3.zero,
    m_rotation_center := Vec3.zero }

/-- Constructor `Ball::Ball()`: calls `reset()`. -/
def new : Ball := reset zeroed

/-- Method `Ball::init`, as far as the ball's own fields go: `center` and
`scale` are the values computed from the loaded mesh. -/
def init (b : Ball) (center : Vec3) (scale : ℚ) : Ball :=
  { b with m_to_center := center, m_scale := scale }

/-- Method `Ball::update_fall`. -/
def update_fall (b : Ball) : Ball :=
  { b with m_falling_pos := b.m_falling_pos - 0.1 }

/-- Method `Ball::update_juggle`. -/
def update_juggle (b : Ball) : Ball :=
  let rot := b.m_rot_angle + b.m_rot_angular_vel
  { b with
    m_rot_angle := if rot ≥ 360.0 then 0.0 else rot
    m_rev_angle := b.m_rev_angle + b.m_rev_angular_vel }

/-- Method `Ball::get_random_next_pos_idx`: the loop `while (1)` with `fuel`
iterations at most.  Returns the result and the new number of `rand()` calls. -/
def get_random_next_pos_idx (rnd : Nat → Nat) :
    Nat → Nat → Int → Except Halt (Int × Nat)
  | 0, _, _ => Except.error Halt.out_of_fuel
  | fuel + 1, calls, last_pos_idx =>
    let result : Int := ((rnd calls % 9 : Nat) : Int)
    if result ≠ last_pos_idx then Except.ok (result, calls + 1)
    else get_random_next_pos_idx rnd fuel (calls + 1) last_pos_idx

/-- Method `Ball::get_random_rev_angular_vel`. -/
def get_random_rev_angular_vel (rnd : Nat → Nat) (calls : Nat) : Except Halt (ℚ × Nat) :=
  let num := rnd calls
  match num % 4 with
  | 0 => Except.ok (2.25, calls + 1)
  | 1 => Except.ok (2.5, calls + 1)
  | 2 => Except.ok (3.0, calls + 1)
  | 3 => Except.ok (3.6, calls + 1)
  | _ => Except.error (Halt.exit "Bug in 'get_random_rev_angular_vel'")

/-- Method `Ball::get_random_rot_angular_vel`. -/
def get_random_rot_angular_vel (rnd : Nat → Nat) (calls : Nat) : Except Halt (ℚ × Nat) :=
  let num := rnd calls
  match num % 4 with
  | 0 => Except.ok (1.0, calls + 1)
  | 1 => Except.ok (5.0, calls + 1)
  | 2 => Except.ok (10.0, calls + 1)
  | 3 => Except.ok (20.0, calls + 1)
  | _ => Except.error (Halt.exit "Bug in 'get_random_rot_angular_vel'")

/-- Method `Ball::get_pos_from_idx`: the entry `CELL_POS[idx]`. -/
def get_pos_from_idx (idx : Int) : Vec3 :=
  if 0 ≤ idx then CELL_POS.getD idx.toNat Vec3.zero else Vec3.zero

/-- Method `Ball::calc_rotation`. -/
def calc_rotation (b : Ball) : Ball :=
  let next_pos := get_pos_from_idx b.m_next_pos_idx
  let last_pos := get_pos_from_idx b.m_last_pos_idx
  let direction := next_pos.sub last_pos
  { b with
    m_rotation_axis := direction.cross ⟨0.0, -1.0, 0.0⟩
    m_rotation_center := (last_pos.add next_pos).smul 0.5 }

/-- Method `Ball::set_dest`. -/
def set_dest (rnd : Nat → Nat) (fuel : Nat) (b : Ball) (calls : Nat) :
    Except Halt (Ball × Nat) :=
  let b1 := { b with m_last_pos_idx := b.m_next_pos_idx }
  let b2 := { b1 with m_rev_angle := 0.0 }
  match get_random_next_pos_idx rnd fuel calls b2.m_last_pos_idx with
  | Except.error e => Except.error e
  | Except.ok (next, c1) =>
    let b3 := { b2 with m_next_pos_idx := next }
    match get_random_rev_angular_vel rnd c1 with
    | Except.error e => Except.error e
    | Except.ok (rev, c2) =>
      let b4 := { b3 with m_rev_angular_vel := rev }
      match get_random_rot_angular_vel rnd c2 with
      | Except.error e => Except.error e
      | Except.ok (rot, c3) =>
        let b5 := { b4 with m_rot_angular_vel := rot }
        Except.ok (calc_rotation b5, c3)

end Ball

/-! ## GameManager -/

/-- Enumeration `GameMode`. -/
inductive GameMode where
  | BEFORE_START
  | FALLING
  | JUGGLING
  | FAILED
  deriving DecidableEq

/-- Class `GameManager`, together with the two pieces of process state its
methods touch: the number of `rand()` calls made and the lines printed. -/
structure GameManager where
  m_game_mode : GameMode
  m_ball : Ball
  m_tile : Tile
  m_red_tile : Tile
  m_count : Int
  rand_calls : Nat
  stdout : List Printed
  deriving DecidableEq

namespace GameManager

/-- Constructor `GameManager::GameManager()` of the static object `g_game`. -/
def new : GameManager :=
  { m_game_mode := GameMode.BEFORE_START, m_ball := Ball.new, m_tile := ⟨4⟩,
    m_red_tile := ⟨4⟩, m_count := 0, rand_calls := 0, stdout := [] }

/-- Method `GameManager::init`, as far as the modelled fields go. -/
def init (g : GameManager) (center : Vec3) (scale : ℚ) : GameManager :=
  { g with m_ball := g.m_ball.init center scale }

/-- Method `GameManager::is_failure`. -/
def is_failure (g : GameManager) : Bool :=
  if !g.m_ball.is_fallen then false
  else if g.m_ball.get_next_pos_idx = g.m_tile.get_pos_idx then false
  else true

/-- Method `GameManager::reset`. -/
def reset (g : GameManager) : GameManager :=
  { g with m_ball := g.m_ball.reset, m_tile := g.m_tile.set_pos_number 4, m_count := 0 }

/-- Method `GameManager::main_loop`: one tick. -/
def main_loop (rnd : Nat → Nat) (fuel : Nat) (g : GameManager) : Except Halt GameManager :=
  match g.m_game_mode with
  | GameMode.BEFORE_START => Except.ok g
  | GameMode.FALLING =>
    if g.m_ball.get_falling_pos < 0.0 then
      match g.m_ball.set_dest rnd fuel g.rand_calls with
      | Except.error e => Except.error e
      | Except.ok (b, c) =>
        Except.ok { g with
          m_game_mode := GameMode.JUGGLING
          m_count := g.m_count + 1
          stdout := g.stdout ++ [Printed.score (g.m_count + 1)]
          m_ball := b.update_fall
          rand_calls := c }
    else Except.ok { g with m_ball := g.m_ball.update_fall }
  | GameMode.JUGGLING =>
    if g.is_failure then
      Except.ok { g with
        m_game_mode := GameMode.FAILED
        stdout := g.stdout ++ [Printed.failed g.m_count]
        m_ball := g.m_ball.update_juggle }
    else if g.m_ball.is_fallen then
      match g.m_ball.set_dest rnd fuel g.rand_calls with
      | Except.error e => Except.error e
      | Except.ok (b, c) =>
        Except.ok { g with
          m_count := g.m_count + 1
          stdout := g.stdout ++ [Printed.score (g.m_count + 1)]
          m_ball := b.update_juggle
          rand_calls := c }
    else Except.ok { g with m_ball := g.m_ball.update_juggle }
  | GameMode.FAILED =>
    Except.ok { g with m_red_tile := g.m_red_tile.set_pos_number g.m_ball.get_next_pos_idx }

/-- Method `GameManager::keyboard_event` (the window is not used). -/
def keyboard_event (g : GameManager) (key _scancode action _mods : Int) : GameManager :=
  let g1 :=
    if action = GLFW_PRESS ∧ g.m_game_mode = GameMode.JUGGLING then
      { g with m_tile := g.m_tile.set_pos_number_by_key (toChar key) }
    else g
  if action = GLFW_PRESS ∧ toChar key = code ' '
      ∧ (g1.m_game_mode = GameMode.BEFORE_START ∨ g1.m_game_mode = GameMode.FAILED) then
    reset { g1 with m_game_mode := GameMode.FALLING }
  else g1

end GameManager

/-! ## Runs and reachable states -/

/-- The draw `rnd (calls + k)` is the first one from call number `calls` on
whose remainder modulo 9 differs from `last`. -/
def FirstHit (rnd : Nat → Nat) (calls : Nat) (last : Int) (k : Nat) : Prop :=
  ((rnd (calls + k) % 9 : Nat) : Int) ≠ last
    ∧ ∀ j, j < k → ((rnd (calls + j) % 9 : Nat) : Int) = last

/-- The palette of revolution velocities. -/
def REV_PALETTE : List ℚ := [2.25, 2.5, 3.0, 3.6]

/-- The palette of spin velocities. -/
def ROT_PALETTE : List ℚ := [1, 5, 10, 20]

/-- State of the static object `g_game` when the frame loop starts: constructed,
then `init()` with the mesh data `center` and `scale`. -/
def initial (center : Vec3) (scale : ℚ) : GameManager :=
  GameManager.new.init center scale

/-- States reachable from the initial state by ticks that return and by key
events, for the stream of draws `rnd`. -/
inductive Reachable (rnd : Nat → Nat) (center : Vec3) (scale : ℚ) : GameManager → Prop
  | start : Reachable rnd center scale (initial center scale)
  | tick (fuel : Nat) (g g' : GameManager) :
      Reachable rnd center scale g → GameManager.main_loop rnd fuel g = Except.ok g' →
      Reachable rnd center scale g'
  | key (g : GameManager) (key scancode action mods : Int) :
      Reachable rnd center scale g →
      Reachable rnd center scale (g.keyboard_event key scancode action mods)

/-- Result of `n` consecutive ticks. -/
def ticks (rnd : Nat → Nat) (fuel : Nat) : Nat → GameManager → Except Halt GameManager
  | 0, g => Except.ok g
  | n + 1, g =>
    match GameManager.main_loop rnd fuel g with
    | Except.error e => Except.error e
    | Except.ok g' => ticks rnd fuel n g'

/-- The ball that `set_dest` leaves behind, given the three values drawn. -/
def destined (b : Ball) (next : Int) (rev rot : ℚ) : Ball :=
  Ball.calc_rotation
    { b with
      m_last_pos_idx := b.m_next_pos_idx
      m_rev_angle := 0.0
      m_next_pos_idx := next
      m_rev_angular_vel := rev
      m_rot_angular_vel := rot }

/-- A ball in transit from cell 4 to cell 2 that has just arrived. -/
def arrivedBall : Ball :=
  { Ball.new with m_next_pos_idx := 2, m_rev_angle := 180, m_rev_angular_vel := 3.6 }

/-- Juggling state in which the ball has arrived at cell 2 and the tile is on cell 4. -/
def missState : GameManager :=
  { GameManager.new with m_game_mode := GameMode.JUGGLING, m_ball := arrivedBall, m_count := 1 }

/-- Juggling state in which the ball has arrived at cell 2 and the tile is on cell 2. -/
def catchState : GameManager :=
  { missState with m_tile := ⟨2⟩ }

/-- Stream of draws `2, 3, 4, …`. -/
def drawsFrom2 : Nat → Nat := fun n => n + 2

/-- Constant `GLFW_KEY_SPACE`, equal to the character code of `' '`. -/
def GLFW_KEY_SPACE : Int := 32

/-- State right after the start key was pressed in the initial state. -/
def started (center : Vec3) (scale : ℚ) : GameManager :=
  { m_game_mode := GameMode.FALLING, m_ball := Ball.new.init center scale, m_tile := ⟨4⟩,
    m_red_tile := ⟨4⟩, m_count := 0, rand_calls := 0, stdout := [] }

/-- The state 32 ticks after the start key, for the draws `2, 3, 4, …`, mesh
centre zero and scale 1: the first destination (cell 2) has just been chosen. -/
def juggleStart : GameManager :=
  { m_game_mode := GameMode.JUGGLING,
    m_ball :=
      { m_falling_pos := -1 / 5, m_last_pos_idx := 4, m_next_pos_idx := 2, m_rot_angle := 0,
        m_rev_angle := 0, m_rot_angular_vel := 1, m_rev_angular_vel := 18 / 5,
        m_to_center := Vec3.zero, m_scale := 1, m_rotation_axis := ⟨-2, 0, -2⟩,
        m_rotation_center := ⟨1, 0, -1⟩ },
    m_tile := ⟨4⟩, m_red_tile := ⟨4⟩, m_count := 1, rand_calls := 3,
    stdout := [Printed.score 1] }

/-- The state 83 ticks after the start key in the same run, the tile never
moved: the ball arrived at cell 2 after 50 ticks of transit and was missed. -/
def failedState : GameManager :=
  { juggleStart with
    m_game_mode := GameMode.FAILED
    m_ball := { juggleStart.m_ball with m_rot_angle := 51, m_rev_angle := 918 / 5 }
    stdout := [Printed.score 1, Printed.failed 1] }

/-- The state after the restart key was pressed in `failedState`. -/
def restartedState : GameManager :=
  failedState.keyboard_event GLFW_KEY_SPACE 0 GLFW_PRESS 0

/-- The relation between the mode and the two cells of the ball: before a
destination is chosen in the current round both are the centre cell, afterwards
they differ. -/
def DestinationInv (g : GameManager) : Prop :=
  ((g.m_game_mode = GameMode.BEFORE_START ∨ g.m_game_mode = GameMode.FALLING) →
      g.m_ball.m_last_pos_idx = 4 ∧ g.m_ball.m_next_pos_idx = 4)
    ∧ ((g.m_game_mode = GameMode.JUGGLING ∨ g.m_game_mode = GameMode.FAILED) →
      g.m_ball.m_next_pos_idx ≠ g.m_ball.m_last_pos_idx)

/-- The nine cell keys in the order in which `print_how_to_play` lists them:
top left, top center, top right, center left, center, center right, bottom
left, bottom center, bottom right. -/
def CELL_KEYS : List Char := ['Q', 'W', 'E', 'A', 'S', 'D', 'Z', 'X', 'C']

/-- Constant `GLFW_KEY_RIGHT_SHIFT`. -/
def GLFW_KEY_RIGHT_SHIFT : Int := 344

/-- The index `i` is one of the nine cells `0..8`, the valid indices of `CELL_POS`. -/
def InGrid (i : Int) : Prop := 0 ≤ i ∧ i ≤ 8

/-- All four cell indices held by the game are valid indices of `CELL_POS`. -/
def CellsInv (g : GameManager) : Prop :=
  InGrid g.m_tile.m_pos_idx ∧ InGrid g.m_red_tile.m_pos_idx
    ∧ InGrid g.m_ball.m_last_pos_idx ∧ InGrid g.m_ball.m_next_pos_idx

/-- Number of `update_juggle` steps after which a transit with revolution
velocity `v` reaches 180 degrees. -/
def transitTicks (v : ℚ) : Nat :=
  if v = 2.25 then 80 else if v = 2.5 then 72 else if v = 3.0 then 60 else 50

/-- In a round in progress the rotation fields are those that `calc_rotation`
computes from the two cells. -/
def RotationInv (g : GameManager) : Prop :=
  (g.m_game_mode = GameMode.JUGGLING ∨ g.m_game_mode = GameMode.FAILED) →
    g.m_ball.m_rotation_axis
        = ((Ball.get_pos_from_idx g.m_ball.m_next_pos_idx).sub
            (Ball.get_pos_from_idx g.m_ball.m_last_pos_idx)).cross ⟨0.0, -1.0, 0.0⟩
      ∧ g.m_ball.m_rotation_center
        = ((Ball.get_pos_from_idx g.m_ball.m_last_pos_idx).add
            (Ball.get_pos_from_idx g.m_ball.m_next_pos_idx)).smul 0.5

/-- Constant `GLFW_KEY_LEFT_SUPER`. -/
def GLFW_KEY_LEFT_SUPER : Int := 343

/-! ## The binary32 model

The source computes in `float`.  The definitions above idealise it by exact
rationals; the definitions below round every arithmetic operation to binary32
and give the decimal literal `3.6f` and `0.1f` their binary32 values.  The other
literals of the source (`0.0f`, `1.0f`, `2.25f`, `2.5f`, `3.0f`, `5.0f`,
`10.0f`, `20.0f`, `180.0f`, `360.0f`, `0.5f`) are binary32 numbers. -/

/-- Rounding of a rational to the nearest integer, a tie to the even one. -/
def roundEven (m : ℚ) : ℤ :=
  if m - ⌊m⌋ < 1 / 2 then ⌊m⌋
  else if 1 / 2 < m - ⌊m⌋ then ⌊m⌋ + 1
  else if ⌊m⌋ % 2 = 0 then ⌊m⌋ else ⌊m⌋ + 1

/-- Rounding to binary32, round to nearest and ties to even: significand of 24
bits, least exponent -126.  Overflow to infinity is not modelled; the values of
the game stay far below `2 ^ 128`. -/
def f32 (x : ℚ) : ℚ :=
  if x = 0 then 0
  else (roundEven (x / 2 ^ (max (Int.log 2 |x|) (-126) - 23)) : ℚ)
    * 2 ^ (max (Int.log 2 |x|) (-126) - 23)

/-- Componentwise `a + b` in binary32. -/
def Vec3.add_f32 (a b : Vec3) : Vec3 := ⟨f32 (a.x + b.x), f32 (a.y + b.y), f32 (a.z + b.z)⟩

/-- Componentwise `a - b` in binary32. -/
def Vec3.sub_f32 (a b : Vec3) : Vec3 := ⟨f32 (a.x - b.x), f32 (a.y - b.y), f32 (a.z - b.z)⟩

/-- Scaling `a * s` in binary32. -/
def Vec3.smul_f32 (a : Vec3) (s : ℚ) : Vec3 := ⟨f32 (a.x * s), f32 (a.y * s), f32 (a.z * s)⟩

/-- Cross product `glm::cross(a, b)` in binary32. -/
def Vec3.cross_f32 (a b : Vec3) : Vec3 :=
  ⟨f32 (f32 (a.y * b.z) - f32 (b.y * a.z)), f32 (f32 (a.z * b.x) - f32 (b.z * a.x)),
    f32 (f32 (a.x * b.y) - f32 (b.x * a.y))⟩

/-- Method `Ball::update_fall` in binary32. -/
def Ball.update_fall_f32 (b : Ball) : Ball :=
  { b with m_falling_pos := f32 (b.m_falling_pos - f32 0.1) }

/-- Method `Ball::update_juggle` in binary32. -/
def Ball.update_juggle_f32 (b : Ball) : Ball :=
  let rot := f32 (b.m_rot_angle + b.m_rot_angular_vel)
  { b with
    m_rot_angle := if rot ≥ 360.0 then 0.0 else rot
    m_rev_angle := f32 (b.m_rev_angle + b.m_rev_angular_vel) }

/-- Method `Ball::get_random_rev_angular_vel` in binary32: `3.6f` is `f32 3.6`. -/
def Ball.get_random_rev_angular_vel_f32 (rnd : Nat → Nat) (calls : Nat) :
    Except Halt (ℚ × Nat) :=
  let num := rnd calls
  match num % 4 with
  | 0 => Except.ok (2.25, calls + 1)
  | 1 => Except.ok (2.5, calls + 1)
  | 2 => Except.ok (3.0, calls + 1)
  | 3 => Except.ok (f32 3.6, calls + 1)
  | _ => Except.error (Halt.exit "Bug in 'get_random_rev_angular_vel'")

/-- Method `Ball::calc_rotation` in binary32. -/
def Ball.calc_rotation_f32 (b : Ball) : Ball :=
  let next_pos := Ball.get_pos_from_idx b.m_next_pos_idx
  let last_pos := Ball.get_pos_from_idx b.m_last_pos_idx
  let direction := next_pos.sub_f32 last_pos
  { b with
    m_rotation_axis := direction.cross_f32 ⟨0.0, -1.0, 0.0⟩
    m_rotation_center := (last_pos.add_f32 next_pos).smul_f32 0.5 }

/-- Method `Ball::set_dest` in binary32. -/
def Ball.set_dest_f32 (rnd : Nat → Nat) (fuel : Nat) (b : Ball) (calls : Nat) :
    Except Halt (Ball × Nat) :=
  let b1 := { b with m_last_pos_idx := b.m_next_pos_idx }
  let b2 := { b1 with m_rev_angle := 0.0 }
  match Ball.get_random_next_pos_idx rnd fuel calls b2.m_last_pos_idx with
  | Except.error e => Except.error e
  | Except.ok (next, c1) =>
    let b3 := { b2 with m_next_pos_idx := next }
    match Ball.get_random_rev_angular_vel_f32 rnd c1 with
    | Except.error e => Except.error e
    | Except.ok (rev, c2) =>
      let b4 := { b3 with m_rev_angular_vel := rev }
      match Ball.get_random_rot_angular_vel rnd c2 with
      | Except.error e => Except.error e
      | Except.ok (rot, c3) =>
        let b5 := { b4 with m_rot_angular_vel := rot }
        Except.ok (Ball.calc_rotation_f32 b5, c3)

/-- Method `GameManager::main_loop` in binary32: one tick. -/
def GameManager.main_loop_f32 (rnd : Nat → Nat) (fuel : Nat) (g : GameManager) :
    Except Halt GameManager :=
  match g.m_game_mode with
  | GameMode.BEFORE_START => Except.ok g
  | GameMode.FALLING =>
    if g.m_ball.get_falling_pos < 0.0 then
      match g.m_ball.set_dest_f32 rnd fuel g.rand_calls with
      | Except.error e => Except.error e
      | Except.ok (b, c) =>
        Except.ok { g with
          m_game_mode := GameMode.JUGGLING
          m_count := g.m_count + 1
          stdout := g.stdout ++ [Printed.score (g.m_count + 1)]
          m_ball := b.update_fall_f32
          rand_calls := c }
    else Except.ok { g with m_ball := g.m_ball.update_fall_f32 }
  | GameMode.JUGGLING =>
    if g.is_failure then
      Except.ok { g with
        m_game_mode := GameMode.FAILED
        stdout := g.stdout ++ [Printed.failed g.m_count]
        m_ball := g.m_ball.update_juggle_f32 }
    else if g.m_ball.is_fallen then
      match g.m_ball.set_dest_f32 rnd fuel g.rand_calls with
      | Except.error e => Except.error e
      | Except.ok (b, c) =>
        Except.ok { g with
          m_count := g.m_count + 1
          stdout := g.stdout ++ [Printed.score (g.m_count + 1)]
          m_ball := b.update_juggle_f32
          rand_calls := c }
    else Except.ok { g with m_ball := g.m_ball.update_juggle_f32 }
  | GameMode.FAILED =>
    Except.ok { g with m_red_tile := g.m_red_tile.set_pos_number g.m_ball.get_next_pos_idx }

/-- States reachable in the binary32 model from the initial state by ticks that
return and by key events.  `GameManager::keyboard_event` and `Ball::reset` do
no arithmetic and are the same in both models. -/
inductive Reachable_f32 (rnd : Nat → Nat) (center : Vec3) (scale : ℚ) : GameManager → Prop
  | start : Reachable_f32 rnd center scale (initial center scale)
  | tick (fuel : Nat) (g g' : GameManager) :
      Reachable_f32 rnd center scale g →
      GameManager.main_loop_f32 rnd fuel g = Except.ok g' →
      Reachable_f32 rnd center scale g'
  | key (g : GameManager) (key scancode action mods : Int) :
      Reachable_f32 rnd center scale g →
      Reachable_f32 rnd center scale (g.keyboard_event key scancode action mods)

/-- Result of `n` consecutive ticks in the binary32 model. -/
def ticks_f32 (rnd : Nat → Nat) (fuel : Nat) : Nat → GameManager → Except Halt GameManager
  | 0, g => Except.ok g
  | n + 1, g =>
    match GameManager.main_loop_f32 rnd fuel g with
    | Except.error e => Except.error e
    | Except.ok g' => ticks_f32 rnd fuel n g'

/-- The palette of revolution velocities in binary32. -/
def REV_PALETTE_F32 : List ℚ := [2.25, 2.5, 3.0, f32 3.6]

/-- The revolution angle `m` steps of `update_juggle` after `set_dest`, for the
velocity `v`: the running sum of `m` additions of `v` in binary32. -/
def runningSum32 (v : ℚ) : Nat → ℚ
  | 0 => 0
  | m + 1 => f32 (runningSum32 v m + v)

/-- The height `k` steps of `update_fall` after `reset`, in binary32. -/
def fallHeight32 : Nat → ℚ
  | 0 => INITIAL_POS
  | k + 1 => f32 (fallHeight32 k - f32 0.1)

/-- The binary32 invariant of a transit: the revolution velocity is one of the
palette, and in mode `JUGGLING` the revolution angle is the running sum of `m`
additions of it, with `m` at most the length of the transit. -/
def TransitInv_f32 (g : GameManager) : Prop :=
  g.m_ball.m_rev_angular_vel ∈ REV_PALETTE_F32
    ∧ (g.m_game_mode = GameMode.JUGGLING →
      ∃ m : Nat, m ≤ transitTicks g.m_ball.m_rev_angular_vel
        ∧ g.m_ball.m_rev_angle = runningSum32 g.m_ball.m_rev_angular_vel m)

/-- The ball that `set_dest` leaves behind in the binary32 model, given the three
values drawn. -/
def destined_f32 (b : Ball) (next : Int) (rev rot : ℚ) : Ball :=
  Ball.calc_rotation_f32
    { b with
      m_last_pos_idx := b.m_next_pos_idx
      m_rev_angle := 0.0
      m_next_pos_idx := next
      m_rev_angular_vel := rev
      m_rot_angular_vel := rot }

/-- The revolution angles of a transit at `3.6f` in binary32: entry `m` is the
angle after `m` steps of `update_juggle`. -/
def TRACE_36 : List ℚ :=
  [0,
   (7549747 / 2097152),
   (7549747 / 1048576),
   (2831155 / 262144),
   (7549747 / 524288),
   18,
   (11324621 / 524288),
   (6606029 / 262144),
   (15099495 / 524288),
   (4246733 / 131072),
   36,
   (5190451 / 131072),
   (2831155 / 65536),
   (6134169 / 131072),
   (1651507 / 32768),
   (7077887 / 131072),
   (3774873 / 65536),
   (8021605 / 131072),
   (1061683 / 16384),
   (8965323 / 131072),
   (4718591 / 65536),
   (9909041 / 131072),
   (2595225 / 32768),
   (10852759 / 131072),
   (5662309 / 65536),
   (11796477 / 131072),
   (766771 / 8192),
   (12740195 / 131072),
   (6606027 / 65536),
   (13683913 / 131072),
   (3538943 / 32768),
   (14627631 / 131072),
   (7549745 / 65536),
   (15571349 / 131072),
   (2005401 / 16384),
   (16515067 / 131072),
   (8493463 / 65536),
   (8729393 / 65536),
   (8965323 / 65536),
   (9201253 / 65536),
   (9437183 / 65536),
   (9673113 / 65536),
   (9909043 / 65536),
   (10144973 / 65536),
   (10380903 / 65536),
   (10616833 / 65536),
   (10852763 / 65536),
   (11088693 / 65536),
   (11324623 / 65536),
   (11560553 / 65536),
   (11796483 / 65536),
   (12032413 / 65536)]

/-- The heights of the fall in binary32: entry `k` is the height after `k`
steps of `update_fall`. -/
def TRACE_FALL : List ℚ :=
  [3,
   (6081741 / 2097152),
   (2936013 / 1048576),
   (5662311 / 2097152),
   (1363149 / 524288),
   (5242881 / 2097152),
   (2516583 / 1048576),
   (4823451 / 2097152),
   (576717 / 262144),
   (4404021 / 2097152),
   (2097153 / 1048576),
   (15938363 / 8388608),
   (7549751 / 4194304),
   (14260641 / 8388608),
   (3355445 / 2097152),
   (12582919 / 8388608),
   (5872029 / 4194304),
   (10905197 / 8388608),
   (314573 / 262144),
   (9227475 / 8388608),
   (4194307 / 4194304),
   (7549753 / 8388608),
   (1677723 / 2097152),
   (5872031 / 8388608),
   (2516585 / 4194304),
   (4194309 / 8388608),
   (13421793 / 33554432),
   (5033175 / 16777216),
   (6710907 / 33554432),
   (13421855 / 134217728),
   (41 / 67108864),
   (-13421691 / 134217728),
   (-3355433 / 16777216)]

/-- The state 32 ticks after the start key in the binary32 model, for the draws
`2, 3, 4, …`, mesh centre zero and scale 1: the first destination (cell 2) has
just been chosen, with the revolution velocity `3.6f`. -/
def juggleStart_f32 : GameManager :=
  { m_game_mode := GameMode.JUGGLING,
    m_ball :=
      { m_falling_pos := -3355433 / 16777216, m_last_pos_idx := 4, m_next_pos_idx := 2,
        m_rot_angle := 0, m_rev_angle := 0, m_rot_angular_vel := 1,
        m_rev_angular_vel := 7549747 / 2097152, m_to_center := Vec3.zero, m_scale := 1,
        m_rotation_axis := ⟨-2, 0, -2⟩, m_rotation_center := ⟨1, 0, -1⟩ },
    m_tile := ⟨4⟩, m_red_tile := ⟨4⟩, m_count := 1, rand_calls := 3,
    stdout := [Printed.score 1] }

/-- The state 50 ticks later in the same binary32 run, the tile never moved:
the state in which the arrival check is true for the first time. -/
def overshootState : GameManager :=
  { juggleStart_f32 with
    m_ball := { juggleStart_f32.m_ball with m_rot_angle := 50, m_rev_angle := 11796483 / 65536 } }

theorem get_random_next_pos_idx_hit (rnd : Nat → Nat) (last : Int) :
    ∀ (k fuel calls : Nat), k < fuel → FirstHit rnd calls last k →
      Ball.get_random_next_pos_idx rnd fuel calls last
        = Except.ok (((rnd (calls + k) % 9 : Nat) : Int), calls + k + 1) := by
  intro k
  induction k with
  | zero =>
    intro fuel calls hf hk
    obtain ⟨f, rfl⟩ : ∃ f, fuel = f + 1 := ⟨fuel - 1, by omega⟩
    have h0 := hk.1
    simp only [Nat.add_zero] at h0
    rw [Ball.get_random_next_pos_idx]
    simp only [Nat.add_zero]
    rw [if_pos h0]
  | succ k ih =>
    intro fuel calls hf hk
    obtain ⟨f, rfl⟩ : ∃ f, fuel = f + 1 := ⟨fuel - 1, by omega⟩
    have h0 : ((rnd calls % 9 : Nat) : Int) = last := by
      simpa using hk.2 0 (Nat.succ_pos k)
    have hk' : FirstHit rnd (calls + 1) last k := by
      refine ⟨?_, ?_⟩
      · have := hk.1
        rwa [show calls + (k + 1) = calls + 1 + k by omega] at this
      · intro j hj
        have := hk.2 (j + 1) (by omega)
        rwa [show calls + (j + 1) = calls + 1 + j by omega] at this
    have := ih f (calls + 1) (by omega) hk'
    rw [Ball.get_random_next_pos_idx]
    show (if ((rnd calls % 9 : Nat) : Int) ≠ last then _ else _) = _
    rw [if_neg (not_not.mpr h0), this, show calls + 1 + k = calls + (k + 1) by omega]

theorem get_random_rev_angular_vel_ok (rnd : Nat → Nat) (calls : Nat) :
    ∃ v, Ball.get_random_rev_angular_vel rnd calls = Except.ok (v, calls + 1)
      ∧ v ∈ REV_PALETTE := by
  have h : rnd calls % 4 < 4 := Nat.mod_lt _ (by decide)
  unfold Ball.get_random_rev_angular_vel
  simp only
  generalize rnd calls % 4 = m at h
  interval_cases m
  · exact ⟨2.25, rfl, by simp [REV_PALETTE]⟩
  · exact ⟨2.5, rfl, by simp [REV_PALETTE]⟩
  · exact ⟨3.0, rfl, by simp [REV_PALETTE]⟩
  · exact ⟨3.6, rfl, by simp [REV_PALETTE]⟩

theorem get_random_rot_angular_vel_ok (rnd : Nat → Nat) (calls : Nat) :
    ∃ v, Ball.get_random_rot_angular_vel rnd calls = Except.ok (v, calls + 1)
      ∧ v ∈ ROT_PALETTE := by
  have h : rnd calls % 4 < 4 := Nat.mod_lt _ (by decide)
  unfold Ball.get_random_rot_angular_vel
  simp only
  generalize rnd calls % 4 = m at h
  interval_cases m
  · exact ⟨1.0, rfl, by norm_num [ROT_PALETTE]⟩
  · exact ⟨5.0, rfl, by norm_num [ROT_PALETTE]⟩
  · exact ⟨10.0, rfl, by norm_num [ROT_PALETTE]⟩
  · exact ⟨20.0, rfl, by norm_num [ROT_PALETTE]⟩

theorem set_dest_hit (rnd : Nat → Nat) (fuel : Nat) (b : Ball) (calls k : Nat)
    (hf : k < fuel) (hk : FirstHit rnd calls b.m_next_pos_idx k) :
    ∃ rev rot, rev ∈ REV_PALETTE ∧ rot ∈ ROT_PALETTE
      ∧ Ball.set_dest rnd fuel b calls
        = Except.ok (destined b ((rnd (calls + k) % 9 : Nat) : Int) rev rot,
            calls + k + 3) := by
  obtain ⟨rev, hrev, hrevm⟩ := get_random_rev_angular_vel_ok rnd (calls + k + 1)
  obtain ⟨rot, hrot, hrotm⟩ := get_random_rot_angular_vel_ok rnd (calls + k + 1 + 1)
  refine ⟨rev, rot, hrevm, hrotm, ?_⟩
  unfold Ball.set_dest
  simp only [get_random_next_pos_idx_hit rnd b.m_next_pos_idx k fuel calls hf hk, hrev, hrot]
  rfl

theorem is_fallen_iff (b : Ball) : b.is_fallen = true ↔ 180 ≤ b.m_rev_angle := by
  unfold Ball.is_fallen
  rw [decide_eq_true_iff]
  norm_num

theorem is_failure_iff (g : GameManager) :
    g.is_failure = true
      ↔ 180 ≤ g.m_ball.m_rev_angle ∧ g.m_tile.m_pos_idx ≠ g.m_ball.m_next_pos_idx := by
  unfold GameManager.is_failure Ball.get_next_pos_idx Tile.get_pos_idx
  by_cases h : g.m_ball.is_fallen = true
  · have h' := (is_fallen_iff _).1 h
    by_cases e : g.m_ball.m_next_pos_idx = g.m_tile.m_pos_idx
    · simp [h, e]
    · have e' : g.m_tile.m_pos_idx ≠ g.m_ball.m_next_pos_idx := fun x => e x.symm
      simp [h, e, h', e']
  · have h' : ¬ 180 ≤ g.m_ball.m_rev_angle := fun x => h ((is_fallen_iff _).2 x)
    simp [h, h']

/-- A tick in `JUGGLING` on which `is_failure()` holds. -/
theorem main_loop_juggling_fail (rnd : Nat → Nat) (fuel : Nat) (g : GameManager)
    (hm : g.m_game_mode = GameMode.JUGGLING) (hf : g.is_failure = true) :
    GameManager.main_loop rnd fuel g
      = Except.ok { g with
          m_game_mode := GameMode.FAILED
          stdout := g.stdout ++ [Printed.failed g.m_count]
          m_ball := g.m_ball.update_juggle } := by
  unfold GameManager.main_loop
  simp [hm, hf]

/-- A tick in `JUGGLING` on which the ball has not arrived. -/
theorem main_loop_juggling_fly (rnd : Nat → Nat) (fuel : Nat) (g : GameManager)
    (hm : g.m_game_mode = GameMode.JUGGLING) (ha : g.m_ball.is_fallen = false) :
    GameManager.main_loop rnd fuel g
      = Except.ok { g with m_ball := g.m_ball.update_juggle } := by
  have hf : g.is_failure = false := by
    unfold GameManager.is_failure
    simp [ha]
  unfold GameManager.main_loop
  simp [hm, hf, ha]

/-- A tick in `JUGGLING` on which the ball has arrived on the tile. -/
theorem main_loop_juggling_catch (rnd : Nat → Nat) (fuel : Nat) (g : GameManager)
    (hm : g.m_game_mode = GameMode.JUGGLING) (hf : g.is_failure = false)
    (ha : g.m_ball.is_fallen = true) (b : Ball) (c : Nat)
    (hd : g.m_ball.set_dest rnd fuel g.rand_calls = Except.ok (b, c)) :
    GameManager.main_loop rnd fuel g
      = Except.ok { g with
          m_count := g.m_count + 1
          stdout := g.stdout ++ [Printed.score (g.m_count + 1)]
          m_ball := b.update_juggle
          rand_calls := c } := by
  unfold GameManager.main_loop
  simp [hm, hf, ha, hd]

/-- A tick in `FALLING` that sees a height that is not negative. -/
theorem main_loop_falling_high (rnd : Nat → Nat) (fuel : Nat) (g : GameManager)
    (hm : g.m_game_mode = GameMode.FALLING) (hh : 0 ≤ g.m_ball.m_falling_pos) :
    GameManager.main_loop rnd fuel g
      = Except.ok { g with m_ball := g.m_ball.update_fall } := by
  have hh' : ¬ g.m_ball.m_falling_pos < 0.0 := by
    rw [show (0.0 : ℚ) = 0 by norm_num]
    exact not_lt.mpr hh
  unfold GameManager.main_loop
  simp only [hm, Ball.get_falling_pos, if_neg hh']

/-- A tick in `FALLING` that sees a negative height. -/
theorem main_loop_falling_low (rnd : Nat → Nat) (fuel : Nat) (g : GameManager)
    (hm : g.m_game_mode = GameMode.FALLING) (hh : g.m_ball.m_falling_pos < 0)
    (b : Ball) (c : Nat)
    (hd : g.m_ball.set_dest rnd fuel g.rand_calls = Except.ok (b, c)) :
    GameManager.main_loop rnd fuel g
      = Except.ok { g with
          m_game_mode := GameMode.JUGGLING
          m_count := g.m_count + 1
          stdout := g.stdout ++ [Printed.score (g.m_count + 1)]
          m_ball := b.update_fall
          rand_calls := c } := by
  have hh' : g.m_ball.m_falling_pos < 0.0 := by
    rw [show (0.0 : ℚ) = 0 by norm_num]
    exact hh
  unfold GameManager.main_loop
  simp only [hm, Ball.get_falling_pos, if_pos hh', hd]

/-- A tick in `FAILED`. -/
theorem main_loop_failed (rnd : Nat → Nat) (fuel : Nat) (g : GameManager)
    (hm : g.m_game_mode = GameMode.FAILED) :
    GameManager.main_loop rnd fuel g
      = Except.ok { g with m_red_tile := ⟨g.m_ball.m_next_pos_idx⟩ } := by
  unfold GameManager.main_loop
  simp [hm, Tile.set_pos_number, Ball.get_next_pos_idx]

theorem rev_palette_bounds (v : ℚ) (h : v ∈ REV_PALETTE) : 0 < v ∧ v ≤ 3.6 := by
  simp only [REV_PALETTE, List.mem_cons, List.mem_singleton, List.not_mem_nil, or_false] at h
  rcases h with h | h | h | h <;> subst h <;> norm_num

theorem draw_range (rnd : Nat → Nat) (calls k : Nat) :
    0 ≤ ((rnd (calls + k) % 9 : Nat) : Int) ∧ ((rnd (calls + k) % 9 : Nat) : Int) ≤ 8 := by
  have := Nat.mod_lt (rnd (calls + k)) (show 0 < 9 by decide)
  omega

theorem main_loop_juggling_mode (rnd : Nat → Nat) (fuel : Nat) (g g' : GameManager)
    (hm : g.m_game_mode = GameMode.JUGGLING) (hf : g.is_failure = false)
    (h : GameManager.main_loop rnd fuel g = Except.ok g') :
    g'.m_game_mode = GameMode.JUGGLING := by
  cases ha : g.m_ball.is_fallen with
  | false =>
    rw [main_loop_juggling_fly rnd fuel g hm ha] at h
    cases h
    exact hm
  | true =>
    cases hd : g.m_ball.set_dest rnd fuel g.rand_calls with
    | error e =>
      unfold GameManager.main_loop at h
      simp [hm, hf, ha, hd] at h
    | ok r =>
      obtain ⟨b, c⟩ := r
      rw [main_loop_juggling_catch rnd fuel g hm hf ha b c hd] at h
      cases h
      exact hm

/-- The explicit result of a tick in `JUGGLING` that catches the ball. -/
theorem main_loop_catch_explicit (rnd : Nat → Nat) (fuel : Nat) (g : GameManager) (k : Nat)
    (hm : g.m_game_mode = GameMode.JUGGLING) (ha : 180 ≤ g.m_ball.m_rev_angle)
    (ht : g.m_tile.m_pos_idx = g.m_ball.m_next_pos_idx)
    (hk : FirstHit rnd g.rand_calls g.m_ball.m_next_pos_idx k) (hf : k < fuel) :
    ∃ rev rot, rev ∈ REV_PALETTE ∧ rot ∈ ROT_PALETTE
      ∧ GameManager.main_loop rnd fuel g
        = Except.ok { g with
            m_count := g.m_count + 1
            stdout := g.stdout ++ [Printed.score (g.m_count + 1)]
            m_ball := (destined g.m_ball
              ((rnd (g.rand_calls + k) % 9 : Nat) : Int) rev rot).update_juggle
            rand_calls := g.rand_calls + k + 3 } := by
  have hfail : g.is_failure = false := by
    cases h : g.is_failure with
    | false => rfl
    | true => exact absurd ht ((is_failure_iff g).1 h).2
  obtain ⟨rev, rot, hrev, hrot, hd⟩ := set_dest_hit rnd fuel g.m_ball g.rand_calls k hf hk
  exact ⟨rev, rot, hrev, hrot,
    main_loop_juggling_catch rnd fuel g hm hfail ((is_fallen_iff _).2 ha) _ _ hd⟩

theorem destined_juggle_rev (b : Ball) (next : Int) (rev rot : ℚ) :
    (destined b next rev rot).update_juggle.m_rev_angle = rev := by
  show (0.0 : ℚ) + rev = rev
  norm_num

/-- A tick in `JUGGLING` that is not a catch changes neither the score nor the
destination. -/
theorem main_loop_juggling_no_catch (rnd : Nat → Nat) (fuel : Nat) (g : GameManager)
    (hm : g.m_game_mode = GameMode.JUGGLING)
    (hc : ¬ (180 ≤ g.m_ball.m_rev_angle ∧ g.m_tile.m_pos_idx = g.m_ball.m_next_pos_idx)) :
    ∃ g', GameManager.main_loop rnd fuel g = Except.ok g'
      ∧ g'.m_count = g.m_count
      ∧ g'.m_ball.m_last_pos_idx = g.m_ball.m_last_pos_idx
      ∧ g'.m_ball.m_next_pos_idx = g.m_ball.m_next_pos_idx
      ∧ g'.rand_calls = g.rand_calls
      ∧ g'.m_tile = g.m_tile
      ∧ (g'.m_game_mode = GameMode.JUGGLING ∧ g'.stdout = g.stdout
        ∨ g'.m_game_mode = GameMode.FAILED ∧ 180 ≤ g.m_ball.m_rev_angle) := by
  by_cases ha : 180 ≤ g.m_ball.m_rev_angle
  · have ht : g.m_tile.m_pos_idx ≠ g.m_ball.m_next_pos_idx := fun e => hc ⟨ha, e⟩
    have hf := (is_failure_iff g).2 ⟨ha, ht⟩
    exact ⟨_, main_loop_juggling_fail rnd fuel g hm hf, rfl, rfl, rfl, rfl, rfl,
      Or.inr ⟨rfl, ha⟩⟩
  · have hn : g.m_ball.is_fallen = false := by
      cases h : g.m_ball.is_fallen with
      | false => rfl
      | true => exact absurd ((is_fallen_iff _).1 h) ha
    exact ⟨_, main_loop_juggling_fly rnd fuel g hm hn, rfl, rfl, rfl, rfl, rfl,
      Or.inl ⟨hm, rfl⟩⟩

theorem get_random_next_pos_idx_sound (rnd : Nat → Nat) (last : Int) :
    ∀ (fuel calls : Nat) (r : Int) (c : Nat),
      Ball.get_random_next_pos_idx rnd fuel calls last = Except.ok (r, c) →
      r ≠ last ∧ 0 ≤ r ∧ r ≤ 8 ∧ calls < c := by
  intro fuel
  induction fuel with
  | zero =>
    intro calls r c h
    simp [Ball.get_random_next_pos_idx] at h
  | succ f ih =>
    intro calls r c h
    rw [Ball.get_random_next_pos_idx] at h
    by_cases hr : ((rnd calls % 9 : Nat) : Int) ≠ last
    · have h' : (Except.ok (((rnd calls % 9 : Nat) : Int), calls + 1) : Except Halt (Int × Nat))
          = Except.ok (r, c) := by
        rw [← h]
        exact (if_pos hr).symm
      injection h' with h'
      injection h' with h1 h2
      subst h1 h2
      have := Nat.mod_lt (rnd calls) (show 0 < 9 by decide)
      exact ⟨hr, by omega, by omega, by omega⟩
    · have h' : Ball.get_random_next_pos_idx rnd f (calls + 1) last = Except.ok (r, c) := by
        rw [← h]
        exact (if_neg hr).symm
      obtain ⟨h1, h2, h3, h4⟩ := ih (calls + 1) r c h'
      exact ⟨h1, h2, h3, by omega⟩

theorem set_dest_sound (rnd : Nat → Nat) (fuel : Nat) (b b' : Ball) (calls c : Nat)
    (h : Ball.set_dest rnd fuel b calls = Except.ok (b', c)) :
    ∃ next rev rot, b' = destined b next rev rot
      ∧ next ≠ b.m_next_pos_idx ∧ 0 ≤ next ∧ next ≤ 8
      ∧ rev ∈ REV_PALETTE ∧ rot ∈ ROT_PALETTE ∧ calls < c := by
  unfold Ball.set_dest at h
  cases hn : Ball.get_random_next_pos_idx rnd fuel calls b.m_next_pos_idx with
  | error e => simp [hn] at h
  | ok r =>
    obtain ⟨next, c1⟩ := r
    obtain ⟨h1, h2, h3, h4⟩ := get_random_next_pos_idx_sound rnd _ fuel calls next c1 hn
    obtain ⟨rev, hrev, hrevm⟩ := get_random_rev_angular_vel_ok rnd c1
    obtain ⟨rot, hrot, hrotm⟩ := get_random_rot_angular_vel_ok rnd (c1 + 1)
    simp only [hn, hrev, hrot] at h
    injection h with h
    injection h with hb hc
    refine ⟨next, rev, rot, hb.symm, h1, h2, h3, hrevm, hrotm, by omega⟩

theorem ticks_succ_ok (rnd : Nat → Nat) (fuel n : Nat) (g g1 : GameManager)
    (h : GameManager.main_loop rnd fuel g = Except.ok g1) :
    ticks rnd fuel (n + 1) g = ticks rnd fuel n g1 := by
  rw [ticks]
  simp only [h]

theorem ticks_add (rnd : Nat → Nat) (fuel : Nat) :
    ∀ (m n : Nat) (g g1 : GameManager), ticks rnd fuel m g = Except.ok g1 →
      ticks rnd fuel (m + n) g = ticks rnd fuel n g1 := by
  intro m
  induction m with
  | zero =>
    intro n g g1 h
    rw [ticks] at h
    injection h with h
    subst h
    simp
  | succ m ih =>
    intro n g g1 h
    cases h1 : GameManager.main_loop rnd fuel g with
    | error e =>
      rw [ticks] at h
      simp [h1] at h
    | ok g2 =>
      rw [ticks_succ_ok rnd fuel m g g2 h1] at h
      rw [show m + 1 + n = (m + n) + 1 by omega, ticks_succ_ok rnd fuel (m + n) g g2 h1]
      exact ih n g2 g1 h

theorem reachable_ticks (rnd : Nat → Nat) (center : Vec3) (scale : ℚ) (fuel : Nat) :
    ∀ (n : Nat) (g g' : GameManager), Reachable rnd center scale g →
      ticks rnd fuel n g = Except.ok g' → Reachable rnd center scale g' := by
  intro n
  induction n with
  | zero =>
    intro g g' hr h
    rw [ticks] at h
    injection h with h
    subst h
    exact hr
  | succ n ih =>
    intro g g' hr h
    cases h1 : GameManager.main_loop rnd fuel g with
    | error e =>
      rw [ticks] at h
      simp [h1] at h
    | ok g2 =>
      rw [ticks_succ_ok rnd fuel n g g2 h1] at h
      exact ih g2 g' (Reachable.tick fuel g g2 hr h1) h

theorem ticks_falling (rnd : Nat → Nat) (fuel : Nat) :
    ∀ (n : Nat) (g : GameManager), g.m_game_mode = GameMode.FALLING →
      (∀ j : Nat, j < n → (j : ℚ) * 0.1 ≤ g.m_ball.m_falling_pos) →
      ticks rnd fuel n g
        = Except.ok { g with
            m_ball := { g.m_ball with
              m_falling_pos := g.m_ball.m_falling_pos - (n : ℚ) * 0.1 } } := by
  intro n
  induction n with
  | zero =>
    intro g _ _
    rw [ticks]
    obtain ⟨mode, ball, tile, red, count, calls, out⟩ := g
    obtain ⟨f1, f2, f3, f4, f5, f6, f7, f8, f9, f10, f11⟩ := ball
    simp
  | succ n ih =>
    intro g hm hh
    have h0 : 0 ≤ g.m_ball.m_falling_pos := by
      have := hh 0 (Nat.succ_pos n)
      simpa using this
    rw [ticks_succ_ok rnd fuel n g _ (main_loop_falling_high rnd fuel g hm h0)]
    rw [ih { g with m_ball := g.m_ball.update_fall } hm]
    · obtain ⟨mode, ball, tile, red, count, calls, out⟩ := g
      obtain ⟨f1, f2, f3, f4, f5, f6, f7, f8, f9, f10, f11⟩ := ball
      simp only [Ball.update_fall, Except.ok.injEq, GameManager.mk.injEq, Ball.mk.injEq,
        and_true, true_and]
      push_cast
      ring
    · intro j hj
      have := hh (j + 1) (by omega)
      simp only [Ball.update_fall]
      push_cast at this
      linarith

theorem iterate_update_juggle (b : Ball) :
    ∀ n : Nat, (Ball.update_juggle^[n] b).m_rev_angle
        = b.m_rev_angle + (n : ℚ) * b.m_rev_angular_vel
      ∧ (Ball.update_juggle^[n] b).m_rev_angular_vel = b.m_rev_angular_vel
      ∧ (Ball.update_juggle^[n] b).m_rot_angular_vel = b.m_rot_angular_vel
      ∧ (Ball.update_juggle^[n] b).m_last_pos_idx = b.m_last_pos_idx
      ∧ (Ball.update_juggle^[n] b).m_next_pos_idx = b.m_next_pos_idx
      ∧ (Ball.update_juggle^[n] b).m_falling_pos = b.m_falling_pos
      ∧ (Ball.update_juggle^[n] b).m_to_center = b.m_to_center
      ∧ (Ball.update_juggle^[n] b).m_scale = b.m_scale
      ∧ (Ball.update_juggle^[n] b).m_rotation_axis = b.m_rotation_axis
      ∧ (Ball.update_juggle^[n] b).m_rotation_center = b.m_rotation_center := by
  intro n
  induction n with
  | zero => simp
  | succ n ih =>
    rw [Function.iterate_succ_apply']
    obtain ⟨h1, h2, h3, h4, h5, h6, h7, h8, h9, h10⟩ := ih
    refine ⟨?_, h2, h3, h4, h5, h6, h7, h8, h9, h10⟩
    show (Ball.update_juggle^[n] b).m_rev_angle + (Ball.update_juggle^[n] b).m_rev_angular_vel
      = b.m_rev_angle + ((n + 1 : Nat) : ℚ) * b.m_rev_angular_vel
    rw [h1, h2]
    push_cast
    ring

theorem ticks_juggling (rnd : Nat → Nat) (fuel : Nat) :
    ∀ (n : Nat) (g : GameManager), g.m_game_mode = GameMode.JUGGLING →
      (∀ j : Nat, j < n →
        g.m_ball.m_rev_angle + (j : ℚ) * g.m_ball.m_rev_angular_vel < 180) →
      ticks rnd fuel n g = Except.ok { g with m_ball := Ball.update_juggle^[n] g.m_ball } := by
  intro n
  induction n with
  | zero =>
    intro g _ _
    rfl
  | succ n ih =>
    intro g hm hh
    have h0 : g.m_ball.is_fallen = false := by
      cases hx : g.m_ball.is_fallen with
      | false => rfl
      | true =>
        have := hh 0 (Nat.succ_pos n)
        have h180 := (is_fallen_iff _).1 hx
        simp only [Nat.cast_zero, zero_mul, add_zero] at this
        exact absurd h180 (not_le.mpr this)
    rw [ticks_succ_ok rnd fuel n g _ (main_loop_juggling_fly rnd fuel g hm h0)]
    rw [ih { g with m_ball := g.m_ball.update_juggle } hm]
    · rfl
    · intro j hj
      have := hh (j + 1) (by omega)
      show g.m_ball.m_rev_angle + g.m_ball.m_rev_angular_vel
        + (j : ℚ) * g.m_ball.m_rev_angular_vel < 180
      push_cast at this
      linarith

theorem toChar_space : toChar GLFW_KEY_SPACE = code ' ' := by decide

theorem keyboard_event_start (center : Vec3) (scale : ℚ) (scancode mods : Int) :
    (initial center scale).keyboard_event GLFW_KEY_SPACE scancode GLFW_PRESS mods
      = started center scale := by
  unfold GameManager.keyboard_event
  simp only [toChar_space, initial, GameManager.init, GameManager.new, true_and, and_true,
    or_true, true_or, if_true, reduceCtorEq, and_false, if_false]
  rfl

theorem started_fall (rnd : Nat → Nat) (fuel : Nat) (center : Vec3) (scale : ℚ) (n : Nat)
    (hn : n ≤ 31) :
    ticks rnd fuel n (started center scale)
      = Except.ok { started center scale with
          m_ball := { (started center scale).m_ball with
            m_falling_pos := 3 - (n : ℚ) / 10 } } := by
  rw [ticks_falling rnd fuel n (started center scale) rfl]
  · have : (started center scale).m_ball.m_falling_pos - (n : ℚ) * 0.1 = 3 - (n : ℚ) / 10 := by
      show (INITIAL_POS : ℚ) - (n : ℚ) * 0.1 = 3 - (n : ℚ) / 10
      unfold INITIAL_POS
      norm_num
      ring
    rw [this]
  · intro j hj
    show (j : ℚ) * 0.1 ≤ INITIAL_POS
    unfold INITIAL_POS
    have : (j : ℚ) ≤ 30 := by exact_mod_cast (show j ≤ 30 by omega)
    norm_num
    linarith

/-- The seven ways in which a tick can return. -/
theorem main_loop_ok_cases (rnd : Nat → Nat) (fuel : Nat) (g g' : GameManager)
    (h : GameManager.main_loop rnd fuel g = Except.ok g') :
    (g.m_game_mode = GameMode.BEFORE_START ∧ g' = g)
    ∨ (g.m_game_mode = GameMode.FALLING ∧ 0 ≤ g.m_ball.m_falling_pos
        ∧ g' = { g with m_ball := g.m_ball.update_fall })
    ∨ (g.m_game_mode = GameMode.FALLING ∧ g.m_ball.m_falling_pos < 0
        ∧ ∃ b c, g.m_ball.set_dest rnd fuel g.rand_calls = Except.ok (b, c)
          ∧ g' = { g with
              m_game_mode := GameMode.JUGGLING
              m_count := g.m_count + 1
              stdout := g.stdout ++ [Printed.score (g.m_count + 1)]
              m_ball := b.update_fall
              rand_calls := c })
    ∨ (g.m_game_mode = GameMode.JUGGLING ∧ g.is_failure = true
        ∧ g' = { g with
            m_game_mode := GameMode.FAILED
            stdout := g.stdout ++ [Printed.failed g.m_count]
            m_ball := g.m_ball.update_juggle })
    ∨ (g.m_game_mode = GameMode.JUGGLING ∧ g.is_failure = false ∧ g.m_ball.is_fallen = true
        ∧ ∃ b c, g.m_ball.set_dest rnd fuel g.rand_calls = Except.ok (b, c)
          ∧ g' = { g with
              m_count := g.m_count + 1
              stdout := g.stdout ++ [Printed.score (g.m_count + 1)]
              m_ball := b.update_juggle
              rand_calls := c })
    ∨ (g.m_game_mode = GameMode.JUGGLING ∧ g.m_ball.is_fallen = false
        ∧ g' = { g with m_ball := g.m_ball.update_juggle })
    ∨ (g.m_game_mode = GameMode.FAILED
        ∧ g' = { g with m_red_tile := ⟨g.m_ball.m_next_pos_idx⟩ }) := by
  have hmodes : g.m_game_mode = GameMode.BEFORE_START ∨ g.m_game_mode = GameMode.FALLING
      ∨ g.m_game_mode = GameMode.JUGGLING ∨ g.m_game_mode = GameMode.FAILED := by
    cases g.m_game_mode <;> simp
  rcases hmodes with hm | hm | hm | hm
  · left
    unfold GameManager.main_loop at h
    simp only [hm] at h
    injection h with h
    exact ⟨hm, h.symm⟩
  · right
    by_cases hh : 0 ≤ g.m_ball.m_falling_pos
    · left
      rw [main_loop_falling_high rnd fuel g hm hh] at h
      injection h with h
      exact ⟨hm, hh, h.symm⟩
    · right; left
      have hlt : g.m_ball.m_falling_pos < 0 := not_le.mp hh
      cases hd : g.m_ball.set_dest rnd fuel g.rand_calls with
      | error e =>
        have hlt' : g.m_ball.m_falling_pos < 0.0 := by
          rw [show (0.0 : ℚ) = 0 by norm_num]
          exact hlt
        unfold GameManager.main_loop at h
        simp only [hm, Ball.get_falling_pos, if_pos hlt', hd] at h
        cases h
      | ok r =>
        obtain ⟨b, c⟩ := r
        rw [main_loop_falling_low rnd fuel g hm hlt b c hd] at h
        injection h with h
        exact ⟨hm, hlt, b, c, rfl, h.symm⟩
  · right; right; right
    cases hf : g.is_failure with
    | true =>
      left
      rw [main_loop_juggling_fail rnd fuel g hm hf] at h
      injection h with h
      exact ⟨hm, rfl, h.symm⟩
    | false =>
      right
      cases ha : g.m_ball.is_fallen with
      | false =>
        right; left
        rw [main_loop_juggling_fly rnd fuel g hm ha] at h
        injection h with h
        exact ⟨hm, rfl, h.symm⟩
      | true =>
        left
        cases hd : g.m_ball.set_dest rnd fuel g.rand_calls with
        | error e =>
          unfold GameManager.main_loop at h
          simp [hm, hf, ha, hd] at h
        | ok r =>
          obtain ⟨b, c⟩ := r
          rw [main_loop_juggling_catch rnd fuel g hm hf ha b c hd] at h
          injection h with h
          exact ⟨hm, rfl, rfl, b, c, rfl, h.symm⟩
  · right; right; right; right; right; right
    rw [main_loop_failed rnd fuel g hm] at h
    injection h with h
    exact ⟨hm, h.symm⟩

/-- The three things a key event can do. -/
theorem keyboard_event_cases (g : GameManager) (key scancode action mods : Int) :
    g.keyboard_event key scancode action mods = g
    ∨ (g.m_game_mode = GameMode.JUGGLING ∧ action = GLFW_PRESS
        ∧ g.keyboard_event key scancode action mods
          = { g with m_tile := g.m_tile.set_pos_number_by_key (toChar key) })
    ∨ ((g.m_game_mode = GameMode.BEFORE_START ∨ g.m_game_mode = GameMode.FAILED)
        ∧ action = GLFW_PRESS ∧ toChar key = code ' '
        ∧ g.keyboard_event key scancode action mods
          = { g with
              m_game_mode := GameMode.FALLING
              m_ball := g.m_ball.reset
              m_tile := ⟨4⟩
              m_count := 0 }) := by
  unfold GameManager.keyboard_event
  by_cases ha : action = GLFW_PRESS
  · cases hm : g.m_game_mode with
    | JUGGLING =>
      right; left
      simp [ha, hm]
    | FALLING =>
      left
      simp [ha, hm]
    | BEFORE_START =>
      by_cases hk : toChar key = code ' '
      · right; right
        simp [ha, hm, hk, GameManager.reset, Tile.set_pos_number]
      · left
        simp [ha, hm, hk]
    | FAILED =>
      by_cases hk : toChar key = code ' '
      · right; right
        simp [ha, hm, hk, GameManager.reset, Tile.set_pos_number]
      · left
        simp [ha, hm, hk]
  · left
    simp [ha]

theorem Ball.eq_of_fields (a b : Ball) (h1 : a.m_falling_pos = b.m_falling_pos)
    (h2 : a.m_last_pos_idx = b.m_last_pos_idx) (h3 : a.m_next_pos_idx = b.m_next_pos_idx)
    (h4 : a.m_rot_angle = b.m_rot_angle) (h5 : a.m_rev_angle = b.m_rev_angle)
    (h6 : a.m_rot_angular_vel = b.m_rot_angular_vel)
    (h7 : a.m_rev_angular_vel = b.m_rev_angular_vel) (h8 : a.m_to_center = b.m_to_center)
    (h9 : a.m_scale = b.m_scale) (h10 : a.m_rotation_axis = b.m_rotation_axis)
    (h11 : a.m_rotation_center = b.m_rotation_center) : a = b := by
  cases a
  cases b
  simp only [Ball.mk.injEq]
  exact ⟨h1, h2, h3, h4, h5, h6, h7, h8, h9, h10, h11⟩

theorem iterate_update_juggle_rot (b : Ball) (h0 : 0 ≤ b.m_rot_angular_vel) :
    ∀ n : Nat, b.m_rot_angle + (n : ℚ) * b.m_rot_angular_vel < 360 →
      (Ball.update_juggle^[n] b).m_rot_angle = b.m_rot_angle + (n : ℚ) * b.m_rot_angular_vel := by
  intro n
  induction n with
  | zero => simp
  | succ n ih =>
    intro h
    push_cast at h
    have hprev := ih (by nlinarith)
    rw [Function.iterate_succ_apply']
    obtain ⟨-, -, h3, -⟩ := iterate_update_juggle b n
    show (if (Ball.update_juggle^[n] b).m_rot_angle
          + (Ball.update_juggle^[n] b).m_rot_angular_vel ≥ 360.0 then (0.0 : ℚ)
        else (Ball.update_juggle^[n] b).m_rot_angle
          + (Ball.update_juggle^[n] b).m_rot_angular_vel) = _
    rw [hprev, h3, if_neg]
    · push_cast
      ring
    · norm_num
      linarith

theorem drawsFrom2_hit : FirstHit drawsFrom2 0 4 0 :=
  ⟨by decide, fun j hj => absurd hj (Nat.not_lt_zero j)⟩

theorem set_dest_drawsFrom2 (b : Ball) (h : b.m_next_pos_idx = 4) :
    Ball.set_dest drawsFrom2 1 b 0 = Except.ok (destined b 2 3.6 1.0, 3) := by
  unfold Ball.set_dest
  have h1 : Ball.get_random_next_pos_idx drawsFrom2 1 0 b.m_next_pos_idx
      = Except.ok (2, 1) := by
    rw [h]
    rfl
  have h2 : Ball.get_random_rev_angular_vel drawsFrom2 1 = Except.ok (3.6, 2) := rfl
  have h3 : Ball.get_random_rot_angular_vel drawsFrom2 2 = Except.ok (1.0, 3) := rfl
  simp only [h1, h2, h3]
  rfl

theorem juggleStart_run :
    ticks drawsFrom2 1 32 (started Vec3.zero 1) = Except.ok juggleStart := by
  have h31 := started_fall drawsFrom2 1 Vec3.zero 1 31 (le_refl 31)
  rw [show (32 : Nat) = 31 + 1 from rfl, ticks_add drawsFrom2 1 31 1 _ _ h31, ticks]
  have hlow := main_loop_falling_low drawsFrom2 1
    { started Vec3.zero 1 with
      m_ball := { (started Vec3.zero 1).m_ball with
        m_falling_pos := 3 - ((31 : Nat) : ℚ) / 10 } } rfl
    (by show (3 : ℚ) - ((31 : Nat) : ℚ) / 10 < 0; norm_num) _ _
    (set_dest_drawsFrom2 _ rfl)
  rw [hlow]
  simp only [ticks, started, List.nil_append, juggleStart, Except.ok.injEq,
    GameManager.mk.injEq, and_true, true_and]
  refine ⟨?_, by norm_num⟩
  have p2 : Ball.get_pos_from_idx 2 = ⟨2.0, 0.0, -2.0⟩ := rfl
  have p4 : Ball.get_pos_from_idx 4 = ⟨0.0, 0.0, 0.0⟩ := rfl
  apply Ball.eq_of_fields <;>
    simp only [destined, Ball.update_fall, Ball.calc_rotation, p2, p4,
      Ball.new, Ball.reset, Ball.init, Ball.zeroed, Vec3.cross, Vec3.sub, Vec3.add, Vec3.smul,
      Vec3.zero] <;>
    norm_num

theorem failedState_run :
    ticks drawsFrom2 1 51 juggleStart = Except.ok failedState := by
  have h50 := ticks_juggling drawsFrom2 1 50 juggleStart rfl (by
    intro j hj
    have : (j : ℚ) ≤ 49 := by exact_mod_cast (show j ≤ 49 by omega)
    show (0 : ℚ) + (j : ℚ) * (18 / 5) < 180
    linarith)
  obtain ⟨i1, i2, i3, i4, i5, i6, i7, i8, i9, i10⟩ := iterate_update_juggle juggleStart.m_ball 50
  have hfail : ({ juggleStart with
      m_ball := Ball.update_juggle^[50] juggleStart.m_ball } : GameManager).is_failure = true := by
    rw [is_failure_iff]
    constructor
    · show 180 ≤ (Ball.update_juggle^[50] juggleStart.m_ball).m_rev_angle
      rw [i1]
      norm_num [juggleStart]
    · show (4 : Int) ≠ (Ball.update_juggle^[50] juggleStart.m_ball).m_next_pos_idx
      rw [i5]
      decide
  rw [show (51 : Nat) = 50 + 1 from rfl, ticks_add drawsFrom2 1 50 1 _ _ h50, ticks,
    main_loop_juggling_fail drawsFrom2 1 _ rfl hfail]
  simp only [ticks, failedState, juggleStart, Except.ok.injEq, GameManager.mk.injEq, and_true,
    true_and, List.cons_append, List.nil_append]
  rw [← Function.iterate_succ_apply' Ball.update_juggle 50]
  obtain ⟨j1, j2, j3, j4, j5, j6, j7, j8, j9, j10⟩ := iterate_update_juggle juggleStart.m_ball 51
  have jrot := iterate_update_juggle_rot juggleStart.m_ball (by norm_num [juggleStart]) 51
    (by norm_num [juggleStart])
  apply Ball.eq_of_fields
  · exact j6
  · exact j4
  · exact j5
  · refine jrot.trans ?_
    norm_num [juggleStart]
  · refine j1.trans ?_
    norm_num [juggleStart]
  · exact j3
  · exact j2
  · exact j7
  · exact j8
  · exact j9
  · exact j10

theorem failedState_reachable : Reachable drawsFrom2 Vec3.zero 1 failedState := by
  have h0 : Reachable drawsFrom2 Vec3.zero 1 (started Vec3.zero 1) := by
    rw [← keyboard_event_start Vec3.zero 1 0 0]
    exact Reachable.key _ _ _ _ _ Reachable.start
  have h1 := reachable_ticks drawsFrom2 Vec3.zero 1 1 32 _ _ h0 juggleStart_run
  exact reachable_ticks drawsFrom2 Vec3.zero 1 1 51 _ _ h1 failedState_run

theorem restartedState_eq :
    restartedState
      = { failedState with
          m_game_mode := GameMode.FALLING
          m_ball := failedState.m_ball.reset
          m_tile := ⟨4⟩
          m_count := 0 } := by
  rcases keyboard_event_cases failedState GLFW_KEY_SPACE 0 GLFW_PRESS 0 with h | h | h
  · exfalso
    have : (failedState.keyboard_event GLFW_KEY_SPACE 0 GLFW_PRESS 0).m_game_mode
        = GameMode.FALLING := by
      unfold GameManager.keyboard_event
      simp [toChar_space, failedState, juggleStart, GameManager.reset]
    rw [h] at this
    cases this
  · exact absurd h.1 (by decide)
  · exact h.2.2.2

theorem destinationInv_main_loop (rnd : Nat → Nat) (fuel : Nat) (g g' : GameManager)
    (hi : DestinationInv g) (h : GameManager.main_loop rnd fuel g = Except.ok g') :
    DestinationInv g' := by
  unfold DestinationInv at hi ⊢
  rcases main_loop_ok_cases rnd fuel g g' h with
    ⟨-, rfl⟩ | ⟨hm, -, rfl⟩ | ⟨hm, -, b, c, hd, rfl⟩ | ⟨hm, -, rfl⟩
    | ⟨hm, -, -, b, c, hd, rfl⟩ | ⟨hm, -, rfl⟩ | ⟨hm, rfl⟩
  · exact hi
  · simpa [hm, Ball.update_fall] using hi
  · obtain ⟨next, rev, rot, rfl, hne, -⟩ := set_dest_sound rnd fuel _ _ _ _ hd
    simpa [Ball.update_fall, destined, Ball.calc_rotation] using hne
  · simpa [hm, Ball.update_juggle] using hi
  · obtain ⟨next, rev, rot, rfl, hne, -⟩ := set_dest_sound rnd fuel _ _ _ _ hd
    simpa [hm, Ball.update_juggle, destined, Ball.calc_rotation] using hne
  · simpa [hm, Ball.update_juggle] using hi
  · simpa [hm] using hi

theorem destinationInv_keyboard_event (g : GameManager) (key scancode action mods : Int)
    (hi : DestinationInv g) : DestinationInv (g.keyboard_event key scancode action mods) := by
  rcases keyboard_event_cases g key scancode action mods with h | ⟨-, -, h⟩ | ⟨-, -, -, h⟩
  · rw [h]
    exact hi
  · rw [h]
    exact hi
  · rw [h]
    exact ⟨fun _ => ⟨rfl, rfl⟩, fun hx => by rcases hx with hx | hx <;> cases hx⟩

theorem destinationInv_reachable (rnd : Nat → Nat) (center : Vec3) (scale : ℚ)
    (g : GameManager) (hr : Reachable rnd center scale g) : DestinationInv g := by
  induction hr with
  | start => exact ⟨fun _ => ⟨rfl, rfl⟩, fun hx => by rcases hx with hx | hx <;> cases hx⟩
  | tick fuel g g' _ h ih => exact destinationInv_main_loop rnd fuel g g' ih h
  | key g key scancode action mods _ ih =>
    exact destinationInv_keyboard_event g key scancode action mods ih

theorem ticks_failed (rnd : Nat → Nat) (fuel : Nat) :
    ∀ (n : Nat) (g : GameManager), g.m_game_mode = GameMode.FAILED →
      ticks rnd fuel (n + 1) g
        = Except.ok { g with m_red_tile := ⟨g.m_ball.m_next_pos_idx⟩ } := by
  intro n
  induction n with
  | zero =>
    intro g hm
    rw [ticks_succ_ok rnd fuel 0 g _ (main_loop_failed rnd fuel g hm)]
    rfl
  | succ n ih =>
    intro g hm
    rw [ticks_succ_ok rnd fuel (n + 1) g _ (main_loop_failed rnd fuel g hm)]
    rw [ih { g with m_red_tile := ⟨g.m_ball.m_next_pos_idx⟩ } hm]

theorem set_pos_number_by_key_other (t : Tile) (key : Int)
    (hk : key ∉ CELL_KEYS.map code) : t.set_pos_number_by_key key = t := by
  simp only [CELL_KEYS, List.map_cons, List.map_nil, List.mem_cons, List.mem_singleton,
    List.not_mem_nil, or_false, not_or] at hk
  obtain ⟨h0, h1, h2, h3, h4, h5, h6, h7, h8⟩ := hk
  unfold Tile.set_pos_number_by_key
  rw [if_neg h0, if_neg h1, if_neg h2, if_neg h3, if_neg h4, if_neg h5, if_neg h6,
    if_neg h7, if_neg h8]

theorem get_pos_from_idx_natCast (i : Nat) :
    Ball.get_pos_from_idx (i : Int) = CELL_POS.getD i Vec3.zero := by
  unfold Ball.get_pos_from_idx
  rw [if_pos (Int.ofNat_nonneg i), Int.toNat_ofNat]

theorem main_loop_tile (rnd : Nat → Nat) (fuel : Nat) (g g' : GameManager)
    (h : GameManager.main_loop rnd fuel g = Except.ok g') : g'.m_tile = g.m_tile := by
  rcases main_loop_ok_cases rnd fuel g g' h with
    ⟨-, rfl⟩ | ⟨-, -, rfl⟩ | ⟨-, -, b, c, -, rfl⟩ | ⟨-, -, rfl⟩
    | ⟨-, -, -, b, c, -, rfl⟩ | ⟨-, -, rfl⟩ | ⟨-, rfl⟩ <;> rfl

theorem toChar_cell_key (c : Char) (hc : c ∈ CELL_KEYS) :
    toChar (code c) = code c ∧ code c ≠ code ' ' := by
  simp only [CELL_KEYS, List.mem_cons, List.mem_singleton, List.not_mem_nil, or_false] at hc
  rcases hc with h | h | h | h | h | h | h | h | h <;> subst h <;> decide

theorem set_pos_number_by_key_inGrid (t : Tile) (key : Int) (h : InGrid t.m_pos_idx) :
    InGrid (t.set_pos_number_by_key key).m_pos_idx := by
  unfold Tile.set_pos_number_by_key
  split_ifs <;> first | exact h | (unfold InGrid; decide)

theorem cellsInv_main_loop (rnd : Nat → Nat) (fuel : Nat) (g g' : GameManager)
    (hi : CellsInv g) (h : GameManager.main_loop rnd fuel g = Except.ok g') :
    CellsInv g' := by
  obtain ⟨h1, h2, h3, h4⟩ := hi
  rcases main_loop_ok_cases rnd fuel g g' h with
    ⟨-, rfl⟩ | ⟨-, -, rfl⟩ | ⟨-, -, b, c, hd, rfl⟩ | ⟨-, -, rfl⟩
    | ⟨-, -, -, b, c, hd, rfl⟩ | ⟨-, -, rfl⟩ | ⟨-, rfl⟩
  · exact ⟨h1, h2, h3, h4⟩
  · exact ⟨h1, h2, h3, h4⟩
  · obtain ⟨next, rev, rot, rfl, -, hn0, hn8, -⟩ := set_dest_sound rnd fuel _ _ _ _ hd
    exact ⟨h1, h2, h4, ⟨hn0, hn8⟩⟩
  · exact ⟨h1, h2, h3, h4⟩
  · obtain ⟨next, rev, rot, rfl, -, hn0, hn8, -⟩ := set_dest_sound rnd fuel _ _ _ _ hd
    exact ⟨h1, h2, h4, ⟨hn0, hn8⟩⟩
  · exact ⟨h1, h2, h3, h4⟩
  · exact ⟨h1, h4, h3, h4⟩

theorem cellsInv_keyboard_event (g : GameManager) (key scancode action mods : Int)
    (hi : CellsInv g) : CellsInv (g.keyboard_event key scancode action mods) := by
  obtain ⟨h1, h2, h3, h4⟩ := hi
  have h44 : InGrid 4 := by unfold InGrid; decide
  rcases keyboard_event_cases g key scancode action mods with h | ⟨-, -, h⟩ | ⟨-, -, -, h⟩
  · rw [h]
    exact ⟨h1, h2, h3, h4⟩
  · rw [h]
    exact ⟨set_pos_number_by_key_inGrid _ _ h1, h2, h3, h4⟩
  · rw [h]
    exact ⟨h44, h2, h44, h44⟩

theorem cellsInv_reachable (rnd : Nat → Nat) (center : Vec3) (scale : ℚ)
    (g : GameManager) (hr : Reachable rnd center scale g) : CellsInv g := by
  induction hr with
  | start =>
    have h44 : InGrid 4 := by unfold InGrid; decide
    exact ⟨h44, h44, h44, h44⟩
  | tick fuel g g' _ h ih => exact cellsInv_main_loop rnd fuel g g' ih h
  | key g key scancode action mods _ ih =>
    exact cellsInv_keyboard_event g key scancode action mods ih

theorem juggleStart_reachable : Reachable drawsFrom2 Vec3.zero 1 juggleStart := by
  have h0 : Reachable drawsFrom2 Vec3.zero 1 (started Vec3.zero 1) := by
    rw [← keyboard_event_start Vec3.zero 1 0 0]
    exact Reachable.key _ _ _ _ _ Reachable.start
  exact reachable_ticks drawsFrom2 Vec3.zero 1 1 32 _ _ h0 juggleStart_run

theorem Vec3.eq_of_coords (a b : Vec3) (hx : a.x = b.x) (hy : a.y = b.y) (hz : a.z = b.z) :
    a = b := by
  cases a
  cases b
  simp only [Vec3.mk.injEq]
  exact ⟨hx, hy, hz⟩

/-- The centre of the mesh is taken to `center + Rotate (last_pos - center)`. -/
theorem rotationInv_main_loop (rnd : Nat → Nat) (fuel : Nat) (g g' : GameManager)
    (hi : RotationInv g) (h : GameManager.main_loop rnd fuel g = Except.ok g') :
    RotationInv g' := by
  unfold RotationInv at hi ⊢
  rcases main_loop_ok_cases rnd fuel g g' h with
    ⟨-, rfl⟩ | ⟨hm, -, rfl⟩ | ⟨hm, -, b, c, hd, rfl⟩ | ⟨hm, -, rfl⟩
    | ⟨hm, -, -, b, c, hd, rfl⟩ | ⟨hm, -, rfl⟩ | ⟨hm, rfl⟩
  · exact hi
  · intro hx
    have hx' : g.m_game_mode = GameMode.JUGGLING ∨ g.m_game_mode = GameMode.FAILED := hx
    rw [hm] at hx'
    rcases hx' with hx' | hx' <;> cases hx'
  · obtain ⟨next, rev, rot, rfl, -⟩ := set_dest_sound rnd fuel _ _ _ _ hd
    exact fun _ => ⟨rfl, rfl⟩
  · exact fun _ => hi (Or.inl hm)
  · obtain ⟨next, rev, rot, rfl, -⟩ := set_dest_sound rnd fuel _ _ _ _ hd
    exact fun _ => ⟨rfl, rfl⟩
  · exact fun _ => hi (Or.inl hm)
  · exact fun _ => hi (Or.inr hm)

theorem rotationInv_keyboard_event (g : GameManager) (key scancode action mods : Int)
    (hi : RotationInv g) : RotationInv (g.keyboard_event key scancode action mods) := by
  rcases keyboard_event_cases g key scancode action mods with h | ⟨-, -, h⟩ | ⟨-, -, -, h⟩
  · rw [h]
    exact hi
  · rw [h]
    exact hi
  · rw [h]
    exact fun hx => by rcases hx with hx | hx <;> cases hx

theorem rotationInv_reachable (rnd : Nat → Nat) (center : Vec3) (scale : ℚ)
    (g : GameManager) (hr : Reachable rnd center scale g) : RotationInv g := by
  induction hr with
  | start => exact fun hx => by rcases hx with hx | hx <;> cases hx
  | tick fuel g g' _ h ih => exact rotationInv_main_loop rnd fuel g g' ih h
  | key g key scancode action mods _ ih =>
    exact rotationInv_keyboard_event g key scancode action mods ih

theorem get_pos_from_idx_0 : Ball.get_pos_from_idx 0 = ⟨-2, 0, -2⟩ := by
  refine (show Ball.get_pos_from_idx 0 = ⟨-2.0, 0.0, -2.0⟩ from rfl).trans ?_
  apply Vec3.eq_of_coords <;> norm_num

theorem get_pos_from_idx_1 : Ball.get_pos_from_idx 1 = ⟨0, 0, -2⟩ := by
  refine (show Ball.get_pos_from_idx 1 = ⟨0.0, 0.0, -2.0⟩ from rfl).trans ?_
  apply Vec3.eq_of_coords <;> norm_num

theorem get_pos_from_idx_2 : Ball.get_pos_from_idx 2 = ⟨2, 0, -2⟩ := by
  refine (show Ball.get_pos_from_idx 2 = ⟨2.0, 0.0, -2.0⟩ from rfl).trans ?_
  apply Vec3.eq_of_coords <;> norm_num

theorem get_pos_from_idx_3 : Ball.get_pos_from_idx 3 = ⟨-2, 0, 0⟩ := by
  refine (show Ball.get_pos_from_idx 3 = ⟨-2.0, 0.0, 0.0⟩ from rfl).trans ?_
  apply Vec3.eq_of_coords <;> norm_num

theorem get_pos_from_idx_4 : Ball.get_pos_from_idx 4 = ⟨0, 0, 0⟩ := by
  refine (show Ball.get_pos_from_idx 4 = ⟨0.0, 0.0, 0.0⟩ from rfl).trans ?_
  apply Vec3.eq_of_coords <;> norm_num

theorem get_pos_from_idx_5 : Ball.get_pos_from_idx 5 = ⟨2, 0, 0⟩ := by
  refine (show Ball.get_pos_from_idx 5 = ⟨2.0, 0.0, 0.0⟩ from rfl).trans ?_
  apply Vec3.eq_of_coords <;> norm_num

theorem get_pos_from_idx_6 : Ball.get_pos_from_idx 6 = ⟨-2, 0, 2⟩ := by
  refine (show Ball.get_pos_from_idx 6 = ⟨-2.0, 0.0, 2.0⟩ from rfl).trans ?_
  apply Vec3.eq_of_coords <;> norm_num

theorem get_pos_from_idx_7 : Ball.get_pos_from_idx 7 = ⟨0, 0, 2⟩ := by
  refine (show Ball.get_pos_from_idx 7 = ⟨0.0, 0.0, 2.0⟩ from rfl).trans ?_
  apply Vec3.eq_of_coords <;> norm_num

theorem get_pos_from_idx_8 : Ball.get_pos_from_idx 8 = ⟨2, 0, 2⟩ := by
  refine (show Ball.get_pos_from_idx 8 = ⟨2.0, 0.0, 2.0⟩ from rfl).trans ?_
  apply Vec3.eq_of_coords <;> norm_num

/-- The squared distance of two different cells of the grid. -/
theorem grid_distance (i j : Int) (hi : InGrid i) (hj : InGrid j) (hne : j ≠ i) :
    ((Ball.get_pos_from_idx j).sub (Ball.get_pos_from_idx i)).dot
        ((Ball.get_pos_from_idx j).sub (Ball.get_pos_from_idx i)) ∈ [(4 : ℚ), 8, 16, 20, 32] := by
  obtain ⟨i0, i8⟩ := hi
  obtain ⟨j0, j8⟩ := hj
  interval_cases i <;> interval_cases j <;>
    first
    | exact absurd rfl hne
    | (simp only [get_pos_from_idx_0, get_pos_from_idx_1, get_pos_from_idx_2,
        get_pos_from_idx_3, get_pos_from_idx_4, get_pos_from_idx_5, get_pos_from_idx_6,
        get_pos_from_idx_7, get_pos_from_idx_8, Vec3.sub, Vec3.dot]
       norm_num)

/-- The cross product with the down vector is at a right angle to both factors
and as long as the horizontal part of the first. -/
theorem cross_down (d : Vec3) :
    (d.cross ⟨0.0, -1.0, 0.0⟩).dot d = 0
      ∧ (d.cross ⟨0.0, -1.0, 0.0⟩).dot ⟨0.0, -1.0, 0.0⟩ = 0
      ∧ (d.cross ⟨0.0, -1.0, 0.0⟩).dot (d.cross ⟨0.0, -1.0, 0.0⟩) = d.x * d.x + d.z * d.z := by
  refine ⟨?_, ?_, ?_⟩ <;> simp only [Vec3.cross, Vec3.dot] <;> norm_num <;> ring

theorem get_pos_from_idx_y (i : Int) : (Ball.get_pos_from_idx i).y = 0 := by
  unfold Ball.get_pos_from_idx
  split_ifs
  · generalize i.toNat = n
    rcases n with _ | _ | _ | _ | _ | _ | _ | _ | _ | n <;>
      norm_num [CELL_POS, Vec3.zero]
  · rfl

theorem roundEven_near (m : ℚ) (n : ℤ) (h1 : (n : ℚ) - 1 / 2 < m) (h2 : m < n + 1 / 2) :
    roundEven m = n := by
  unfold roundEven
  rcases le_or_lt (n : ℚ) m with h | h
  · have hf : ⌊m⌋ = n := by
      rw [Int.floor_eq_iff]
      exact ⟨h, by linarith⟩
    rw [hf, if_pos (by linarith)]
  · have hf : ⌊m⌋ = n - 1 := by
      rw [Int.floor_eq_iff]
      push_cast
      exact ⟨by linarith, by linarith⟩
    rw [hf]
    push_cast
    rw [if_neg (by linarith), if_pos (by linarith)]
    ring

theorem roundEven_tie (m : ℚ) (n : ℤ) (h : m = n + 1 / 2) :
    roundEven m = if n % 2 = 0 then n else n + 1 := by
  unfold roundEven
  have hf : ⌊m⌋ = n := by
    rw [Int.floor_eq_iff]
    exact ⟨by linarith, by linarith⟩
  rw [hf, if_neg (by linarith), if_neg (by linarith)]

theorem log2_eq (x : ℚ) (e : ℤ) (h1 : (2 : ℚ) ^ e ≤ x) (h2 : x < (2 : ℚ) ^ (e + 1)) :
    Int.log 2 x = e := by
  have hx : 0 < x := lt_of_lt_of_le (by positivity) h1
  apply le_antisymm
  · have := (Int.lt_zpow_iff_log_lt (b := 2) (by norm_num) hx (x := e + 1)).1
      (by exact_mod_cast h2)
    omega
  · exact (Int.zpow_le_iff_le_log (b := 2) (by norm_num) hx).1 (by exact_mod_cast h1)

theorem f32_eq (x y : ℚ) (e n : ℤ) (he : -126 ≤ e) (h1 : (2 : ℚ) ^ e ≤ |x|)
    (h2 : |x| < (2 : ℚ) ^ (e + 1)) (hr : roundEven (x / 2 ^ (e - 23)) = n)
    (hy : y = n * 2 ^ (e - 23)) : f32 x = y := by
  have hx : x ≠ 0 := by
    intro h
    rw [h, abs_zero] at h1
    exact absurd h1 (not_le.mpr (by positivity))
  unfold f32
  rw [if_neg hx, log2_eq |x| e h1 h2, max_eq_left he, hr, hy]

theorem roundEven_intCast (n : ℤ) : roundEven (n : ℚ) = n :=
  roundEven_near _ n (by linarith) (by linarith)

/-- A positive multiple of a quarter below `2 ^ 22` is a binary32 number. -/
theorem f32_quarters (k : ℕ) (hk0 : 0 < k) (hk : k < 2 ^ 24) :
    f32 ((k : ℚ) / 4) = (k : ℚ) / 4 := by
  have hx : (0 : ℚ) < (k : ℚ) / 4 := by positivity
  have hlo := Int.zpow_log_le_self (b := 2) (by norm_num) hx
  have hhi := Int.lt_zpow_succ_log_self (b := 2) (by norm_num) ((k : ℚ) / 4)
  rw [Nat.cast_ofNat] at hlo hhi
  generalize Int.log 2 ((k : ℚ) / 4) = e at hlo hhi
  have he1 : -2 ≤ e := by
    by_contra hne
    have hlt : e + 1 ≤ -2 := by omega
    have h4 : (2 : ℚ) ^ (e + 1) ≤ 2 ^ (-2 : ℤ) := zpow_le_zpow_right₀ (by norm_num) hlt
    have hk1 : (1 : ℚ) ≤ k := by exact_mod_cast hk0
    have : (k : ℚ) / 4 < 2 ^ (-2 : ℤ) := lt_of_lt_of_le hhi h4
    norm_num at this
    linarith
  have he2 : e ≤ 21 := by
    by_contra hne
    have hge : (22 : ℤ) ≤ e := by omega
    have h4 : (2 : ℚ) ^ (22 : ℤ) ≤ 2 ^ e := zpow_le_zpow_right₀ (by norm_num) hge
    have hk1 : (k : ℚ) < 16777216 := by
      have hk' : k < 16777216 := by
        have := hk
        norm_num at this
        exact this
      exact_mod_cast hk'
    have : (2 : ℚ) ^ (22 : ℤ) ≤ (k : ℚ) / 4 := le_trans h4 hlo
    norm_num at this
    linarith
  obtain ⟨j, hj⟩ : ∃ j : ℕ, (j : ℤ) = 21 - e := ⟨(21 - e).toNat, Int.toNat_of_nonneg (by omega)⟩
  have hdiv : (k : ℚ) / 4 / 2 ^ (e - 23) = ((k * 2 ^ j : ℕ) : ℤ) := by
    have he : e - 23 = -2 - (j : ℤ) := by omega
    rw [he, zpow_sub₀ (by norm_num), zpow_natCast]
    push_cast
    norm_num
    field_simp
    ring
  apply f32_eq _ _ e ((k * 2 ^ j : ℕ) : ℤ) (by omega)
  · rw [abs_of_pos hx]; exact hlo
  · rw [abs_of_pos hx]; exact hhi
  · rw [hdiv]; exact roundEven_intCast _
  · have he : e - 23 = -2 - (j : ℤ) := by omega
    rw [he, zpow_sub₀ (by norm_num), zpow_natCast]
    push_cast
    norm_num
    field_simp
    ring

theorem f32_pos (x y : ℚ) (e n : ℤ) (he : -126 ≤ e) (h1 : (2 : ℚ) ^ e ≤ x)
    (h2 : x < (2 : ℚ) ^ (e + 1)) (hr : roundEven (x / 2 ^ (e - 23)) = n)
    (hy : y = n * 2 ^ (e - 23)) : f32 x = y := by
  have hx : 0 < x := lt_of_lt_of_le (by positivity) h1
  exact f32_eq x y e n he (by rw [abs_of_pos hx]; exact h1) (by rw [abs_of_pos hx]; exact h2)
    hr hy

theorem f32_negv (x y : ℚ) (e n : ℤ) (he : -126 ≤ e) (h1 : (2 : ℚ) ^ e ≤ -x)
    (h2 : -x < (2 : ℚ) ^ (e + 1)) (hr : roundEven (x / 2 ^ (e - 23)) = n)
    (hy : y = n * 2 ^ (e - 23)) : f32 x = y := by
  have hx : x < 0 := by
    have : 0 < -x := lt_of_lt_of_le (by positivity) h1
    linarith
  exact f32_eq x y e n he (by rw [abs_of_neg hx]; exact h1) (by rw [abs_of_neg hx]; exact h2)
    hr hy

theorem f32_3_6 : f32 3.6 = 7549747 / 2097152 := by
  exact f32_pos _ _ 1 15099494 (by norm_num) (by norm_num) (by norm_num)
    (roundEven_near _ 15099494 (by norm_num) (by norm_num)) (by norm_num)

theorem f32_0_1 : f32 0.1 = 13421773 / 134217728 := by
  exact f32_pos _ _ (-4) 13421773 (by norm_num) (by norm_num) (by norm_num)
    (roundEven_near _ 13421773 (by norm_num) (by norm_num)) (by norm_num)

/-- The running sums of the binary32 number `3.6f`, step by step. -/
theorem runningSum32_trace :
    ∀ m : Nat, m ≤ 51 → runningSum32 (7549747 / 2097152) m = TRACE_36.getD m 0 := by
  have t0 : runningSum32 (7549747 / 2097152) 0 = 0 := rfl
  have t1 : runningSum32 (7549747 / 2097152) 1 = (7549747 / 2097152) := by
    show f32 (runningSum32 (7549747 / 2097152) 0 + 7549747 / 2097152) = _
    rw [t0]
    exact f32_pos _ _ (1) (15099494) (by norm_num) (by norm_num) (by norm_num)
      (roundEven_near _ (15099494) (by norm_num) (by norm_num)) (by norm_num)
  have t2 : runningSum32 (7549747 / 2097152) 2 = (7549747 / 1048576) := by
    show f32 (runningSum32 (7549747 / 2097152) 1 + 7549747 / 2097152) = _
    rw [t1]
    exact f32_pos _ _ (2) (15099494) (by norm_num) (by norm_num) (by norm_num)
      (roundEven_near _ (15099494) (by norm_num) (by norm_num)) (by norm_num)
  have t3 : runningSum32 (7549747 / 2097152) 3 = (2831155 / 262144) := by
    show f32 (runningSum32 (7549747 / 2097152) 2 + 7549747 / 2097152) = _
    rw [t2]
    exact f32_pos _ _ (3) (11324620) (by norm_num) (by norm_num) (by norm_num)
      ((roundEven_tie _ (11324620) (by norm_num)).trans (by norm_num)) (by norm_num)
  have t4 : runningSum32 (7549747 / 2097152) 4 = (7549747 / 524288) := by
    show f32 (runningSum32 (7549747 / 2097152) 3 + 7549747 / 2097152) = _
    rw [t3]
    exact f32_pos _ _ (3) (15099494) (by norm_num) (by norm_num) (by norm_num)
      ((roundEven_tie _ (15099493) (by norm_num)).trans (by norm_num)) (by norm_num)
  have t5 : runningSum32 (7549747 / 2097152) 5 = 18 := by
    show f32 (runningSum32 (7549747 / 2097152) 4 + 7549747 / 2097152) = _
    rw [t4]
    exact f32_pos _ _ (4) (9437184) (by norm_num) (by norm_num) (by norm_num)
      (roundEven_near _ (9437184) (by norm_num) (by norm_num)) (by norm_num)
  have t6 : runningSum32 (7549747 / 2097152) 6 = (11324621 / 524288) := by
    show f32 (runningSum32 (7549747 / 2097152) 5 + 7549747 / 2097152) = _
    rw [t5]
    exact f32_pos _ _ (4) (11324621) (by norm_num) (by norm_num) (by norm_num)
      (roundEven_near _ (11324621) (by norm_num) (by norm_num)) (by norm_num)
  have t7 : runningSum32 (7549747 / 2097152) 7 = (6606029 / 262144) := by
    show f32 (runningSum32 (7549747 / 2097152) 6 + 7549747 / 2097152) = _
    rw [t6]
    exact f32_pos _ _ (4) (13212058) (by norm_num) (by norm_num) (by norm_num)
      (roundEven_near _ (13212058) (by norm_num) (by norm_num)) (by norm_num)
  have t8 : runningSum32 (7549747 / 2097152) 8 = (15099495 / 524288) := by
    show f32 (runningSum32 (7549747 / 2097152) 7 + 7549747 / 2097152) = _
    rw [t7]
    exact f32_pos _ _ (4) (15099495) (by norm_num) (by norm_num) (by norm_num)
      (roundEven_near _ (15099495) (by norm_num) (by norm_num)) (by norm_num)
  have t9 : runningSum32 (7549747 / 2097152) 9 = (4246733 / 131072) := by
    show f32 (runningSum32 (7549747 / 2097152) 8 + 7549747 / 2097152) = _
    rw [t8]
    exact f32_pos _ _ (5) (8493466) (by norm_num) (by norm_num) (by norm_num)
      (roundEven_near _ (8493466) (by norm_num) (by norm_num)) (by norm_num)
  have t10 : runningSum32 (7549747 / 2097152) 10 = 36 := by
    show f32 (runningSum32 (7549747 / 2097152) 9 + 7549747 / 2097152) = _
    rw [t9]
    exact f32_pos _ _ (5) (9437184) (by norm_num) (by norm_num) (by norm_num)
      (roundEven_near _ (9437184) (by norm_num) (by norm_num)) (by norm_num)
  have t11 : runningSum32 (7549747 / 2097152) 11 = (5190451 / 131072) := by
    show f32 (runningSum32 (7549747 / 2097152) 10 + 7549747 / 2097152) = _
    rw [t10]
    exact f32_pos _ _ (5) (10380902) (by norm_num) (by norm_num) (by norm_num)
      (roundEven_near _ (10380902) (by norm_num) (by norm_num)) (by norm_num)
  have t12 : runningSum32 (7549747 / 2097152) 12 = (2831155 / 65536) := by
    show f32 (runningSum32 (7549747 / 2097152) 11 + 7549747 / 2097152) = _
    rw [t11]
    exact f32_pos _ _ (5) (11324620) (by norm_num) (by norm_num) (by norm_num)
      (roundEven_near _ (11324620) (by norm_num) (by norm_num)) (by norm_num)
  have t13 : runningSum32 (7549747 / 2097152) 13 = (6134169 / 131072) := by
    show f32 (runningSum32 (7549747 / 2097152) 12 + 7549747 / 2097152) = _
    rw [t12]
    exact f32_pos _ _ (5) (12268338) (by norm_num) (by norm_num) (by norm_num)
      (roundEven_near _ (12268338) (by norm_num) (by norm_num)) (by norm_num)
  have t14 : runningSum32 (7549747 / 2097152) 14 = (1651507 / 32768) := by
    show f32 (runningSum32 (7549747 / 2097152) 13 + 7549747 / 2097152) = _
    rw [t13]
    exact f32_pos _ _ (5) (13212056) (by norm_num) (by norm_num) (by norm_num)
      (roundEven_near _ (13212056) (by norm_num) (by norm_num)) (by norm_num)
  have t15 : runningSum32 (7549747 / 2097152) 15 = (7077887 / 131072) := by
    show f32 (runningSum32 (7549747 / 2097152) 14 + 7549747 / 2097152) = _
    rw [t14]
    exact f32_pos _ _ (5) (14155774) (by norm_num) (by norm_num) (by norm_num)
      (roundEven_near _ (14155774) (by norm_num) (by norm_num)) (by norm_num)
  have t16 : runningSum32 (7549747 / 2097152) 16 = (3774873 / 65536) := by
    show f32 (runningSum32 (7549747 / 2097152) 15 + 7549747 / 2097152) = _
    rw [t15]
    exact f32_pos _ _ (5) (15099492) (by norm_num) (by norm_num) (by norm_num)
      (roundEven_near _ (15099492) (by norm_num) (by norm_num)) (by norm_num)
  have t17 : runningSum32 (7549747 / 2097152) 17 = (8021605 / 131072) := by
    show f32 (runningSum32 (7549747 / 2097152) 16 + 7549747 / 2097152) = _
    rw [t16]
    exact f32_pos _ _ (5) (16043210) (by norm_num) (by norm_num) (by norm_num)
      (roundEven_near _ (16043210) (by norm_num) (by norm_num)) (by norm_num)
  have t18 : runningSum32 (7549747 / 2097152) 18 = (1061683 / 16384) := by
    show f32 (runningSum32 (7549747 / 2097152) 17 + 7549747 / 2097152) = _
    rw [t17]
    exact f32_pos _ _ (6) (8493464) (by norm_num) (by norm_num) (by norm_num)
      (roundEven_near _ (8493464) (by norm_num) (by norm_num)) (by norm_num)
  have t19 : runningSum32 (7549747 / 2097152) 19 = (8965323 / 131072) := by
    show f32 (runningSum32 (7549747 / 2097152) 18 + 7549747 / 2097152) = _
    rw [t18]
    exact f32_pos _ _ (6) (8965323) (by norm_num) (by norm_num) (by norm_num)
      (roundEven_near _ (8965323) (by norm_num) (by norm_num)) (by norm_num)
  have t20 : runningSum32 (7549747 / 2097152) 20 = (4718591 / 65536) := by
    show f32 (runningSum32 (7549747 / 2097152) 19 + 7549747 / 2097152) = _
    rw [t19]
    exact f32_pos _ _ (6) (9437182) (by norm_num) (by norm_num) (by norm_num)
      (roundEven_near _ (9437182) (by norm_num) (by norm_num)) (by norm_num)
  have t21 : runningSum32 (7549747 / 2097152) 21 = (9909041 / 131072) := by
    show f32 (runningSum32 (7549747 / 2097152) 20 + 7549747 / 2097152) = _
    rw [t20]
    exact f32_pos _ _ (6) (9909041) (by norm_num) (by norm_num) (by norm_num)
      (roundEven_near _ (9909041) (by norm_num) (by norm_num)) (by norm_num)
  have t22 : runningSum32 (7549747 / 2097152) 22 = (2595225 / 32768) := by
    show f32 (runningSum32 (7549747 / 2097152) 21 + 7549747 / 2097152) = _
    rw [t21]
    exact f32_pos _ _ (6) (10380900) (by norm_num) (by norm_num) (by norm_num)
      (roundEven_near _ (10380900) (by norm_num) (by norm_num)) (by norm_num)
  have t23 : runningSum32 (7549747 / 2097152) 23 = (10852759 / 131072) := by
    show f32 (runningSum32 (7549747 / 2097152) 22 + 7549747 / 2097152) = _
    rw [t22]
    exact f32_pos _ _ (6) (10852759) (by norm_num) (by norm_num) (by norm_num)
      (roundEven_near _ (10852759) (by norm_num) (by norm_num)) (by norm_num)
  have t24 : runningSum32 (7549747 / 2097152) 24 = (5662309 / 65536) := by
    show f32 (runningSum32 (7549747 / 2097152) 23 + 7549747 / 2097152) = _
    rw [t23]
    exact f32_pos _ _ (6) (11324618) (by norm_num) (by norm_num) (by norm_num)
      (roundEven_near _ (11324618) (by norm_num) (by norm_num)) (by norm_num)
  have t25 : runningSum32 (7549747 / 2097152) 25 = (11796477 / 131072) := by
    show f32 (runningSum32 (7549747 / 2097152) 24 + 7549747 / 2097152) = _
    rw [t24]
    exact f32_pos _ _ (6) (11796477) (by norm_num) (by norm_num) (by norm_num)
      (roundEven_near _ (11796477) (by norm_num) (by norm_num)) (by norm_num)
  have t26 : runningSum32 (7549747 / 2097152) 26 = (766771 / 8192) := by
    show f32 (runningSum32 (7549747 / 2097152) 25 + 7549747 / 2097152) = _
    rw [t25]
    exact f32_pos _ _ (6) (12268336) (by norm_num) (by norm_num) (by norm_num)
      (roundEven_near _ (12268336) (by norm_num) (by norm_num)) (by norm_num)
  have t27 : runningSum32 (7549747 / 2097152) 27 = (12740195 / 131072) := by
    show f32 (runningSum32 (7549747 / 2097152) 26 + 7549747 / 2097152) = _
    rw [t26]
    exact f32_pos _ _ (6) (12740195) (by norm_num) (by norm_num) (by norm_num)
      (roundEven_near _ (12740195) (by norm_num) (by norm_num)) (by norm_num)
  have t28 : runningSum32 (7549747 / 2097152) 28 = (6606027 / 65536) := by
    show f32 (runningSum32 (7549747 / 2097152) 27 + 7549747 / 2097152) = _
    rw [t27]
    exact f32_pos _ _ (6) (13212054) (by norm_num) (by norm_num) (by norm_num)
      (roundEven_near _ (13212054) (by norm_num) (by norm_num)) (by norm_num)
  have t29 : runningSum32 (7549747 / 2097152) 29 = (13683913 / 131072) := by
    show f32 (runningSum32 (7549747 / 2097152) 28 + 7549747 / 2097152) = _
    rw [t28]
    exact f32_pos _ _ (6) (13683913) (by norm_num) (by norm_num) (by norm_num)
      (roundEven_near _ (13683913) (by norm_num) (by norm_num)) (by norm_num)
  have t30 : runningSum32 (7549747 / 2097152) 30 = (3538943 / 32768) := by
    show f32 (runningSum32 (7549747 / 2097152) 29 + 7549747 / 2097152) = _
    rw [t29]
    exact f32_pos _ _ (6) (14155772) (by norm_num) (by norm_num) (by norm_num)
      (roundEven_near _ (14155772) (by norm_num) (by norm_num)) (by norm_num)
  have t31 : runningSum32 (7549747 / 2097152) 31 = (14627631 / 131072) := by
    show f32 (runningSum32 (7549747 / 2097152) 30 + 7549747 / 2097152) = _
    rw [t30]
    exact f32_pos _ _ (6) (14627631) (by norm_num) (by norm_num) (by norm_num)
      (roundEven_near _ (14627631) (by norm_num) (by norm_num)) (by norm_num)
  have t32 : runningSum32 (7549747 / 2097152) 32 = (7549745 / 65536) := by
    show f32 (runningSum32 (7549747 / 2097152) 31 + 7549747 / 2097152) = _
    rw [t31]
    exact f32_pos _ _ (6) (15099490) (by norm_num) (by norm_num) (by norm_num)
      (roundEven_near _ (15099490) (by norm_num) (by norm_num)) (by norm_num)
  have t33 : runningSum32 (7549747 / 2097152) 33 = (15571349 / 131072) := by
    show f32 (runningSum32 (7549747 / 2097152) 32 + 7549747 / 2097152) = _
    rw [t32]
    exact f32_pos _ _ (6) (15571349) (by norm_num) (by norm_num) (by norm_num)
      (roundEven_near _ (15571349) (by norm_num) (by norm_num)) (by norm_num)
  have t34 : runningSum32 (7549747 / 2097152) 34 = (2005401 / 16384) := by
    show f32 (runningSum32 (7549747 / 2097152) 33 + 7549747 / 2097152) = _
    rw [t33]
    exact f32_pos _ _ (6) (16043208) (by norm_num) (by norm_num) (by norm_num)
      (roundEven_near _ (16043208) (by norm_num) (by norm_num)) (by norm_num)
  have t35 : runningSum32 (7549747 / 2097152) 35 = (16515067 / 131072) := by
    show f32 (runningSum32 (7549747 / 2097152) 34 + 7549747 / 2097152) = _
    rw [t34]
    exact f32_pos _ _ (6) (16515067) (by norm_num) (by norm_num) (by norm_num)
      (roundEven_near _ (16515067) (by norm_num) (by norm_num)) (by norm_num)
  have t36 : runningSum32 (7549747 / 2097152) 36 = (8493463 / 65536) := by
    show f32 (runningSum32 (7549747 / 2097152) 35 + 7549747 / 2097152) = _
    rw [t35]
    exact f32_pos _ _ (7) (8493463) (by norm_num) (by norm_num) (by norm_num)
      (roundEven_near _ (8493463) (by norm_num) (by norm_num)) (by norm_num)
  have t37 : runningSum32 (7549747 / 2097152) 37 = (8729393 / 65536) := by
    show f32 (runningSum32 (7549747 / 2097152) 36 + 7549747 / 2097152) = _
    rw [t36]
    exact f32_pos _ _ (7) (8729393) (by norm_num) (by norm_num) (by norm_num)
      (roundEven_near _ (8729393) (by norm_num) (by norm_num)) (by norm_num)
  have t38 : runningSum32 (7549747 / 2097152) 38 = (8965323 / 65536) := by
    show f32 (runningSum32 (7549747 / 2097152) 37 + 7549747 / 2097152) = _
    rw [t37]
    exact f32_pos _ _ (7) (8965323) (by norm_num) (by norm_num) (by norm_num)
      (roundEven_near _ (8965323) (by norm_num) (by norm_num)) (by norm_num)
  have t39 : runningSum32 (7549747 / 2097152) 39 = (9201253 / 65536) := by
    show f32 (runningSum32 (7549747 / 2097152) 38 + 7549747 / 2097152) = _
    rw [t38]
    exact f32_pos _ _ (7) (9201253) (by norm_num) (by norm_num) (by norm_num)
      (roundEven_near _ (9201253) (by norm_num) (by norm_num)) (by norm_num)
  have t40 : runningSum32 (7549747 / 2097152) 40 = (9437183 / 65536) := by
    show f32 (runningSum32 (7549747 / 2097152) 39 + 7549747 / 2097152) = _
    rw [t39]
    exact f32_pos _ _ (7) (9437183) (by norm_num) (by norm_num) (by norm_num)
      (roundEven_near _ (9437183) (by norm_num) (by norm_num)) (by norm_num)
  have t41 : runningSum32 (7549747 / 2097152) 41 = (9673113 / 65536) := by
    show f32 (runningSum32 (7549747 / 2097152) 40 + 7549747 / 2097152) = _
    rw [t40]
    exact f32_pos _ _ (7) (9673113) (by norm_num) (by norm_num) (by norm_num)
      (roundEven_near _ (9673113) (by norm_num) (by norm_num)) (by norm_num)
  have t42 : runningSum32 (7549747 / 2097152) 42 = (9909043 / 65536) := by
    show f32 (runningSum32 (7549747 / 2097152) 41 + 7549747 / 2097152) = _
    rw [t41]
    exact f32_pos _ _ (7) (9909043) (by norm_num) (by norm_num) (by norm_num)
      (roundEven_near _ (9909043) (by norm_num) (by norm_num)) (by norm_num)
  have t43 : runningSum32 (7549747 / 2097152) 43 = (10144973 / 65536) := by
    show f32 (runningSum32 (7549747 / 2097152) 42 + 7549747 / 2097152) = _
    rw [t42]
    exact f32_pos _ _ (7) (10144973) (by norm_num) (by norm_num) (by norm_num)
      (roundEven_near _ (10144973) (by norm_num) (by norm_num)) (by norm_num)
  have t44 : runningSum32 (7549747 / 2097152) 44 = (10380903 / 65536) := by
    show f32 (runningSum32 (7549747 / 2097152) 43 + 7549747 / 2097152) = _
    rw [t43]
    exact f32_pos _ _ (7) (10380903) (by norm_num) (by norm_num) (by norm_num)
      (roundEven_near _ (10380903) (by norm_num) (by norm_num)) (by norm_num)
  have t45 : runningSum32 (7549747 / 2097152) 45 = (10616833 / 65536) := by
    show f32 (runningSum32 (7549747 / 2097152) 44 + 7549747 / 2097152) = _
    rw [t44]
    exact f32_pos _ _ (7) (10616833) (by norm_num) (by norm_num) (by norm_num)
      (roundEven_near _ (10616833) (by norm_num) (by norm_num)) (by norm_num)
  have t46 : runningSum32 (7549747 / 2097152) 46 = (10852763 / 65536) := by
    show f32 (runningSum32 (7549747 / 2097152) 45 + 7549747 / 2097152) = _
    rw [t45]
    exact f32_pos _ _ (7) (10852763) (by norm_num) (by norm_num) (by norm_num)
      (roundEven_near _ (10852763) (by norm_num) (by norm_num)) (by norm_num)
  have t47 : runningSum32 (7549747 / 2097152) 47 = (11088693 / 65536) := by
    show f32 (runningSum32 (7549747 / 2097152) 46 + 7549747 / 2097152) = _
    rw [t46]
    exact f32_pos _ _ (7) (11088693) (by norm_num) (by norm_num) (by norm_num)
      (roundEven_near _ (11088693) (by norm_num) (by norm_num)) (by norm_num)
  have t48 : runningSum32 (7549747 / 2097152) 48 = (11324623 / 65536) := by
    show f32 (runningSum32 (7549747 / 2097152) 47 + 7549747 / 2097152) = _
    rw [t47]
    exact f32_pos _ _ (7) (11324623) (by norm_num) (by norm_num) (by norm_num)
      (roundEven_near _ (11324623) (by norm_num) (by norm_num)) (by norm_num)
  have t49 : runningSum32 (7549747 / 2097152) 49 = (11560553 / 65536) := by
    show f32 (runningSum32 (7549747 / 2097152) 48 + 7549747 / 2097152) = _
    rw [t48]
    exact f32_pos _ _ (7) (11560553) (by norm_num) (by norm_num) (by norm_num)
      (roundEven_near _ (11560553) (by norm_num) (by norm_num)) (by norm_num)
  have t50 : runningSum32 (7549747 / 2097152) 50 = (11796483 / 65536) := by
    show f32 (runningSum32 (7549747 / 2097152) 49 + 7549747 / 2097152) = _
    rw [t49]
    exact f32_pos _ _ (7) (11796483) (by norm_num) (by norm_num) (by norm_num)
      (roundEven_near _ (11796483) (by norm_num) (by norm_num)) (by norm_num)
  have t51 : runningSum32 (7549747 / 2097152) 51 = (12032413 / 65536) := by
    show f32 (runningSum32 (7549747 / 2097152) 50 + 7549747 / 2097152) = _
    rw [t50]
    exact f32_pos _ _ (7) (12032413) (by norm_num) (by norm_num) (by norm_num)
      (roundEven_near _ (12032413) (by norm_num) (by norm_num)) (by norm_num)
  intro m hm
  interval_cases m
  · exact t0
  · exact t1
  · exact t2
  · exact t3
  · exact t4
  · exact t5
  · exact t6
  · exact t7
  · exact t8
  · exact t9
  · exact t10
  · exact t11
  · exact t12
  · exact t13
  · exact t14
  · exact t15
  · exact t16
  · exact t17
  · exact t18
  · exact t19
  · exact t20
  · exact t21
  · exact t22
  · exact t23
  · exact t24
  · exact t25
  · exact t26
  · exact t27
  · exact t28
  · exact t29
  · exact t30
  · exact t31
  · exact t32
  · exact t33
  · exact t34
  · exact t35
  · exact t36
  · exact t37
  · exact t38
  · exact t39
  · exact t40
  · exact t41
  · exact t42
  · exact t43
  · exact t44
  · exact t45
  · exact t46
  · exact t47
  · exact t48
  · exact t49
  · exact t50
  · exact t51

/-- The heights of the fall in binary32, step by step. -/
theorem fallHeight32_trace :
    ∀ k : Nat, k ≤ 32 → fallHeight32 k = TRACE_FALL.getD k 0 := by
  have t0 : fallHeight32 0 = 3 := by
    show (INITIAL_POS : ℚ) = 3
    norm_num [INITIAL_POS]
  have t1 : fallHeight32 1 = (6081741 / 2097152) := by
    show f32 (fallHeight32 0 - f32 0.1) = _
    rw [t0, f32_0_1]
    exact f32_pos _ _ (1) (12163482) (by norm_num) (by norm_num) (by norm_num)
      (roundEven_near _ (12163482) (by norm_num) (by norm_num)) (by norm_num)
  have t2 : fallHeight32 2 = (2936013 / 1048576) := by
    show f32 (fallHeight32 1 - f32 0.1) = _
    rw [t1, f32_0_1]
    exact f32_pos _ _ (1) (11744052) (by norm_num) (by norm_num) (by norm_num)
      (roundEven_near _ (11744052) (by norm_num) (by norm_num)) (by norm_num)
  have t3 : fallHeight32 3 = (5662311 / 2097152) := by
    show f32 (fallHeight32 2 - f32 0.1) = _
    rw [t2, f32_0_1]
    exact f32_pos _ _ (1) (11324622) (by norm_num) (by norm_num) (by norm_num)
      (roundEven_near _ (11324622) (by norm_num) (by norm_num)) (by norm_num)
  have t4 : fallHeight32 4 = (1363149 / 524288) := by
    show f32 (fallHeight32 3 - f32 0.1) = _
    rw [t3, f32_0_1]
    exact f32_pos _ _ (1) (10905192) (by norm_num) (by norm_num) (by norm_num)
      (roundEven_near _ (10905192) (by norm_num) (by norm_num)) (by norm_num)
  have t5 : fallHeight32 5 = (5242881 / 2097152) := by
    show f32 (fallHeight32 4 - f32 0.1) = _
    rw [t4, f32_0_1]
    exact f32_pos _ _ (1) (10485762) (by norm_num) (by norm_num) (by norm_num)
      (roundEven_near _ (10485762) (by norm_num) (by norm_num)) (by norm_num)
  have t6 : fallHeight32 6 = (2516583 / 1048576) := by
    show f32 (fallHeight32 5 - f32 0.1) = _
    rw [t5, f32_0_1]
    exact f32_pos _ _ (1) (10066332) (by norm_num) (by norm_num) (by norm_num)
      (roundEven_near _ (10066332) (by norm_num) (by norm_num)) (by norm_num)
  have t7 : fallHeight32 7 = (4823451 / 2097152) := by
    show f32 (fallHeight32 6 - f32 0.1) = _
    rw [t6, f32_0_1]
    exact f32_pos _ _ (1) (9646902) (by norm_num) (by norm_num) (by norm_num)
      (roundEven_near _ (9646902) (by norm_num) (by norm_num)) (by norm_num)
  have t8 : fallHeight32 8 = (576717 / 262144) := by
    show f32 (fallHeight32 7 - f32 0.1) = _
    rw [t7, f32_0_1]
    exact f32_pos _ _ (1) (9227472) (by norm_num) (by norm_num) (by norm_num)
      (roundEven_near _ (9227472) (by norm_num) (by norm_num)) (by norm_num)
  have t9 : fallHeight32 9 = (4404021 / 2097152) := by
    show f32 (fallHeight32 8 - f32 0.1) = _
    rw [t8, f32_0_1]
    exact f32_pos _ _ (1) (8808042) (by norm_num) (by norm_num) (by norm_num)
      (roundEven_near _ (8808042) (by norm_num) (by norm_num)) (by norm_num)
  have t10 : fallHeight32 10 = (2097153 / 1048576) := by
    show f32 (fallHeight32 9 - f32 0.1) = _
    rw [t9, f32_0_1]
    exact f32_pos _ _ (1) (8388612) (by norm_num) (by norm_num) (by norm_num)
      (roundEven_near _ (8388612) (by norm_num) (by norm_num)) (by norm_num)
  have t11 : fallHeight32 11 = (15938363 / 8388608) := by
    show f32 (fallHeight32 10 - f32 0.1) = _
    rw [t10, f32_0_1]
    exact f32_pos _ _ (0) (15938363) (by norm_num) (by norm_num) (by norm_num)
      (roundEven_near _ (15938363) (by norm_num) (by norm_num)) (by norm_num)
  have t12 : fallHeight32 12 = (7549751 / 4194304) := by
    show f32 (fallHeight32 11 - f32 0.1) = _
    rw [t11, f32_0_1]
    exact f32_pos _ _ (0) (15099502) (by norm_num) (by norm_num) (by norm_num)
      (roundEven_near _ (15099502) (by norm_num) (by norm_num)) (by norm_num)
  have t13 : fallHeight32 13 = (14260641 / 8388608) := by
    show f32 (fallHeight32 12 - f32 0.1) = _
    rw [t12, f32_0_1]
    exact f32_pos _ _ (0) (14260641) (by norm_num) (by norm_num) (by norm_num)
      (roundEven_near _ (14260641) (by norm_num) (by norm_num)) (by norm_num)
  have t14 : fallHeight32 14 = (3355445 / 2097152) := by
    show f32 (fallHeight32 13 - f32 0.1) = _
    rw [t13, f32_0_1]
    exact f32_pos _ _ (0) (13421780) (by norm_num) (by norm_num) (by norm_num)
      (roundEven_near _ (13421780) (by norm_num) (by norm_num)) (by norm_num)
  have t15 : fallHeight32 15 = (12582919 / 8388608) := by
    show f32 (fallHeight32 14 - f32 0.1) = _
    rw [t14, f32_0_1]
    exact f32_pos _ _ (0) (12582919) (by norm_num) (by norm_num) (by norm_num)
      (roundEven_near _ (12582919) (by norm_num) (by norm_num)) (by norm_num)
  have t16 : fallHeight32 16 = (5872029 / 4194304) := by
    show f32 (fallHeight32 15 - f32 0.1) = _
    rw [t15, f32_0_1]
    exact f32_pos _ _ (0) (11744058) (by norm_num) (by norm_num) (by norm_num)
      (roundEven_near _ (11744058) (by norm_num) (by norm_num)) (by norm_num)
  have t17 : fallHeight32 17 = (10905197 / 8388608) := by
    show f32 (fallHeight32 16 - f32 0.1) = _
    rw [t16, f32_0_1]
    exact f32_pos _ _ (0) (10905197) (by norm_num) (by norm_num) (by norm_num)
      (roundEven_near _ (10905197) (by norm_num) (by norm_num)) (by norm_num)
  have t18 : fallHeight32 18 = (314573 / 262144) := by
    show f32 (fallHeight32 17 - f32 0.1) = _
    rw [t17, f32_0_1]
    exact f32_pos _ _ (0) (10066336) (by norm_num) (by norm_num) (by norm_num)
      (roundEven_near _ (10066336) (by norm_num) (by norm_num)) (by norm_num)
  have t19 : fallHeight32 19 = (9227475 / 8388608) := by
    show f32 (fallHeight32 18 - f32 0.1) = _
    rw [t18, f32_0_1]
    exact f32_pos _ _ (0) (9227475) (by norm_num) (by norm_num) (by norm_num)
      (roundEven_near _ (9227475) (by norm_num) (by norm_num)) (by norm_num)
  have t20 : fallHeight32 20 = (4194307 / 4194304) := by
    show f32 (fallHeight32 19 - f32 0.1) = _
    rw [t19, f32_0_1]
    exact f32_pos _ _ (0) (8388614) (by norm_num) (by norm_num) (by norm_num)
      (roundEven_near _ (8388614) (by norm_num) (by norm_num)) (by norm_num)
  have t21 : fallHeight32 21 = (7549753 / 8388608) := by
    show f32 (fallHeight32 20 - f32 0.1) = _
    rw [t20, f32_0_1]
    exact f32_pos _ _ (-1) (15099506) (by norm_num) (by norm_num) (by norm_num)
      (roundEven_near _ (15099506) (by norm_num) (by norm_num)) (by norm_num)
  have t22 : fallHeight32 22 = (1677723 / 2097152) := by
    show f32 (fallHeight32 21 - f32 0.1) = _
    rw [t21, f32_0_1]
    exact f32_pos _ _ (-1) (13421784) (by norm_num) (by norm_num) (by norm_num)
      (roundEven_near _ (13421784) (by norm_num) (by norm_num)) (by norm_num)
  have t23 : fallHeight32 23 = (5872031 / 8388608) := by
    show f32 (fallHeight32 22 - f32 0.1) = _
    rw [t22, f32_0_1]
    exact f32_pos _ _ (-1) (11744062) (by norm_num) (by norm_num) (by norm_num)
      (roundEven_near _ (11744062) (by norm_num) (by norm_num)) (by norm_num)
  have t24 : fallHeight32 24 = (2516585 / 4194304) := by
    show f32 (fallHeight32 23 - f32 0.1) = _
    rw [t23, f32_0_1]
    exact f32_pos _ _ (-1) (10066340) (by norm_num) (by norm_num) (by norm_num)
      (roundEven_near _ (10066340) (by norm_num) (by norm_num)) (by norm_num)
  have t25 : fallHeight32 25 = (4194309 / 8388608) := by
    show f32 (fallHeight32 24 - f32 0.1) = _
    rw [t24, f32_0_1]
    exact f32_pos _ _ (-1) (8388618) (by norm_num) (by norm_num) (by norm_num)
      (roundEven_near _ (8388618) (by norm_num) (by norm_num)) (by norm_num)
  have t26 : fallHeight32 26 = (13421793 / 33554432) := by
    show f32 (fallHeight32 25 - f32 0.1) = _
    rw [t25, f32_0_1]
    exact f32_pos _ _ (-2) (13421793) (by norm_num) (by norm_num) (by norm_num)
      (roundEven_near _ (13421793) (by norm_num) (by norm_num)) (by norm_num)
  have t27 : fallHeight32 27 = (5033175 / 16777216) := by
    show f32 (fallHeight32 26 - f32 0.1) = _
    rw [t26, f32_0_1]
    exact f32_pos _ _ (-2) (10066350) (by norm_num) (by norm_num) (by norm_num)
      (roundEven_near _ (10066350) (by norm_num) (by norm_num)) (by norm_num)
  have t28 : fallHeight32 28 = (6710907 / 33554432) := by
    show f32 (fallHeight32 27 - f32 0.1) = _
    rw [t27, f32_0_1]
    exact f32_pos _ _ (-3) (13421814) (by norm_num) (by norm_num) (by norm_num)
      ((roundEven_tie _ (13421813) (by norm_num)).trans (by norm_num)) (by norm_num)
  have t29 : fallHeight32 29 = (13421855 / 134217728) := by
    show f32 (fallHeight32 28 - f32 0.1) = _
    rw [t28, f32_0_1]
    exact f32_pos _ _ (-4) (13421855) (by norm_num) (by norm_num) (by norm_num)
      (roundEven_near _ (13421855) (by norm_num) (by norm_num)) (by norm_num)
  have t30 : fallHeight32 30 = (41 / 67108864) := by
    show f32 (fallHeight32 29 - f32 0.1) = _
    rw [t29, f32_0_1]
    exact f32_pos _ _ (-21) (10747904) (by norm_num) (by norm_num) (by norm_num)
      (roundEven_near _ (10747904) (by norm_num) (by norm_num)) (by norm_num)
  have t31 : fallHeight32 31 = (-13421691 / 134217728) := by
    show f32 (fallHeight32 30 - f32 0.1) = _
    rw [t30, f32_0_1]
    exact f32_negv _ _ (-4) (-13421691) (by norm_num) (by norm_num) (by norm_num)
      (roundEven_near _ (-13421691) (by norm_num) (by norm_num)) (by norm_num)
  have t32 : fallHeight32 32 = (-3355433 / 16777216) := by
    show f32 (fallHeight32 31 - f32 0.1) = _
    rw [t31, f32_0_1]
    exact f32_negv _ _ (-3) (-13421732) (by norm_num) (by norm_num) (by norm_num)
      (roundEven_near _ (-13421732) (by norm_num) (by norm_num)) (by norm_num)
  intro k hk
  interval_cases k
  · exact t0
  · exact t1
  · exact t2
  · exact t3
  · exact t4
  · exact t5
  · exact t6
  · exact t7
  · exact t8
  · exact t9
  · exact t10
  · exact t11
  · exact t12
  · exact t13
  · exact t14
  · exact t15
  · exact t16
  · exact t17
  · exact t18
  · exact t19
  · exact t20
  · exact t21
  · exact t22
  · exact t23
  · exact t24
  · exact t25
  · exact t26
  · exact t27
  · exact t28
  · exact t29
  · exact t30
  · exact t31
  · exact t32


/-! ### The binary32 model -/

theorem get_random_rev_angular_vel_ok_f32 (rnd : Nat → Nat) (calls : Nat) :
    ∃ v, Ball.get_random_rev_angular_vel_f32 rnd calls = Except.ok (v, calls + 1)
      ∧ v ∈ REV_PALETTE_F32 := by
  have h : rnd calls % 4 < 4 := Nat.mod_lt _ (by decide)
  unfold Ball.get_random_rev_angular_vel_f32
  simp only
  generalize rnd calls % 4 = m at h
  interval_cases m
  · exact ⟨2.25, rfl, by simp [REV_PALETTE_F32]⟩
  · exact ⟨2.5, rfl, by simp [REV_PALETTE_F32]⟩
  · exact ⟨3.0, rfl, by simp [REV_PALETTE_F32]⟩
  · exact ⟨f32 3.6, rfl, by simp [REV_PALETTE_F32]⟩

theorem set_dest_hit_f32 (rnd : Nat → Nat) (fuel : Nat) (b : Ball) (calls k : Nat)
    (hf : k < fuel) (hk : FirstHit rnd calls b.m_next_pos_idx k) :
    ∃ rev rot, rev ∈ REV_PALETTE_F32 ∧ rot ∈ ROT_PALETTE
      ∧ Ball.set_dest_f32 rnd fuel b calls
        = Except.ok (destined_f32 b ((rnd (calls + k) % 9 : Nat) : Int) rev rot,
            calls + k + 3) := by
  obtain ⟨rev, hrev, hrevm⟩ := get_random_rev_angular_vel_ok_f32 rnd (calls + k + 1)
  obtain ⟨rot, hrot, hrotm⟩ := get_random_rot_angular_vel_ok rnd (calls + k + 1 + 1)
  refine ⟨rev, rot, hrevm, hrotm, ?_⟩
  unfold Ball.set_dest_f32
  simp only [get_random_next_pos_idx_hit rnd b.m_next_pos_idx k fuel calls hf hk, hrev, hrot]
  rfl

/-- A tick in `JUGGLING` on which `is_failure()` holds. -/
theorem main_loop_juggling_fail_f32 (rnd : Nat → Nat) (fuel : Nat) (g : GameManager)
    (hm : g.m_game_mode = GameMode.JUGGLING) (hf : g.is_failure = true) :
    GameManager.main_loop_f32 rnd fuel g
      = Except.ok { g with
          m_game_mode := GameMode.FAILED
          stdout := g.stdout ++ [Printed.failed g.m_count]
          m_ball := g.m_ball.update_juggle_f32 } := by
  unfold GameManager.main_loop_f32
  simp [hm, hf]

/-- A tick in `JUGGLING` on which the ball has not arrived. -/
theorem main_loop_juggling_fly_f32 (rnd : Nat → Nat) (fuel : Nat) (g : GameManager)
    (hm : g.m_game_mode = GameMode.JUGGLING) (ha : g.m_ball.is_fallen = false) :
    GameManager.main_loop_f32 rnd fuel g
      = Except.ok { g with m_ball := g.m_ball.update_juggle_f32 } := by
  have hf : g.is_failure = false := by
    unfold GameManager.is_failure
    simp [ha]
  unfold GameManager.main_loop_f32
  simp [hm, hf, ha]

/-- A tick in `JUGGLING` on which the ball has arrived on the tile. -/
theorem main_loop_juggling_catch_f32 (rnd : Nat → Nat) (fuel : Nat) (g : GameManager)
    (hm : g.m_game_mode = GameMode.JUGGLING) (hf : g.is_failure = false)
    (ha : g.m_ball.is_fallen = true) (b : Ball) (c : Nat)
    (hd : g.m_ball.set_dest_f32 rnd fuel g.rand_calls = Except.ok (b, c)) :
    GameManager.main_loop_f32 rnd fuel g
      = Except.ok { g with
          m_count := g.m_count + 1
          stdout := g.stdout ++ [Printed.score (g.m_count + 1)]
          m_ball := b.update_juggle_f32
          rand_calls := c } := by
  unfold GameManager.main_loop_f32
  simp [hm, hf, ha, hd]

/-- A tick in `FALLING` that sees a height that is not negative. -/
theorem main_loop_falling_high_f32 (rnd : Nat → Nat) (fuel : Nat) (g : GameManager)
    (hm : g.m_game_mode = GameMode.FALLING) (hh : 0 ≤ g.m_ball.m_falling_pos) :
    GameManager.main_loop_f32 rnd fuel g
      = Except.ok { g with m_ball := g.m_ball.update_fall_f32 } := by
  have hh' : ¬ g.m_ball.m_falling_pos < 0.0 := by
    rw [show (0.0 : ℚ) = 0 by norm_num]
    exact not_lt.mpr hh
  unfold GameManager.main_loop_f32
  simp only [hm, Ball.get_falling_pos, if_neg hh']

/-- A tick in `FALLING` that sees a negative height. -/
theorem main_loop_falling_low_f32 (rnd : Nat → Nat) (fuel : Nat) (g : GameManager)
    (hm : g.m_game_mode = GameMode.FALLING) (hh : g.m_ball.m_falling_pos < 0)
    (b : Ball) (c : Nat)
    (hd : g.m_ball.set_dest_f32 rnd fuel g.rand_calls = Except.ok (b, c)) :
    GameManager.main_loop_f32 rnd fuel g
      = Except.ok { g with
          m_game_mode := GameMode.JUGGLING
          m_count := g.m_count + 1
          stdout := g.stdout ++ [Printed.score (g.m_count + 1)]
          m_ball := b.update_fall_f32
          rand_calls := c } := by
  have hh' : g.m_ball.m_falling_pos < 0.0 := by
    rw [show (0.0 : ℚ) = 0 by norm_num]
    exact hh
  unfold GameManager.main_loop_f32
  simp only [hm, Ball.get_falling_pos, if_pos hh', hd]

/-- A tick in `FAILED`. -/
theorem main_loop_failed_f32 (rnd : Nat → Nat) (fuel : Nat) (g : GameManager)
    (hm : g.m_game_mode = GameMode.FAILED) :
    GameManager.main_loop_f32 rnd fuel g
      = Except.ok { g with m_red_tile := ⟨g.m_ball.m_next_pos_idx⟩ } := by
  unfold GameManager.main_loop_f32
  simp [hm, Tile.set_pos_number, Ball.get_next_pos_idx]

theorem set_dest_sound_f32 (rnd : Nat → Nat) (fuel : Nat) (b b' : Ball) (calls c : Nat)
    (h : Ball.set_dest_f32 rnd fuel b calls = Except.ok (b', c)) :
    ∃ next rev rot, b' = destined_f32 b next rev rot
      ∧ next ≠ b.m_next_pos_idx ∧ 0 ≤ next ∧ next ≤ 8
      ∧ rev ∈ REV_PALETTE_F32 ∧ rot ∈ ROT_PALETTE ∧ calls < c := by
  unfold Ball.set_dest_f32 at h
  cases hn : Ball.get_random_next_pos_idx rnd fuel calls b.m_next_pos_idx with
  | error e => simp [hn] at h
  | ok r =>
    obtain ⟨next, c1⟩ := r
    obtain ⟨h1, h2, h3, h4⟩ := get_random_next_pos_idx_sound rnd _ fuel calls next c1 hn
    obtain ⟨rev, hrev, hrevm⟩ := get_random_rev_angular_vel_ok_f32 rnd c1
    obtain ⟨rot, hrot, hrotm⟩ := get_random_rot_angular_vel_ok rnd (c1 + 1)
    simp only [hn, hrev, hrot] at h
    injection h with h
    injection h with hb hc
    refine ⟨next, rev, rot, hb.symm, h1, h2, h3, hrevm, hrotm, by omega⟩

theorem ticks_succ_ok_f32 (rnd : Nat → Nat) (fuel n : Nat) (g g1 : GameManager)
    (h : GameManager.main_loop_f32 rnd fuel g = Except.ok g1) :
    ticks_f32 rnd fuel (n + 1) g = ticks_f32 rnd fuel n g1 := by
  rw [ticks_f32]
  simp only [h]

theorem ticks_add_f32 (rnd : Nat → Nat) (fuel : Nat) :
    ∀ (m n : Nat) (g g1 : GameManager), ticks_f32 rnd fuel m g = Except.ok g1 →
      ticks_f32 rnd fuel (m + n) g = ticks_f32 rnd fuel n g1 := by
  intro m
  induction m with
  | zero =>
    intro n g g1 h
    rw [ticks_f32] at h
    injection h with h
    subst h
    simp
  | succ m ih =>
    intro n g g1 h
    cases h1 : GameManager.main_loop_f32 rnd fuel g with
    | error e =>
      rw [ticks_f32] at h
      simp [h1] at h
    | ok g2 =>
      rw [ticks_succ_ok_f32 rnd fuel m g g2 h1] at h
      rw [show m + 1 + n = (m + n) + 1 by omega, ticks_succ_ok_f32 rnd fuel (m + n) g g2 h1]
      exact ih n g2 g1 h

theorem reachable_ticks_f32 (rnd : Nat → Nat) (center : Vec3) (scale : ℚ) (fuel : Nat) :
    ∀ (n : Nat) (g g' : GameManager), Reachable_f32 rnd center scale g →
      ticks_f32 rnd fuel n g = Except.ok g' → Reachable_f32 rnd center scale g' := by
  intro n
  induction n with
  | zero =>
    intro g g' hr h
    rw [ticks_f32] at h
    injection h with h
    subst h
    exact hr
  | succ n ih =>
    intro g g' hr h
    cases h1 : GameManager.main_loop_f32 rnd fuel g with
    | error e =>
      rw [ticks_f32] at h
      simp [h1] at h
    | ok g2 =>
      rw [ticks_succ_ok_f32 rnd fuel n g g2 h1] at h
      exact ih g2 g' (Reachable_f32.tick fuel g g2 hr h1) h

/-- The seven ways in which a tick can return. -/
theorem main_loop_ok_cases_f32 (rnd : Nat → Nat) (fuel : Nat) (g g' : GameManager)
    (h : GameManager.main_loop_f32 rnd fuel g = Except.ok g') :
    (g.m_game_mode = GameMode.BEFORE_START ∧ g' = g)
    ∨ (g.m_game_mode = GameMode.FALLING ∧ 0 ≤ g.m_ball.m_falling_pos
        ∧ g' = { g with m_ball := g.m_ball.update_fall_f32 })
    ∨ (g.m_game_mode = GameMode.FALLING ∧ g.m_ball.m_falling_pos < 0
        ∧ ∃ b c, g.m_ball.set_dest_f32 rnd fuel g.rand_calls = Except.ok (b, c)
          ∧ g' = { g with
              m_game_mode := GameMode.JUGGLING
              m_count := g.m_count + 1
              stdout := g.stdout ++ [Printed.score (g.m_count + 1)]
              m_ball := b.update_fall_f32
              rand_calls := c })
    ∨ (g.m_game_mode = GameMode.JUGGLING ∧ g.is_failure = true
        ∧ g' = { g with
            m_game_mode := GameMode.FAILED
            stdout := g.stdout ++ [Printed.failed g.m_count]
            m_ball := g.m_ball.update_juggle_f32 })
    ∨ (g.m_game_mode = GameMode.JUGGLING ∧ g.is_failure = false ∧ g.m_ball.is_fallen = true
        ∧ ∃ b c, g.m_ball.set_dest_f32 rnd fuel g.rand_calls = Except.ok (b, c)
          ∧ g' = { g with
              m_count := g.m_count + 1
              stdout := g.stdout ++ [Printed.score (g.m_count + 1)]
              m_ball := b.update_juggle_f32
              rand_calls := c })
    ∨ (g.m_game_mode = GameMode.JUGGLING ∧ g.m_ball.is_fallen = false
        ∧ g' = { g with m_ball := g.m_ball.update_juggle_f32 })
    ∨ (g.m_game_mode = GameMode.FAILED
        ∧ g' = { g with m_red_tile := ⟨g.m_ball.m_next_pos_idx⟩ }) := by
  have hmodes : g.m_game_mode = GameMode.BEFORE_START ∨ g.m_game_mode = GameMode.FALLING
      ∨ g.m_game_mode = GameMode.JUGGLING ∨ g.m_game_mode = GameMode.FAILED := by
    cases g.m_game_mode <;> simp
  rcases hmodes with hm | hm | hm | hm
  · left
    unfold GameManager.main_loop_f32 at h
    simp only [hm] at h
    injection h with h
    exact ⟨hm, h.symm⟩
  · right
    by_cases hh : 0 ≤ g.m_ball.m_falling_pos
    · left
      rw [main_loop_falling_high_f32 rnd fuel g hm hh] at h
      injection h with h
      exact ⟨hm, hh, h.symm⟩
    · right; left
      have hlt : g.m_ball.m_falling_pos < 0 := not_le.mp hh
      cases hd : g.m_ball.set_dest_f32 rnd fuel g.rand_calls with
      | error e =>
        have hlt' : g.m_ball.m_falling_pos < 0.0 := by
          rw [show (0.0 : ℚ) = 0 by norm_num]
          exact hlt
        unfold GameManager.main_loop_f32 at h
        simp only [hm, Ball.get_falling_pos, if_pos hlt', hd] at h
        cases h
      | ok r =>
        obtain ⟨b, c⟩ := r
        rw [main_loop_falling_low_f32 rnd fuel g hm hlt b c hd] at h
        injection h with h
        exact ⟨hm, hlt, b, c, rfl, h.symm⟩
  · right; right; right
    cases hf : g.is_failure with
    | true =>
      left
      rw [main_loop_juggling_fail_f32 rnd fuel g hm hf] at h
      injection h with h
      exact ⟨hm, rfl, h.symm⟩
    | false =>
      right
      cases ha : g.m_ball.is_fallen with
      | false =>
        right; left
        rw [main_loop_juggling_fly_f32 rnd fuel g hm ha] at h
        injection h with h
        exact ⟨hm, rfl, h.symm⟩
      | true =>
        left
        cases hd : g.m_ball.set_dest_f32 rnd fuel g.rand_calls with
        | error e =>
          unfold GameManager.main_loop_f32 at h
          simp [hm, hf, ha, hd] at h
        | ok r =>
          obtain ⟨b, c⟩ := r
          rw [main_loop_juggling_catch_f32 rnd fuel g hm hf ha b c hd] at h
          injection h with h
          exact ⟨hm, rfl, rfl, b, c, rfl, h.symm⟩
  · right; right; right; right; right; right
    rw [main_loop_failed_f32 rnd fuel g hm] at h
    injection h with h
    exact ⟨hm, h.symm⟩

theorem f32_zero : f32 0 = 0 := by
  unfold f32
  rw [if_pos rfl]

theorem f32_natCast (n : ℕ) (h : n < 2 ^ 22) : f32 (n : ℚ) = n := by
  rcases Nat.eq_zero_or_pos n with h0 | h0
  · subst h0
    rw [Nat.cast_zero]
    exact f32_zero
  · have h4 : 4 * n < 2 ^ 24 := by
      norm_num at h ⊢
      omega
    have := f32_quarters (4 * n) (by omega) h4
    have e : (((4 * n : ℕ) : ℚ)) / 4 = n := by
      push_cast
      ring
    rw [e] at this
    exact this

theorem f32_neg_one : f32 (-1) = -1 :=
  f32_negv _ _ 0 (-8388608) (by norm_num) (by norm_num) (by norm_num)
    (roundEven_near _ (-8388608) (by norm_num) (by norm_num)) (by norm_num)

theorem f32_neg_two : f32 (-2) = -2 :=
  f32_negv _ _ 1 (-8388608) (by norm_num) (by norm_num) (by norm_num)
    (roundEven_near _ (-8388608) (by norm_num) (by norm_num)) (by norm_num)

theorem f32_one : f32 1 = 1 := by
  have := f32_natCast 1 (by norm_num)
  simpa using this

theorem f32_two : f32 2 = 2 := by
  have := f32_natCast 2 (by norm_num)
  simpa using this

/-- The running sums of a multiple of a quarter are exact as long as they stay
below `2 ^ 22`. -/
theorem runningSum32_quarters (k : ℕ) (hk : 0 < k) :
    ∀ m : ℕ, m * k < 2 ^ 24 → runningSum32 ((k : ℚ) / 4) m = (m : ℚ) * ((k : ℚ) / 4) := by
  intro m
  induction m with
  | zero =>
    intro _
    show (0 : ℚ) = ((0 : ℕ) : ℚ) * ((k : ℚ) / 4)
    simp
  | succ m ih =>
    intro h
    have hm : m * k < 2 ^ 24 := lt_of_le_of_lt (Nat.mul_le_mul_right k (Nat.le_succ m)) h
    show f32 (runningSum32 ((k : ℚ) / 4) m + (k : ℚ) / 4) = _
    rw [ih hm]
    have e : (m : ℚ) * ((k : ℚ) / 4) + (k : ℚ) / 4 = (((m + 1) * k : ℕ) : ℚ) / 4 := by
      push_cast
      ring
    rw [e, f32_quarters ((m + 1) * k) (Nat.mul_pos (Nat.succ_pos m) hk) h]
    push_cast
    ring

theorem runningSum32_2_25 (m : ℕ) (h : m ≤ 80) : runningSum32 2.25 m = (m : ℚ) * 2.25 := by
  have := runningSum32_quarters 9 (by norm_num) m (by norm_num; omega)
  rw [show (2.25 : ℚ) = ((9 : ℕ) : ℚ) / 4 by norm_num]
  exact this

theorem runningSum32_2_5 (m : ℕ) (h : m ≤ 72) : runningSum32 2.5 m = (m : ℚ) * 2.5 := by
  have := runningSum32_quarters 10 (by norm_num) m (by norm_num; omega)
  rw [show (2.5 : ℚ) = ((10 : ℕ) : ℚ) / 4 by norm_num]
  exact this

theorem runningSum32_3_0 (m : ℕ) (h : m ≤ 60) : runningSum32 3.0 m = (m : ℚ) * 3.0 := by
  have := runningSum32_quarters 12 (by norm_num) m (by norm_num; omega)
  rw [show (3.0 : ℚ) = ((12 : ℕ) : ℚ) / 4 by norm_num]
  exact this

/-- The running sums of `3.6f`: below 180 for 49 steps, above 180 after 50. -/
theorem runningSum32_3_6 (m : ℕ) (h : m ≤ 50) :
    0 ≤ runningSum32 (7549747 / 2097152) m
      ∧ runningSum32 (7549747 / 2097152) m ≤ 11796483 / 65536
      ∧ (m < 50 → runningSum32 (7549747 / 2097152) m < 180)
      ∧ (m = 50 → runningSum32 (7549747 / 2097152) m = 11796483 / 65536) := by
  rw [runningSum32_trace m (by omega)]
  interval_cases m <;>
    simp only [TRACE_36, List.getD_cons_succ, List.getD_cons_zero] <;> norm_num

theorem fallHeight32_high (k : ℕ) (h : k ≤ 30) : 0 ≤ fallHeight32 k := by
  rw [fallHeight32_trace k (by omega)]
  interval_cases k <;>
    simp only [TRACE_FALL, List.getD_cons_succ, List.getD_cons_zero] <;> norm_num

theorem transitTicks_f32_3_6 : transitTicks (f32 3.6) = 50 := by
  rw [f32_3_6]
  norm_num [transitTicks]

/-- The length of a transit in binary32: with `N = transitTicks v`, the running
sum of `v` is below 180 for fewer than `N` steps and at least 180 after `N`. -/
theorem runningSum32_spec (v : ℚ) (hv : v ∈ REV_PALETTE_F32) :
    0 < v ∧ 0 < transitTicks v ∧ transitTicks v ∈ [80, 72, 60, 50]
      ∧ (∀ m : ℕ, m ≤ transitTicks v → 0 ≤ runningSum32 v m)
      ∧ (∀ m : ℕ, m < transitTicks v → runningSum32 v m < 180)
      ∧ 180 ≤ runningSum32 v (transitTicks v) := by
  simp only [REV_PALETTE_F32, List.mem_cons, List.mem_singleton, List.not_mem_nil, or_false] at hv
  rcases hv with h | h | h | h <;> subst h
  · have hN : transitTicks 2.25 = 80 := by norm_num [transitTicks]
    rw [hN]
    refine ⟨by norm_num, by norm_num, by simp, ?_, ?_, ?_⟩
    · intro m hm
      rw [runningSum32_2_25 m hm]
      positivity
    · intro m hm
      rw [runningSum32_2_25 m (le_of_lt hm)]
      have : (m : ℚ) ≤ 79 := by exact_mod_cast (show m ≤ 79 by omega)
      norm_num
      linarith
    · rw [runningSum32_2_25 80 (le_refl _)]
      norm_num
  · have hN : transitTicks 2.5 = 72 := by norm_num [transitTicks]
    rw [hN]
    refine ⟨by norm_num, by norm_num, by simp, ?_, ?_, ?_⟩
    · intro m hm
      rw [runningSum32_2_5 m hm]
      positivity
    · intro m hm
      rw [runningSum32_2_5 m (le_of_lt hm)]
      have : (m : ℚ) ≤ 71 := by exact_mod_cast (show m ≤ 71 by omega)
      norm_num
      linarith
    · rw [runningSum32_2_5 72 (le_refl _)]
      norm_num
  · have hN : transitTicks 3.0 = 60 := by norm_num [transitTicks]
    rw [hN]
    refine ⟨by norm_num, by norm_num, by simp, ?_, ?_, ?_⟩
    · intro m hm
      rw [runningSum32_3_0 m hm]
      positivity
    · intro m hm
      rw [runningSum32_3_0 m (le_of_lt hm)]
      have : (m : ℚ) ≤ 59 := by exact_mod_cast (show m ≤ 59 by omega)
      norm_num
      linarith
    · rw [runningSum32_3_0 60 (le_refl _)]
      norm_num
  · rw [transitTicks_f32_3_6, f32_3_6]
    refine ⟨by norm_num, by norm_num, by simp, ?_, ?_, ?_⟩
    · intro m hm
      exact (runningSum32_3_6 m hm).1
    · intro m hm
      exact (runningSum32_3_6 m (le_of_lt hm)).2.2.1 hm
    · rw [(runningSum32_3_6 50 (le_refl _)).2.2.2 rfl]
      norm_num

theorem destined_f32_juggle_rev (b : Ball) (next : Int) (rev rot : ℚ) :
    (destined_f32 b next rev rot).update_juggle_f32.m_rev_angle = runningSum32 rev 1 := by
  show f32 ((0.0 : ℚ) + rev) = f32 (0 + rev)
  norm_num

theorem iterate_update_juggle_f32_frame (b : Ball) :
    ∀ n : Nat, (Ball.update_juggle_f32^[n] b).m_rev_angular_vel = b.m_rev_angular_vel
      ∧ (Ball.update_juggle_f32^[n] b).m_rot_angular_vel = b.m_rot_angular_vel
      ∧ (Ball.update_juggle_f32^[n] b).m_last_pos_idx = b.m_last_pos_idx
      ∧ (Ball.update_juggle_f32^[n] b).m_next_pos_idx = b.m_next_pos_idx
      ∧ (Ball.update_juggle_f32^[n] b).m_falling_pos = b.m_falling_pos
      ∧ (Ball.update_juggle_f32^[n] b).m_to_center = b.m_to_center
      ∧ (Ball.update_juggle_f32^[n] b).m_scale = b.m_scale
      ∧ (Ball.update_juggle_f32^[n] b).m_rotation_axis = b.m_rotation_axis
      ∧ (Ball.update_juggle_f32^[n] b).m_rotation_center = b.m_rotation_center := by
  intro n
  induction n with
  | zero => exact ⟨rfl, rfl, rfl, rfl, rfl, rfl, rfl, rfl, rfl⟩
  | succ n ih =>
    rw [Function.iterate_succ_apply']
    exact ih

theorem iterate_update_juggle_f32_rev (b : Ball) (m : Nat)
    (hb : b.m_rev_angle = runningSum32 b.m_rev_angular_vel m) :
    ∀ n : Nat, (Ball.update_juggle_f32^[n] b).m_rev_angle
        = runningSum32 b.m_rev_angular_vel (m + n) := by
  intro n
  induction n with
  | zero => exact hb
  | succ n ih =>
    rw [Function.iterate_succ_apply']
    show f32 ((Ball.update_juggle_f32^[n] b).m_rev_angle
        + (Ball.update_juggle_f32^[n] b).m_rev_angular_vel)
      = f32 (runningSum32 b.m_rev_angular_vel (m + n) + b.m_rev_angular_vel)
    rw [ih, (iterate_update_juggle_f32_frame b n).1]

theorem iterate_update_juggle_f32_rot (b : Ball) (hv : b.m_rot_angular_vel = 1)
    (h0 : b.m_rot_angle = 0) :
    ∀ n : Nat, n < 360 → (Ball.update_juggle_f32^[n] b).m_rot_angle = (n : ℚ) := by
  intro n
  induction n with
  | zero =>
    intro _
    simpa using h0
  | succ n ih =>
    intro h
    have hprev := ih (by omega)
    rw [Function.iterate_succ_apply']
    have h3 := (iterate_update_juggle_f32_frame b n).2.1
    have hs : f32 ((Ball.update_juggle_f32^[n] b).m_rot_angle
        + (Ball.update_juggle_f32^[n] b).m_rot_angular_vel) = ((n + 1 : Nat) : ℚ) := by
      rw [hprev, h3, hv, ← f32_natCast (n + 1) (by norm_num; omega)]
      push_cast
      rfl
    show (if f32 ((Ball.update_juggle_f32^[n] b).m_rot_angle
          + (Ball.update_juggle_f32^[n] b).m_rot_angular_vel) ≥ 360.0 then (0.0 : ℚ)
        else f32 ((Ball.update_juggle_f32^[n] b).m_rot_angle
          + (Ball.update_juggle_f32^[n] b).m_rot_angular_vel)) = _
    rw [hs, if_neg]
    have : ((n + 1 : Nat) : ℚ) < 360 := by exact_mod_cast h
    norm_num
    push_cast at this
    linarith

theorem ticks_f32_juggling (rnd : Nat → Nat) (fuel : Nat) :
    ∀ (n : Nat) (g : GameManager), g.m_game_mode = GameMode.JUGGLING →
      (∀ j : Nat, j < n → (Ball.update_juggle_f32^[j] g.m_ball).m_rev_angle < 180) →
      ticks_f32 rnd fuel n g
        = Except.ok { g with m_ball := Ball.update_juggle_f32^[n] g.m_ball } := by
  intro n
  induction n with
  | zero =>
    intro g _ _
    rfl
  | succ n ih =>
    intro g hm hh
    have h0 : g.m_ball.is_fallen = false := by
      cases hx : g.m_ball.is_fallen with
      | false => rfl
      | true =>
        have := hh 0 (Nat.succ_pos n)
        have h180 := (is_fallen_iff _).1 hx
        exact absurd h180 (not_le.mpr this)
    rw [ticks_succ_ok_f32 rnd fuel n g _ (main_loop_juggling_fly_f32 rnd fuel g hm h0)]
    rw [ih { g with m_ball := g.m_ball.update_juggle_f32 } hm]
    · rfl
    · intro j hj
      exact hh (j + 1) (by omega)

theorem ticks_f32_falling (rnd : Nat → Nat) (fuel : Nat) :
    ∀ (n : Nat) (g : GameManager) (k : Nat), g.m_game_mode = GameMode.FALLING →
      g.m_ball.m_falling_pos = fallHeight32 k →
      (∀ j : Nat, j < n → 0 ≤ fallHeight32 (k + j)) →
      ticks_f32 rnd fuel n g
        = Except.ok { g with
            m_ball := { g.m_ball with m_falling_pos := fallHeight32 (k + n) } } := by
  intro n
  induction n with
  | zero =>
    intro g k _ hk _
    rw [ticks_f32, Nat.add_zero, ← hk]
  | succ n ih =>
    intro g k hm hk hh
    have h0 : 0 ≤ g.m_ball.m_falling_pos := by
      rw [hk]
      exact hh 0 (Nat.succ_pos n)
    rw [ticks_succ_ok_f32 rnd fuel n g _ (main_loop_falling_high_f32 rnd fuel g hm h0)]
    rw [ih { g with m_ball := g.m_ball.update_fall_f32 } (k + 1) hm]
    · rw [show k + 1 + n = k + (n + 1) by omega]
      rfl
    · show f32 (g.m_ball.m_falling_pos - f32 0.1) = f32 (fallHeight32 k - f32 0.1)
      rw [hk]
    · intro j hj
      rw [show k + 1 + j = k + (j + 1) by omega]
      exact hh (j + 1) (by omega)

theorem transitInv_f32_main_loop (rnd : Nat → Nat) (fuel : Nat) (g g' : GameManager)
    (hi : TransitInv_f32 g) (h : GameManager.main_loop_f32 rnd fuel g = Except.ok g') :
    TransitInv_f32 g' := by
  obtain ⟨hv, hj⟩ := hi
  rcases main_loop_ok_cases_f32 rnd fuel g g' h with
    ⟨-, rfl⟩ | ⟨hm, -, rfl⟩ | ⟨-, -, b, c, hd, rfl⟩ | ⟨-, -, rfl⟩
    | ⟨-, -, -, b, c, hd, rfl⟩ | ⟨hm, ha, rfl⟩ | ⟨hm, rfl⟩
  · exact ⟨hv, hj⟩
  · refine ⟨hv, fun hx => ?_⟩
    have hx' : g.m_game_mode = GameMode.JUGGLING := hx
    rw [hm] at hx'
    cases hx'
  · obtain ⟨next, rev, rot, rfl, -, -, -, hrev, -⟩ := set_dest_sound_f32 rnd fuel _ _ _ _ hd
    refine ⟨hrev, fun _ => ⟨0, Nat.zero_le _, ?_⟩⟩
    show (0.0 : ℚ) = 0
    norm_num
  · exact ⟨hv, fun hx => by cases hx⟩
  · obtain ⟨next, rev, rot, rfl, -, -, -, hrev, -⟩ := set_dest_sound_f32 rnd fuel _ _ _ _ hd
    exact ⟨hrev, fun _ => ⟨1, (runningSum32_spec rev hrev).2.1,
      destined_f32_juggle_rev g.m_ball next rev rot⟩⟩
  · refine ⟨hv, fun _ => ?_⟩
    obtain ⟨m, hm1, hm2⟩ := hj hm
    obtain ⟨-, -, -, -, -, h180⟩ := runningSum32_spec _ hv
    have hlt : g.m_ball.m_rev_angle < 180 := by
      by_contra hx
      have := (is_fallen_iff g.m_ball).2 (not_lt.mp hx)
      rw [ha] at this
      cases this
    have hmn : m < transitTicks g.m_ball.m_rev_angular_vel := by
      rcases Nat.lt_or_ge m (transitTicks g.m_ball.m_rev_angular_vel) with hx | hx
      · exact hx
      · exfalso
        have hx' : m = transitTicks g.m_ball.m_rev_angular_vel := le_antisymm hm1 hx
        rw [hm2, hx'] at hlt
        exact absurd h180 (not_le.mpr hlt)
    refine ⟨m + 1, hmn, ?_⟩
    show f32 (g.m_ball.m_rev_angle + g.m_ball.m_rev_angular_vel)
      = f32 (runningSum32 g.m_ball.m_rev_angular_vel m + g.m_ball.m_rev_angular_vel)
    rw [hm2]
  · refine ⟨hv, fun hx => ?_⟩
    have hx' : g.m_game_mode = GameMode.JUGGLING := hx
    rw [hm] at hx'
    cases hx'

theorem transitInv_f32_keyboard_event (g : GameManager) (key scancode action mods : Int)
    (hi : TransitInv_f32 g) : TransitInv_f32 (g.keyboard_event key scancode action mods) := by
  rcases keyboard_event_cases g key scancode action mods with h | ⟨-, -, h⟩ | ⟨-, -, -, h⟩
  · rw [h]
    exact hi
  · rw [h]
    exact hi
  · rw [h]
    exact ⟨by simp [Ball.reset, REV_PALETTE_F32], fun hx => by cases hx⟩

theorem transitInv_f32_reachable (rnd : Nat → Nat) (center : Vec3) (scale : ℚ)
    (g : GameManager) (hr : Reachable_f32 rnd center scale g) : TransitInv_f32 g := by
  induction hr with
  | start =>
    exact ⟨by simp [initial, GameManager.init, GameManager.new, Ball.init, Ball.new,
      Ball.reset, REV_PALETTE_F32], fun hx => by cases hx⟩
  | tick fuel g g' _ h ih => exact transitInv_f32_main_loop rnd fuel g g' ih h
  | key g key scancode action mods _ ih =>
    exact transitInv_f32_keyboard_event g key scancode action mods ih

theorem set_dest_f32_drawsFrom2 (b : Ball) (h : b.m_next_pos_idx = 4) :
    Ball.set_dest_f32 drawsFrom2 1 b 0 = Except.ok (destined_f32 b 2 (f32 3.6) 1.0, 3) := by
  unfold Ball.set_dest_f32
  have h1 : Ball.get_random_next_pos_idx drawsFrom2 1 0 b.m_next_pos_idx
      = Except.ok (2, 1) := by
    rw [h]
    rfl
  have h2 : Ball.get_random_rev_angular_vel_f32 drawsFrom2 1 = Except.ok (f32 3.6, 2) := rfl
  have h3 : Ball.get_random_rot_angular_vel drawsFrom2 2 = Except.ok (1.0, 3) := rfl
  simp only [h1, h2, h3]
  rfl

theorem fallHeight32_succ (k : Nat) :
    fallHeight32 (k + 1) = f32 (fallHeight32 k - f32 0.1) := by
  rw [fallHeight32]

/-- The tick of the run that sees the negative height `x`: the destination is
chosen and the mode becomes `JUGGLING`. -/
theorem started_tick_low_f32 (g : GameManager) (hg : g = started Vec3.zero 1) (x : ℚ)
    (hx : x < 0) :
    GameManager.main_loop_f32 drawsFrom2 1
        { g with m_ball := { g.m_ball with m_falling_pos := x } }
      = Except.ok { juggleStart_f32 with
          m_ball := { juggleStart_f32.m_ball with m_falling_pos := f32 (x - f32 0.1) } } := by
  subst hg
  rw [main_loop_falling_low_f32 drawsFrom2 1 _ rfl hx _ _ (set_dest_f32_drawsFrom2 _ rfl)]
  simp only [started, List.nil_append, juggleStart_f32, Except.ok.injEq,
    GameManager.mk.injEq, and_true, true_and]
  refine ⟨?_, by norm_num⟩
  have p2 : Ball.get_pos_from_idx 2 = ⟨2.0, 0.0, -2.0⟩ := rfl
  have p4 : Ball.get_pos_from_idx 4 = ⟨0.0, 0.0, 0.0⟩ := rfl
  apply Ball.eq_of_fields
  · rfl
  · rfl
  · rfl
  · show (0.0 : ℚ) = 0
    norm_num
  · show (0.0 : ℚ) = 0
    norm_num
  · show (1.0 : ℚ) = 1
    norm_num
  · exact f32_3_6
  · rfl
  · rfl
  · simp only [destined_f32, Ball.update_fall_f32, Ball.calc_rotation_f32, p2, p4,
      Ball.new, Ball.reset, Ball.init, Ball.zeroed, Vec3.cross_f32, Vec3.sub_f32]
    norm_num [f32_zero, f32_one, f32_two, f32_neg_one, f32_neg_two]
  · simp only [destined_f32, Ball.update_fall_f32, Ball.calc_rotation_f32, p2, p4,
      Ball.new, Ball.reset, Ball.init, Ball.zeroed, Vec3.add_f32, Vec3.smul_f32]
    norm_num [f32_zero, f32_one, f32_two, f32_neg_one, f32_neg_two]

theorem juggleStart_f32_run :
    ticks_f32 drawsFrom2 1 32 (started Vec3.zero 1) = Except.ok juggleStart_f32 := by
  have h31 := ticks_f32_falling drawsFrom2 1 31 (started Vec3.zero 1) 0 rfl rfl (by
    intro j hj
    exact fallHeight32_high (0 + j) (by omega))
  rw [Nat.zero_add] at h31
  have e31 : fallHeight32 31 = -13421691 / 134217728 := by
    rw [fallHeight32_trace 31 (by norm_num)]
    simp only [TRACE_FALL, List.getD_cons_succ, List.getD_cons_zero]
  have e32 : f32 (fallHeight32 31 - f32 0.1) = -3355433 / 16777216 := by
    rw [← fallHeight32_succ, fallHeight32_trace (31 + 1) (by norm_num)]
    simp only [TRACE_FALL, List.getD_cons_succ, List.getD_cons_zero]
  have hneg : fallHeight32 31 < 0 := by
    rw [e31]
    norm_num
  rw [show (32 : Nat) = 31 + 1 from rfl, ticks_add_f32 drawsFrom2 1 31 1 _ _ h31, ticks_f32,
    started_tick_low_f32 (started Vec3.zero 1) rfl (fallHeight32 31) hneg, e32]
  rfl

theorem overshootState_run :
    ticks_f32 drawsFrom2 1 50 juggleStart_f32 = Except.ok overshootState := by
  have hrev := iterate_update_juggle_f32_rev juggleStart_f32.m_ball 0 rfl
  have h50 := ticks_f32_juggling drawsFrom2 1 50 juggleStart_f32 rfl (by
    intro j hj
    rw [hrev j]
    exact (runningSum32_3_6 (0 + j) (by omega)).2.2.1 (by omega))
  rw [h50]
  obtain ⟨j2, j3, j4, j5, j6, j7, j8, j9, j10⟩ :=
    iterate_update_juggle_f32_frame juggleStart_f32.m_ball 50
  have jrot := iterate_update_juggle_f32_rot juggleStart_f32.m_ball rfl rfl 50 (by norm_num)
  simp only [overshootState, juggleStart_f32, Except.ok.injEq, GameManager.mk.injEq, and_true,
    true_and]
  apply Ball.eq_of_fields
  · exact j6
  · exact j4
  · exact j5
  · refine jrot.trans ?_
    norm_num
  · refine (hrev 50).trans ?_
    exact (runningSum32_3_6 (0 + 50) (by norm_num)).2.2.2 rfl
  · exact j3
  · exact j2
  · exact j7
  · exact j8
  · exact j9
  · exact j10

theorem overshootState_reachable : Reachable_f32 drawsFrom2 Vec3.zero 1 overshootState := by
  have h0 : Reachable_f32 drawsFrom2 Vec3.zero 1 (started Vec3.zero 1) := by
    rw [← keyboard_event_start Vec3.zero 1 0 0]
    exact Reachable_f32.key _ _ _ _ _ Reachable_f32.start
  have h1 := reachable_ticks_f32 drawsFrom2 Vec3.zero 1 1 32 _ _ h0 juggleStart_f32_run
  exact reachable_ticks_f32 drawsFrom2 Vec3.zero 1 1 50 _ _ h1 overshootState_run

theorem f32_neg_four : f32 (-4) = -4 :=
  f32_negv _ _ 2 (-8388608) (by norm_num) (by norm_num) (by norm_num)
    (roundEven_near _ (-8388608) (by norm_num) (by norm_num)) (by norm_num)

theorem f32_four : f32 4 = 4 := by
  have := f32_natCast 4 (by norm_num)
  simpa using this

/-- The numbers that `calc_rotation` meets on the grid are binary32 numbers. -/
theorem f32_exact (x : ℚ) (h : x ∈ [(0 : ℚ), 1, 2, 4, -1, -2, -4]) : f32 x = x := by
  simp only [List.mem_cons, List.mem_singleton, List.not_mem_nil, or_false] at h
  rcases h with h | h | h | h | h | h | h <;> rw [h]
  · exact f32_zero
  · exact f32_one
  · exact f32_two
  · exact f32_four
  · exact f32_neg_one
  · exact f32_neg_two
  · exact f32_neg_four

/-- C1: in mode `JUGGLING` one tick of `main_loop` ends in mode `FAILED` exactly
when the ball has arrived (`m_rev_angle ≥ 180`) and the tile is not on
`m_next_pos_idx`.  Such a failing tick returns for every stream of draws and
every fuel, and it leaves `m_count`, `m_last_pos_idx` and `m_next_pos_idx` as
they were and makes no call of `rand()` (no destination is chosen).  Every
other tick ends in `JUGGLING` when it returns, and it returns as soon as the
draws hit within the fuel. -/
theorem main_loop_juggling_failed_iff (rnd : Nat → Nat) (fuel : Nat) (g : GameManager)
    (hm : g.m_game_mode = GameMode.JUGGLING) :
    ((180 ≤ g.m_ball.m_rev_angle ∧ g.m_tile.m_pos_idx ≠ g.m_ball.m_next_pos_idx) →
      ∃ g', GameManager.main_loop rnd fuel g = Except.ok g'
        ∧ g'.m_game_mode = GameMode.FAILED
        ∧ g'.m_count = g.m_count
        ∧ g'.m_ball.m_last_pos_idx = g.m_ball.m_last_pos_idx
        ∧ g'.m_ball.m_next_pos_idx = g.m_ball.m_next_pos_idx
        ∧ g'.rand_calls = g.rand_calls)
    ∧ (¬ (180 ≤ g.m_ball.m_rev_angle ∧ g.m_tile.m_pos_idx ≠ g.m_ball.m_next_pos_idx) →
      (∀ g', GameManager.main_loop rnd fuel g = Except.ok g' →
        g'.m_game_mode = GameMode.JUGGLING)
      ∧ (∀ k, FirstHit rnd g.rand_calls g.m_ball.m_next_pos_idx k → k < fuel →
        ∃ g', GameManager.main_loop rnd fuel g = Except.ok g')) := by
  constructor
  · intro hc
    have hf := (is_failure_iff g).2 hc
    exact ⟨_, main_loop_juggling_fail rnd fuel g hm hf, rfl, rfl, rfl, rfl, rfl⟩
  · intro hc
    have hf : g.is_failure = false := by
      cases h : g.is_failure with
      | false => rfl
      | true => exact absurd ((is_failure_iff g).1 h) hc
    refine ⟨fun g' h => main_loop_juggling_mode rnd fuel g g' hm hf h, ?_⟩
    intro k hk hlt
    cases ha : g.m_ball.is_fallen with
    | false => exact ⟨_, main_loop_juggling_fly rnd fuel g hm ha⟩
    | true =>
      obtain ⟨rev, rot, -, -, hd⟩ := set_dest_hit rnd fuel g.m_ball g.rand_calls k hlt hk
      exact ⟨_, main_loop_juggling_catch rnd fuel g hm hf ha _ _ hd⟩

/-- Instance of C1 at `missState`: the ball has arrived at cell 2, the tile is on cell 4. -/
theorem main_loop_juggling_failed_iff_witness :
    missState.m_game_mode = GameMode.JUGGLING
      ∧ ∃ g', GameManager.main_loop drawsFrom2 1 missState = Except.ok g'
        ∧ g'.m_game_mode = GameMode.FAILED
        ∧ g'.m_count = missState.m_count
        ∧ g'.m_ball.m_last_pos_idx = missState.m_ball.m_last_pos_idx
        ∧ g'.m_ball.m_next_pos_idx = missState.m_ball.m_next_pos_idx
        ∧ g'.rand_calls = missState.rand_calls :=
  ⟨rfl, (main_loop_juggling_failed_iff drawsFrom2 1 missState rfl).1
    ⟨by norm_num [missState, arrivedBall], by decide⟩⟩

/-- C2: in mode `JUGGLING` one tick of `main_loop` adds exactly 1 to `m_count`
and chooses a new destination exactly when the ball has arrived
(`m_rev_angle ≥ 180`) and the tile is on `m_next_pos_idx`.  In that case (the
draws hitting within the fuel) the tick returns, the mode stays `JUGGLING`, the
new `m_last_pos_idx` is the old `m_next_pos_idx`, and the new `m_next_pos_idx`
is the first drawn remainder that differs from it.  On every other tick in
`JUGGLING` the tick returns and `m_count`, `m_last_pos_idx`, `m_next_pos_idx`
are as before and `rand()` is not called. -/
theorem main_loop_juggling_score_iff (rnd : Nat → Nat) (fuel : Nat) (g : GameManager)
    (hm : g.m_game_mode = GameMode.JUGGLING) :
    ((180 ≤ g.m_ball.m_rev_angle ∧ g.m_tile.m_pos_idx = g.m_ball.m_next_pos_idx) →
      ∀ k, FirstHit rnd g.rand_calls g.m_ball.m_next_pos_idx k → k < fuel →
        ∃ g', GameManager.main_loop rnd fuel g = Except.ok g'
          ∧ g'.m_count = g.m_count + 1
          ∧ g'.m_game_mode = GameMode.JUGGLING
          ∧ g'.m_ball.m_last_pos_idx = g.m_ball.m_next_pos_idx
          ∧ g'.m_ball.m_next_pos_idx = ((rnd (g.rand_calls + k) % 9 : Nat) : Int)
          ∧ g'.m_ball.m_next_pos_idx ≠ g'.m_ball.m_last_pos_idx
          ∧ g.rand_calls < g'.rand_calls)
    ∧ (¬ (180 ≤ g.m_ball.m_rev_angle ∧ g.m_tile.m_pos_idx = g.m_ball.m_next_pos_idx) →
      ∃ g', GameManager.main_loop rnd fuel g = Except.ok g'
        ∧ g'.m_count = g.m_count
        ∧ g'.m_ball.m_last_pos_idx = g.m_ball.m_last_pos_idx
        ∧ g'.m_ball.m_next_pos_idx = g.m_ball.m_next_pos_idx
        ∧ g'.rand_calls = g.rand_calls) := by
  constructor
  · rintro ⟨ha, ht⟩ k hk hf
    obtain ⟨rev, rot, -, -, h⟩ := main_loop_catch_explicit rnd fuel g k hm ha ht hk hf
    exact ⟨_, h, rfl, hm, rfl, rfl, hk.1, by show g.rand_calls < g.rand_calls + k + 3; omega⟩
  · intro hc
    obtain ⟨g', h, h1, h2, h3, h4, -⟩ := main_loop_juggling_no_catch rnd fuel g hm hc
    exact ⟨g', h, h1, h2, h3, h4⟩

/-- Instance of C2 at `catchState`: the first draw repeats cell 2, the second gives cell 3. -/
theorem main_loop_juggling_score_iff_witness :
    catchState.m_game_mode = GameMode.JUGGLING
      ∧ ∃ g', GameManager.main_loop drawsFrom2 2 catchState = Except.ok g'
        ∧ g'.m_count = catchState.m_count + 1
        ∧ g'.m_game_mode = GameMode.JUGGLING
        ∧ g'.m_ball.m_last_pos_idx = catchState.m_ball.m_next_pos_idx
        ∧ g'.m_ball.m_next_pos_idx = ((drawsFrom2 (catchState.rand_calls + 1) % 9 : Nat) : Int)
        ∧ g'.m_ball.m_next_pos_idx ≠ g'.m_ball.m_last_pos_idx
        ∧ catchState.rand_calls < g'.rand_calls :=
  ⟨rfl, (main_loop_juggling_score_iff drawsFrom2 2 catchState rfl).1
    ⟨by norm_num [catchState, missState, arrivedBall], rfl⟩ 1
    ⟨by decide, fun j hj => by interval_cases j; decide⟩ (by decide)⟩

/-- C3: for every ball and every stream of draws in which the draw number `k`
(counted from the current call) is the first whose remainder modulo 9 differs
from the old `m_next_pos_idx`, `Ball::set_dest` with more than `k` units of fuel
returns; it sets `m_last_pos_idx` to the old `m_next_pos_idx`, `m_rev_angle` to
0, `m_next_pos_idx` to that remainder, which lies in `0..8` and differs from the
new `m_last_pos_idx`, `m_rev_angular_vel` to a member of `{2.25, 2.5, 3.0, 3.6}`
and `m_rot_angular_vel` to a member of `{1, 5, 10, 20}`.  The two velocity
selectors never take their `std::exit(1)` branch. -/
theorem set_dest_spec (rnd : Nat → Nat) (fuel : Nat) (b : Ball) (calls k : Nat)
    (hk : FirstHit rnd calls b.m_next_pos_idx k) (hf : k < fuel) :
    (∃ b' calls', Ball.set_dest rnd fuel b calls = Except.ok (b', calls')
      ∧ b'.m_last_pos_idx = b.m_next_pos_idx
      ∧ b'.m_rev_angle = 0
      ∧ b'.m_next_pos_idx = ((rnd (calls + k) % 9 : Nat) : Int)
      ∧ 0 ≤ b'.m_next_pos_idx ∧ b'.m_next_pos_idx ≤ 8
      ∧ b'.m_next_pos_idx ≠ b'.m_last_pos_idx
      ∧ b'.m_rev_angular_vel ∈ REV_PALETTE
      ∧ b'.m_rot_angular_vel ∈ ROT_PALETTE)
    ∧ (∀ c msg, Ball.get_random_rev_angular_vel rnd c ≠ Except.error (Halt.exit msg))
    ∧ (∀ c msg, Ball.get_random_rot_angular_vel rnd c ≠ Except.error (Halt.exit msg)) := by
  refine ⟨?_, ?_, ?_⟩
  · obtain ⟨rev, rot, hrev, hrot, hd⟩ := set_dest_hit rnd fuel b calls k hf hk
    have hr := draw_range rnd calls k
    refine ⟨_, _, hd, rfl, ?_, rfl, hr.1, hr.2, hk.1, hrev, hrot⟩
    show (0.0 : ℚ) = 0
    norm_num
  · intro c msg h
    obtain ⟨v, hv, -⟩ := get_random_rev_angular_vel_ok rnd c
    rw [hv] at h
    cases h
  · intro c msg h
    obtain ⟨v, hv, -⟩ := get_random_rot_angular_vel_ok rnd c
    rw [hv] at h
    cases h

/-- Instance of C3 at `arrivedBall` with the draws `2, 3, 4, …`. -/
theorem set_dest_spec_witness :
    FirstHit drawsFrom2 0 arrivedBall.m_next_pos_idx 1 ∧ 1 < 2
      ∧ ∃ b' calls', Ball.set_dest drawsFrom2 2 arrivedBall 0 = Except.ok (b', calls')
        ∧ b'.m_last_pos_idx = arrivedBall.m_next_pos_idx
        ∧ b'.m_rev_angle = 0
        ∧ b'.m_next_pos_idx = ((drawsFrom2 (0 + 1) % 9 : Nat) : Int)
        ∧ 0 ≤ b'.m_next_pos_idx ∧ b'.m_next_pos_idx ≤ 8
        ∧ b'.m_next_pos_idx ≠ b'.m_last_pos_idx
        ∧ b'.m_rev_angular_vel ∈ REV_PALETTE
        ∧ b'.m_rot_angular_vel ∈ ROT_PALETTE :=
  ⟨⟨by decide, fun j hj => by interval_cases j; decide⟩, by decide,
    (set_dest_spec drawsFrom2 2 arrivedBall 0 1
      ⟨by decide, fun j hj => by interval_cases j; decide⟩ (by decide)).1⟩

/-- C4: when a tick in `JUGGLING` scores a catch (the ball has arrived, the tile
is on `m_next_pos_idx`, the draws hit within the fuel), the state it returns has
`m_rev_angle` equal to the velocity just drawn, a member of the palette and so
at most 3.6 and below 180: `is_fallen()` is false there.  The next tick, for
every tile position, every stream of draws and every fuel, returns with the
same score, in mode `JUGGLING`, having printed nothing. -/
theorem catch_scored_once (rnd : Nat → Nat) (fuel : Nat) (g : GameManager) (k : Nat)
    (hm : g.m_game_mode = GameMode.JUGGLING) (ha : 180 ≤ g.m_ball.m_rev_angle)
    (ht : g.m_tile.m_pos_idx = g.m_ball.m_next_pos_idx)
    (hk : FirstHit rnd g.rand_calls g.m_ball.m_next_pos_idx k) (hf : k < fuel) :
    ∃ g', GameManager.main_loop rnd fuel g = Except.ok g'
      ∧ g'.m_count = g.m_count + 1
      ∧ g'.m_ball.m_rev_angle = g'.m_ball.m_rev_angular_vel
      ∧ g'.m_ball.m_rev_angular_vel ∈ REV_PALETTE
      ∧ g'.m_ball.m_rev_angle ≤ 3.6
      ∧ g'.m_ball.m_rev_angle < 180
      ∧ g'.m_ball.is_fallen = false
      ∧ ∀ (rnd2 : Nat → Nat) (fuel2 : Nat) (t : Tile),
          ∃ g'', GameManager.main_loop rnd2 fuel2 { g' with m_tile := t } = Except.ok g''
            ∧ g''.m_count = g'.m_count
            ∧ g''.m_game_mode = GameMode.JUGGLING
            ∧ g''.stdout = g'.stdout
            ∧ g''.m_ball.m_last_pos_idx = g'.m_ball.m_last_pos_idx
            ∧ g''.m_ball.m_next_pos_idx = g'.m_ball.m_next_pos_idx := by
  obtain ⟨rev, rot, hrev, -, h⟩ := main_loop_catch_explicit rnd fuel g k hm ha ht hk hf
  have hb := rev_palette_bounds rev hrev
  have hangle := destined_juggle_rev g.m_ball ((rnd (g.rand_calls + k) % 9 : Nat) : Int) rev rot
  have hlt : (destined g.m_ball ((rnd (g.rand_calls + k) % 9 : Nat) : Int)
      rev rot).update_juggle.m_rev_angle < 180 := by
    rw [hangle]
    have := hb.2
    norm_num at this ⊢
    linarith
  have hnot : (destined g.m_ball ((rnd (g.rand_calls + k) % 9 : Nat) : Int)
      rev rot).update_juggle.is_fallen = false := by
    cases hx : (destined g.m_ball ((rnd (g.rand_calls + k) % 9 : Nat) : Int)
        rev rot).update_juggle.is_fallen with
    | false => rfl
    | true => exact absurd ((is_fallen_iff _).1 hx) (not_le.mpr hlt)
  refine ⟨_, h, rfl, ?_, hrev, ?_, hlt, hnot, ?_⟩
  · exact hangle
  · show (destined g.m_ball ((rnd (g.rand_calls + k) % 9 : Nat) : Int)
      rev rot).update_juggle.m_rev_angle ≤ 3.6
    rw [hangle]
    exact hb.2
  · intro rnd2 fuel2 t
    exact ⟨_, main_loop_juggling_fly rnd2 fuel2 _ hm hnot, rfl, hm, rfl, rfl, rfl⟩

/-- Instance of C4 at `catchState` with the draws `2, 3, 4, …`. -/
theorem catch_scored_once_witness :
    catchState.m_game_mode = GameMode.JUGGLING
      ∧ 180 ≤ catchState.m_ball.m_rev_angle
      ∧ catchState.m_tile.m_pos_idx = catchState.m_ball.m_next_pos_idx
      ∧ FirstHit drawsFrom2 catchState.rand_calls catchState.m_ball.m_next_pos_idx 1
      ∧ ∃ g', GameManager.main_loop drawsFrom2 2 catchState = Except.ok g'
        ∧ g'.m_count = catchState.m_count + 1
        ∧ g'.m_ball.m_rev_angle < 180 :=
  have hk : FirstHit drawsFrom2 catchState.rand_calls catchState.m_ball.m_next_pos_idx 1 :=
    ⟨by decide, fun j hj => by interval_cases j; decide⟩
  have ha : 180 ≤ catchState.m_ball.m_rev_angle := by
    norm_num [catchState, missState, arrivedBall]
  ⟨rfl, ha, rfl, hk,
    (catch_scored_once drawsFrom2 2 catchState 1 rfl ha rfl hk (by decide)).elim
      fun g' h => ⟨g', h.1, h.2.1, h.2.2.2.2.2.1⟩⟩

/-- C5 (as stated, refuted): the run with draws `2, 3, 4, …` reaches `juggleStart`,
where the first destination has been chosen (cells 4 and 2, three calls of
`rand()` made); 51 ticks later the catch is missed, and the restart key leads to
`restartedState`, a reachable state in which `m_next_pos_idx = m_last_pos_idx`
although a destination has been chosen before. -/
theorem restart_makes_cells_equal :
    Reachable drawsFrom2 Vec3.zero 1 juggleStart
      ∧ juggleStart.m_ball.m_next_pos_idx ≠ juggleStart.m_ball.m_last_pos_idx
      ∧ ticks drawsFrom2 1 51 juggleStart = Except.ok failedState
      ∧ Reachable drawsFrom2 Vec3.zero 1 restartedState
      ∧ 0 < restartedState.rand_calls
      ∧ restartedState.m_ball.m_next_pos_idx = restartedState.m_ball.m_last_pos_idx := by
  have h0 : Reachable drawsFrom2 Vec3.zero 1 (started Vec3.zero 1) := by
    rw [← keyboard_event_start Vec3.zero 1 0 0]
    exact Reachable.key _ _ _ _ _ Reachable.start
  refine ⟨reachable_ticks drawsFrom2 Vec3.zero 1 1 32 _ _ h0 juggleStart_run, by decide,
    failedState_run, Reachable.key _ _ _ _ _ failedState_reachable, ?_, ?_⟩
  · rw [restartedState_eq]
    decide
  · rw [restartedState_eq]
    rfl

/-- C5 (as amended): in every state reachable from the initial state by ticks
and key events, if the mode is `JUGGLING` or `FAILED` (a destination has been
chosen in the current round) then `m_next_pos_idx ≠ m_last_pos_idx`; if the mode
is `BEFORE_START` or `FALLING` (before the first start and after every restart)
both cells are the centre cell 4. -/
theorem next_ne_last_in_round (rnd : Nat → Nat) (center : Vec3) (scale : ℚ)
    (g : GameManager) (hr : Reachable rnd center scale g) :
    ((g.m_game_mode = GameMode.JUGGLING ∨ g.m_game_mode = GameMode.FAILED) →
        g.m_ball.m_next_pos_idx ≠ g.m_ball.m_last_pos_idx)
      ∧ ((g.m_game_mode = GameMode.BEFORE_START ∨ g.m_game_mode = GameMode.FALLING) →
        g.m_ball.m_last_pos_idx = 4 ∧ g.m_ball.m_next_pos_idx = 4) :=
  ⟨(destinationInv_reachable rnd center scale g hr).2,
    (destinationInv_reachable rnd center scale g hr).1⟩

/-- Instance of C5 (as amended) at the reachable state `failedState`. -/
theorem next_ne_last_in_round_witness :
    Reachable drawsFrom2 Vec3.zero 1 failedState
      ∧ failedState.m_ball.m_next_pos_idx ≠ failedState.m_ball.m_last_pos_idx :=
  ⟨failedState_reachable,
    (next_ne_last_in_round drawsFrom2 Vec3.zero 1 failedState failedState_reachable).1
      (Or.inr rfl)⟩

/-- C6 (as stated, refuted): `failedState` is reachable and in mode `FAILED`; after
the restart key its ball still carries the rotation axis `(-2, 0, -2)` and the
rotation centre `(1, 0, -1)` of the last transit, while the constructed ball has
the zero vector in both fields.  The ball after the restart equals neither the
ball after construction nor the ball of the initial state. -/
theorem restart_keeps_rotation_fields :
    Reachable drawsFrom2 Vec3.zero 1 failedState
      ∧ failedState.m_game_mode = GameMode.FAILED
      ∧ restartedState.m_ball.m_rotation_axis = ⟨-2, 0, -2⟩
      ∧ restartedState.m_ball.m_rotation_center = ⟨1, 0, -1⟩
      ∧ Ball.new.m_rotation_axis = ⟨0, 0, 0⟩
      ∧ Ball.new.m_rotation_center = ⟨0, 0, 0⟩
      ∧ restartedState.m_ball ≠ Ball.new
      ∧ restartedState.m_ball ≠ (initial Vec3.zero 1).m_ball := by
  have hx : restartedState.m_ball.m_rotation_axis = ⟨-2, 0, -2⟩ := by
    rw [restartedState_eq]
    rfl
  have hne : (⟨-2, 0, -2⟩ : Vec3) ≠ ⟨0, 0, 0⟩ := by
    intro h
    injection h with h1 _ _
    norm_num at h1
  refine ⟨failedState_reachable, rfl, hx, ?_, rfl, rfl, ?_, ?_⟩
  · rw [restartedState_eq]
    rfl
  · intro h
    rw [h] at hx
    exact hne hx.symm
  · intro h
    rw [h] at hx
    exact hne hx.symm

/-- C6 (as amended): in mode `BEFORE_START` or `FAILED` a press of the space key
gives mode `FALLING`, score 0, the tile on cell 4, and a ball whose seven fields
assigned by `Ball::reset` have their values after construction (`m_falling_pos`
3.0, both cells 4, both angles 0, velocities 1.0 and 2.25); the four other ball
fields (`m_to_center`, `m_scale`, `m_rotation_axis`, `m_rotation_center`) and
the rest of the state are left as they were. -/
theorem keyboard_event_restart (g : GameManager) (scancode mods : Int)
    (hm : g.m_game_mode = GameMode.BEFORE_START ∨ g.m_game_mode = GameMode.FAILED) :
    g.keyboard_event GLFW_KEY_SPACE scancode GLFW_PRESS mods
      = { g with
          m_game_mode := GameMode.FALLING
          m_count := 0
          m_tile := ⟨4⟩
          m_ball := { Ball.new with
            m_to_center := g.m_ball.m_to_center
            m_scale := g.m_ball.m_scale
            m_rotation_axis := g.m_ball.m_rotation_axis
            m_rotation_center := g.m_ball.m_rotation_center } }
      ∧ Ball.new.m_falling_pos = 3.0
      ∧ Ball.new.m_last_pos_idx = 4 ∧ Ball.new.m_next_pos_idx = 4
      ∧ Ball.new.m_rot_angle = 0 ∧ Ball.new.m_rev_angle = 0
      ∧ Ball.new.m_rot_angular_vel = 1.0 ∧ Ball.new.m_rev_angular_vel = 2.25 := by
  refine ⟨?_, rfl, rfl, rfl, ?_, ?_, rfl, rfl⟩
  · rcases keyboard_event_cases g GLFW_KEY_SPACE scancode GLFW_PRESS mods with
      h | ⟨h, -⟩ | ⟨-, -, -, h⟩
    · exfalso
      have : (g.keyboard_event GLFW_KEY_SPACE scancode GLFW_PRESS mods).m_game_mode
          = GameMode.FALLING := by
        unfold GameManager.keyboard_event
        rcases hm with hm | hm <;> simp [toChar_space, hm, GameManager.reset]
      rw [h] at this
      rcases hm with hm | hm <;> rw [hm] at this <;> cases this
    · rcases hm with hm | hm <;> rw [hm] at h <;> cases h
    · rw [h]
      rfl
  · show (0.0 : ℚ) = 0
    norm_num
  · show (0.0 : ℚ) = 0
    norm_num

/-- Instance of C6 (as amended) at `failedState`. -/
theorem keyboard_event_restart_witness :
    (failedState.m_game_mode = GameMode.BEFORE_START
        ∨ failedState.m_game_mode = GameMode.FAILED)
      ∧ (failedState.keyboard_event GLFW_KEY_SPACE 0 GLFW_PRESS 0).m_game_mode
        = GameMode.FALLING
      ∧ (failedState.keyboard_event GLFW_KEY_SPACE 0 GLFW_PRESS 0).m_count = 0 :=
  ⟨Or.inr rfl,
    by rw [(keyboard_event_restart failedState 0 0 (Or.inr rfl)).1],
    by rw [(keyboard_event_restart failedState 0 0 (Or.inr rfl)).1]⟩

/-- C8: from a state in mode `FAILED`, any number `n` of ticks (no key pressed)
returns a state in mode `FAILED` with the same score, the same ball (so the same
`m_last_pos_idx`, `m_next_pos_idx` and `m_rev_angle`), the same tile and the
same printed lines, hence no further failure message; after at least one tick
the red marker tile is on `m_next_pos_idx`.  The failure message is printed on
the tick that enters `FAILED`: a tick that leads from another mode to this state
started in `JUGGLING` with the ball arrived off the tile, and it appended the
message with the score exactly once and nothing else. -/
theorem failed_is_stable (rnd : Nat → Nat) (fuel : Nat) (g : GameManager)
    (hm : g.m_game_mode = GameMode.FAILED) :
    (∀ n : Nat, ∃ g', ticks rnd fuel n g = Except.ok g'
        ∧ g'.m_game_mode = GameMode.FAILED
        ∧ g'.m_count = g.m_count
        ∧ g'.m_ball = g.m_ball
        ∧ g'.m_tile = g.m_tile
        ∧ g'.stdout = g.stdout
        ∧ g'.rand_calls = g.rand_calls
        ∧ (0 < n → g'.m_red_tile.m_pos_idx = g.m_ball.m_next_pos_idx))
      ∧ (∀ g0 : GameManager, g0.m_game_mode ≠ GameMode.FAILED →
          GameManager.main_loop rnd fuel g0 = Except.ok g →
          g0.m_game_mode = GameMode.JUGGLING
            ∧ 180 ≤ g0.m_ball.m_rev_angle
            ∧ g0.m_tile.m_pos_idx ≠ g0.m_ball.m_next_pos_idx
            ∧ g.stdout = g0.stdout ++ [Printed.failed g0.m_count]
            ∧ g.m_count = g0.m_count) := by
  constructor
  · intro n
    cases n with
    | zero => exact ⟨g, rfl, hm, rfl, rfl, rfl, rfl, rfl, fun h => absurd h (lt_irrefl 0)⟩
    | succ n => exact ⟨_, ticks_failed rnd fuel n g hm, hm, rfl, rfl, rfl, rfl, rfl, fun _ => rfl⟩
  · intro g0 h0 h
    rcases main_loop_ok_cases rnd fuel g0 g h with
      ⟨hm0, rfl⟩ | ⟨hm0, -, rfl⟩ | ⟨-, -, b, c, -, rfl⟩ | ⟨hm0, hf, rfl⟩
      | ⟨hm0, -, -, b, c, -, rfl⟩ | ⟨hm0, -, rfl⟩ | ⟨hm0, -⟩
    · exact absurd hm h0
    · exact absurd (hm0.symm.trans hm) (by decide)
    · cases hm
    · have := (is_failure_iff g0).1 hf
      exact ⟨hm0, this.1, this.2, rfl, rfl⟩
    · exact absurd (hm0.symm.trans hm) (by decide)
    · exact absurd (hm0.symm.trans hm) (by decide)
    · exact absurd hm0 h0

/-- Instance of C8: five ticks from `failedState`. -/
theorem failed_is_stable_witness :
    failedState.m_game_mode = GameMode.FAILED
      ∧ ∃ g', ticks drawsFrom2 1 5 failedState = Except.ok g'
        ∧ g'.m_game_mode = GameMode.FAILED
        ∧ g'.m_count = failedState.m_count
        ∧ g'.m_ball = failedState.m_ball
        ∧ g'.m_tile = failedState.m_tile
        ∧ g'.stdout = failedState.stdout
        ∧ g'.rand_calls = failedState.rand_calls
        ∧ (0 < 5 → g'.m_red_tile.m_pos_idx = failedState.m_ball.m_next_pos_idx) :=
  ⟨rfl, (failed_is_stable drawsFrom2 1 failedState rfl).1 5⟩

/-- C9: `Tile::set_pos_number_by_key` is the row-major table: for every tile,
whatever its cell, the `i`-th of the keys `Q W E A S D Z X C` sets `m_pos_idx`
to `i`, and every other character leaves the tile as it is.  Cell `3 * r + c`
of `CELL_POS` is the grid point `(2c - 2, 0, 2r - 2)`: row 0 is the far (top)
row, column 0 the left column. -/
theorem set_pos_number_by_key_table (t : Tile) :
    (∀ i : Nat, i < 9 →
        t.set_pos_number_by_key (code (CELL_KEYS.getD i ' ')) = ⟨(i : Int)⟩)
      ∧ (∀ key : Int, key ∉ CELL_KEYS.map code → t.set_pos_number_by_key key = t)
      ∧ (∀ r c : Nat, r < 3 → c < 3 →
          Ball.get_pos_from_idx ((3 * r + c : Nat) : Int)
            = ⟨2 * (c : ℚ) - 2, 0, 2 * (r : ℚ) - 2⟩) := by
  refine ⟨?_, ?_, ?_⟩
  · intro i hi
    interval_cases i <;> rfl
  · intro key hk
    exact set_pos_number_by_key_other t key hk
  · intro r c hr hc
    rw [get_pos_from_idx_natCast]
    interval_cases r <;> interval_cases c <;>
      simp only [CELL_POS, List.getD_cons_zero, List.getD_cons_succ, Nat.reduceMul,
        Nat.reduceAdd, Vec3.mk.injEq] <;> norm_num

/-- Instance of C9: the character `P` leaves a tile on cell 6 where it is. -/
theorem set_pos_number_by_key_table_witness :
    code 'P' ∉ CELL_KEYS.map code
      ∧ (⟨6⟩ : Tile).set_pos_number_by_key (code 'P') = ⟨6⟩ :=
  ⟨by decide, (set_pos_number_by_key_table ⟨6⟩).2.1 (code 'P') (by decide)⟩

/-- A key event whose key code, converted to `char`, is neither a cell key nor
the space leaves the state as it is. -/
theorem keyboard_event_ignored (g : GameManager) (key scancode action mods : Int)
    (hk : toChar key ∉ CELL_KEYS.map code) (hs : toChar key ≠ code ' ') :
    g.keyboard_event key scancode action mods = g := by
  rcases keyboard_event_cases g key scancode action mods with h | ⟨-, -, h⟩ | ⟨-, -, h, -⟩
  · exact h
  · rw [h, (set_pos_number_by_key_other g.m_tile (toChar key) hk)]
  · exact absurd h hs

/-- C10 (the code at the failing input): the key code 344 (`GLFW_KEY_RIGHT_SHIFT`)
is none of the nine cell keys and not the space, yet a press of it in mode
`JUGGLING` moves the tile from cell 4 to cell 7, because `(char)344` is `'X'`. -/
theorem right_shift_moves_tile :
    GLFW_KEY_RIGHT_SHIFT ∉ CELL_KEYS.map code
      ∧ GLFW_KEY_RIGHT_SHIFT ≠ code ' '
      ∧ toChar GLFW_KEY_RIGHT_SHIFT = code 'X'
      ∧ juggleStart.m_game_mode = GameMode.JUGGLING
      ∧ juggleStart.m_tile.m_pos_idx = 4
      ∧ (juggleStart.keyboard_event GLFW_KEY_RIGHT_SHIFT 0 GLFW_PRESS 0).m_tile.m_pos_idx = 7
      ∧ juggleStart.keyboard_event GLFW_KEY_RIGHT_SHIFT 0 GLFW_PRESS 0 ≠ juggleStart := by
  have h7 : (juggleStart.keyboard_event GLFW_KEY_RIGHT_SHIFT 0 GLFW_PRESS 0).m_tile.m_pos_idx
      = 7 := by
    rcases keyboard_event_cases juggleStart GLFW_KEY_RIGHT_SHIFT 0 GLFW_PRESS 0 with
      h | ⟨-, -, h⟩ | ⟨h, -⟩
    · exfalso
      have : (juggleStart.keyboard_event GLFW_KEY_RIGHT_SHIFT 0 GLFW_PRESS 0).m_tile.m_pos_idx
          = 7 := by
        unfold GameManager.keyboard_event
        simp [juggleStart, GLFW_PRESS]
        decide
      rw [h] at this
      exact absurd this (by decide)
    · rw [h]
      decide
    · rcases h with h | h <;> cases h
  refine ⟨by decide, by decide, by decide, rfl, rfl, h7, ?_⟩
  intro h
  rw [h] at h7
  exact absurd h7 (by decide)

/-- Where the tile is written: in mode `BEFORE_START`, `FALLING` or `FAILED` a key
event for any of the nine cell keys leaves the whole state, the tile included,
as it is.  A tick never changes `m_tile`.  A key event changes `m_tile` only
if it is a press in mode `JUGGLING` of a key whose code, converted to `char`,
is one of the nine cell keys, or a press of the space in mode `BEFORE_START`
or `FAILED`, which puts the tile on the centre cell 4 and starts the fall. -/
theorem tile_moves_only_in_juggling (g : GameManager) :
    ((g.m_game_mode = GameMode.BEFORE_START ∨ g.m_game_mode = GameMode.FALLING
          ∨ g.m_game_mode = GameMode.FAILED) →
        ∀ (c : Char) (scancode action mods : Int), c ∈ CELL_KEYS →
          g.keyboard_event (code c) scancode action mods = g)
      ∧ (∀ (rnd : Nat → Nat) (fuel : Nat) (g' : GameManager),
          GameManager.main_loop rnd fuel g = Except.ok g' → g'.m_tile = g.m_tile)
      ∧ (∀ key scancode action mods : Int,
          (g.keyboard_event key scancode action mods).m_tile ≠ g.m_tile →
          (g.m_game_mode = GameMode.JUGGLING ∧ action = GLFW_PRESS
              ∧ toChar key ∈ CELL_KEYS.map code
              ∧ (g.keyboard_event key scancode action mods).m_game_mode = GameMode.JUGGLING)
            ∨ ((g.m_game_mode = GameMode.BEFORE_START ∨ g.m_game_mode = GameMode.FAILED)
              ∧ action = GLFW_PRESS ∧ toChar key = code ' '
              ∧ (g.keyboard_event key scancode action mods).m_tile = ⟨4⟩
              ∧ (g.keyboard_event key scancode action mods).m_game_mode
                = GameMode.FALLING)) := by
  refine ⟨?_, fun rnd fuel g' h => main_loop_tile rnd fuel g g' h, ?_⟩
  · intro hm c scancode action mods hc
    obtain ⟨h1, h2⟩ := toChar_cell_key c hc
    rcases keyboard_event_cases g (code c) scancode action mods with h | ⟨hj, -⟩ | ⟨-, -, hs, -⟩
    · exact h
    · rw [hj] at hm
      rcases hm with hm | hm | hm <;> cases hm
    · rw [h1] at hs
      exact absurd hs h2
  · intro key scancode action mods hne
    rcases keyboard_event_cases g key scancode action mods with h | ⟨hj, ha, h⟩ | ⟨hm, ha, hs, h⟩
    · rw [h] at hne
      exact absurd rfl hne
    · left
      refine ⟨hj, ha, ?_, ?_⟩
      · by_contra hk
        rw [h] at hne
        exact hne (set_pos_number_by_key_other g.m_tile (toChar key) hk)
      · rw [h]
        exact hj
    · right
      refine ⟨hm, ha, hs, ?_, ?_⟩ <;> rw [h]

/-- C11 (the code at the failing input): the key code 343 (`GLFW_KEY_LEFT_SUPER`)
is none of the nine cell keys and not the space, and no restart takes place,
yet a press of it in mode `JUGGLING` moves the tile from cell 4 to cell 1,
because `(char)343` is `'W'`.  The state is `juggleStart`, reachable with exact
arithmetic, or `juggleStart_f32`, reachable in the binary32 model; the key
handler does no arithmetic. -/
theorem left_super_moves_tile :
    GLFW_KEY_LEFT_SUPER ∉ CELL_KEYS.map code
      ∧ GLFW_KEY_LEFT_SUPER ≠ code ' '
      ∧ toChar GLFW_KEY_LEFT_SUPER = code 'W'
      ∧ Reachable drawsFrom2 Vec3.zero 1 juggleStart
      ∧ juggleStart.m_game_mode = GameMode.JUGGLING
      ∧ juggleStart.m_tile.m_pos_idx = 4
      ∧ (juggleStart.keyboard_event GLFW_KEY_LEFT_SUPER 0 GLFW_PRESS 0).m_tile.m_pos_idx = 1
      ∧ (juggleStart.keyboard_event GLFW_KEY_LEFT_SUPER 0 GLFW_PRESS 0).m_game_mode
        = GameMode.JUGGLING
      ∧ Reachable_f32 drawsFrom2 Vec3.zero 1 juggleStart_f32
      ∧ juggleStart_f32.m_game_mode = GameMode.JUGGLING
      ∧ juggleStart_f32.m_tile.m_pos_idx = 4
      ∧ (juggleStart_f32.keyboard_event GLFW_KEY_LEFT_SUPER 0 GLFW_PRESS 0).m_tile.m_pos_idx
        = 1
      ∧ (juggleStart_f32.keyboard_event GLFW_KEY_LEFT_SUPER 0 GLFW_PRESS 0).m_game_mode
        = GameMode.JUGGLING := by
  have hw : Tile.set_pos_number_by_key ⟨4⟩ (toChar GLFW_KEY_LEFT_SUPER) = ⟨1⟩ := by decide
  have hmove : ∀ g : GameManager, g.m_game_mode = GameMode.JUGGLING → g.m_tile = ⟨4⟩ →
      g.keyboard_event GLFW_KEY_LEFT_SUPER 0 GLFW_PRESS 0 = { g with m_tile := ⟨1⟩ } := by
    intro g hg ht
    rcases keyboard_event_cases g GLFW_KEY_LEFT_SUPER 0 GLFW_PRESS 0 with
      h | ⟨-, -, h⟩ | ⟨h, -⟩
    · exfalso
      have h1 : (g.keyboard_event GLFW_KEY_LEFT_SUPER 0 GLFW_PRESS 0).m_tile = ⟨1⟩ := by
        unfold GameManager.keyboard_event
        simp [hg, ht, hw]
      rw [h, ht] at h1
      exact absurd h1 (by decide)
    · rw [h, ht, hw]
    · rw [hg] at h
      rcases h with h | h <;> cases h
  have h0 : Reachable_f32 drawsFrom2 Vec3.zero 1 (started Vec3.zero 1) := by
    rw [← keyboard_event_start Vec3.zero 1 0 0]
    exact Reachable_f32.key _ _ _ _ _ Reachable_f32.start
  have hr := reachable_ticks_f32 drawsFrom2 Vec3.zero 1 1 32 _ _ h0 juggleStart_f32_run
  rw [hmove juggleStart rfl rfl, hmove juggleStart_f32 rfl rfl]
  exact ⟨by decide, by decide, by decide, juggleStart_reachable, rfl, rfl, rfl, rfl, hr, rfl,
    rfl, rfl, rfl⟩

/-- C16: in every state reachable from the initial state by ticks and key events,
for every stream of draws, the cell of the tile, the cell of the red marker
tile, `m_last_pos_idx` and `m_next_pos_idx` all lie in `0..8`, so each of them
is a position of the nine-entry list `CELL_POS`. -/
theorem indices_in_grid (rnd : Nat → Nat) (center : Vec3) (scale : ℚ)
    (g : GameManager) (hr : Reachable rnd center scale g) :
    CELL_POS.length = 9
      ∧ (0 ≤ g.m_tile.m_pos_idx ∧ g.m_tile.m_pos_idx ≤ 8
        ∧ g.m_tile.m_pos_idx.toNat < CELL_POS.length)
      ∧ (0 ≤ g.m_red_tile.m_pos_idx ∧ g.m_red_tile.m_pos_idx ≤ 8
        ∧ g.m_red_tile.m_pos_idx.toNat < CELL_POS.length)
      ∧ (0 ≤ g.m_ball.m_last_pos_idx ∧ g.m_ball.m_last_pos_idx ≤ 8
        ∧ g.m_ball.m_last_pos_idx.toNat < CELL_POS.length)
      ∧ (0 ≤ g.m_ball.m_next_pos_idx ∧ g.m_ball.m_next_pos_idx ≤ 8
        ∧ g.m_ball.m_next_pos_idx.toNat < CELL_POS.length) := by
  obtain ⟨h1, h2, h3, h4⟩ := cellsInv_reachable rnd center scale g hr
  have hlen : CELL_POS.length = 9 := rfl
  have key : ∀ i : Int, InGrid i → 0 ≤ i ∧ i ≤ 8 ∧ i.toNat < CELL_POS.length := by
    intro i hi
    obtain ⟨a, b⟩ := hi
    refine ⟨a, b, ?_⟩
    rw [hlen]
    omega
  exact ⟨hlen, key _ h1, key _ h2, key _ h3, key _ h4⟩

/-- Instance of C16 at the reachable state `failedState`. -/
theorem indices_in_grid_witness :
    Reachable drawsFrom2 Vec3.zero 1 failedState
      ∧ (0 ≤ failedState.m_ball.m_next_pos_idx ∧ failedState.m_ball.m_next_pos_idx ≤ 8
        ∧ failedState.m_ball.m_next_pos_idx.toNat < CELL_POS.length) :=
  ⟨failedState_reachable,
    (indices_in_grid drawsFrom2 Vec3.zero 1 failedState failedState_reachable).2.2.2.2⟩

/-- C17 (as stated, refuted): `3.6f` is the binary32 number `7549747 / 2097152`,
which is not `18 / 5`.  In the run of the binary32 model with the draws
`2, 3, 4, …`, 32 ticks after the start key the first transit begins with this
velocity (`juggleStart_f32`), and 50 ticks later the reachable state
`overshootState`, in mode `JUGGLING`, has the revolution angle
`11796483 / 65536 = 180.0000457763671875`: the arrival check is true there, the
angle is above 180 and it is not a natural multiple of the velocity. -/
theorem transit_3_6_overshoots :
    f32 3.6 = 7549747 / 2097152
      ∧ f32 3.6 ≠ 3.6
      ∧ ticks_f32 drawsFrom2 1 32 (started Vec3.zero 1) = Except.ok juggleStart_f32
      ∧ ticks_f32 drawsFrom2 1 50 juggleStart_f32 = Except.ok overshootState
      ∧ Reachable_f32 drawsFrom2 Vec3.zero 1 overshootState
      ∧ overshootState.m_game_mode = GameMode.JUGGLING
      ∧ overshootState.m_ball.m_rev_angular_vel = 7549747 / 2097152
      ∧ overshootState.m_ball.m_rev_angle = 11796483 / 65536
      ∧ overshootState.m_ball.is_fallen = true
      ∧ ¬ overshootState.m_ball.m_rev_angle ≤ 180
      ∧ ¬ ∃ m : Nat, overshootState.m_ball.m_rev_angle
          = (m : ℚ) * overshootState.m_ball.m_rev_angular_vel := by
  refine ⟨f32_3_6, ?_, juggleStart_f32_run, overshootState_run, overshootState_reachable, rfl,
    rfl, rfl, ?_, ?_, ?_⟩
  · rw [f32_3_6]
    norm_num
  · rw [is_fallen_iff]
    show (180 : ℚ) ≤ 11796483 / 65536
    norm_num
  · show ¬ (11796483 / 65536 : ℚ) ≤ 180
    norm_num
  · rintro ⟨m, hm⟩
    have hm' : (11796483 / 65536 : ℚ) = (m : ℚ) * (7549747 / 2097152) := hm
    have h1 : ((m * 7549747 : Nat) : ℚ) = ((377487456 : Nat) : ℚ) := by
      push_cast
      linarith
    have h2 : m * 7549747 = 377487456 := by exact_mod_cast h1
    omega

/-- C17 (as amended): in the binary32 model, in every reachable state in mode
`JUGGLING`, with `v` the current revolution velocity (2.25, 2.5, 3.0 or the
binary32 number `3.6f`) and `N = transitTicks v` (80, 72, 60 or 50), the
revolution angle is the binary32 running sum of `m` additions of `v` for a
natural number `m ≤ N`, it is not negative, and `is_fallen()` holds exactly
when `m = N`.  For the three velocities that are multiples of a quarter the
sums are exact: `N * v = 180`, the angle is `m * v`, at most 180, and
`is_fallen()` holds exactly when it is 180.  For `3.6f` the angle is at most
`11796483 / 65536`, a number above 180, and `is_fallen()` holds exactly when it
has that value.  From such a state, `j ≤ N - m` further ticks return a state in
`JUGGLING` whose angle is the running sum of `m + j` additions, and the arrival
check holds there exactly for `j = N - m`: it first becomes true after `N`
`update_juggle` steps of the transit. -/
theorem arrival_binary32 (rnd : Nat → Nat) (center : Vec3) (scale : ℚ) (g : GameManager)
    (hr : Reachable_f32 rnd center scale g) (hm : g.m_game_mode = GameMode.JUGGLING) :
    g.m_ball.m_rev_angular_vel ∈ REV_PALETTE_F32
      ∧ transitTicks g.m_ball.m_rev_angular_vel ∈ [80, 72, 60, 50]
      ∧ ∃ m : Nat, m ≤ transitTicks g.m_ball.m_rev_angular_vel
        ∧ g.m_ball.m_rev_angle = runningSum32 g.m_ball.m_rev_angular_vel m
        ∧ 0 ≤ g.m_ball.m_rev_angle
        ∧ (g.m_ball.is_fallen = true ↔ m = transitTicks g.m_ball.m_rev_angular_vel)
        ∧ (g.m_ball.m_rev_angular_vel ≠ f32 3.6 →
            (transitTicks g.m_ball.m_rev_angular_vel : ℚ) * g.m_ball.m_rev_angular_vel = 180
              ∧ g.m_ball.m_rev_angle = (m : ℚ) * g.m_ball.m_rev_angular_vel
              ∧ g.m_ball.m_rev_angle ≤ 180
              ∧ (g.m_ball.is_fallen = true ↔ g.m_ball.m_rev_angle = 180))
        ∧ (g.m_ball.m_rev_angular_vel = f32 3.6 →
            g.m_ball.m_rev_angular_vel = 7549747 / 2097152
              ∧ transitTicks g.m_ball.m_rev_angular_vel = 50
              ∧ g.m_ball.m_rev_angle ≤ 11796483 / 65536
              ∧ (g.m_ball.is_fallen = true ↔ g.m_ball.m_rev_angle = 11796483 / 65536))
        ∧ ∀ (fuel j : Nat), j ≤ transitTicks g.m_ball.m_rev_angular_vel - m →
            ∃ g', ticks_f32 rnd fuel j g = Except.ok g'
              ∧ g'.m_game_mode = GameMode.JUGGLING
              ∧ g'.m_ball.m_rev_angular_vel = g.m_ball.m_rev_angular_vel
              ∧ g'.m_ball.m_rev_angle = runningSum32 g.m_ball.m_rev_angular_vel (m + j)
              ∧ (g'.m_ball.is_fallen = true
                ↔ j = transitTicks g.m_ball.m_rev_angular_vel - m) := by
  obtain ⟨hv, hj⟩ := transitInv_f32_reachable rnd center scale g hr
  obtain ⟨m, hm1, hm2⟩ := hj hm
  obtain ⟨hpos, -, hN, hnn, hlt, hge⟩ := runningSum32_spec _ hv
  have hfall : ∀ (b : Ball) (a : Nat), a ≤ transitTicks g.m_ball.m_rev_angular_vel →
      b.m_rev_angle = runningSum32 g.m_ball.m_rev_angular_vel a →
      (b.is_fallen = true ↔ a = transitTicks g.m_ball.m_rev_angular_vel) := by
    intro b a ha hb
    rw [is_fallen_iff, hb]
    constructor
    · intro h
      rcases Nat.lt_or_ge a (transitTicks g.m_ball.m_rev_angular_vel) with hx | hx
      · exact absurd h (not_le.mpr (hlt a hx))
      · exact le_antisymm ha hx
    · intro h
      rw [h]
      exact hge
  have hfm := hfall g.m_ball m hm1 hm2
  refine ⟨hv, hN, m, hm1, hm2, ?_, hfm, ?_, ?_, ?_⟩
  · rw [hm2]
    exact hnn m hm1
  · intro hne
    have hq : g.m_ball.m_rev_angular_vel = 2.25 ∨ g.m_ball.m_rev_angular_vel = 2.5
        ∨ g.m_ball.m_rev_angular_vel = 3.0 := by
      simp only [REV_PALETTE_F32, List.mem_cons, List.mem_singleton, List.not_mem_nil,
        or_false] at hv
      rcases hv with h | h | h | h
      · exact Or.inl h
      · exact Or.inr (Or.inl h)
      · exact Or.inr (Or.inr h)
      · exact absurd h hne
    have hex : (transitTicks g.m_ball.m_rev_angular_vel : ℚ) * g.m_ball.m_rev_angular_vel = 180
        ∧ ∀ a : Nat, a ≤ transitTicks g.m_ball.m_rev_angular_vel →
          runningSum32 g.m_ball.m_rev_angular_vel a = (a : ℚ) * g.m_ball.m_rev_angular_vel := by
      rcases hq with h | h | h <;> rw [h]
      · have hT : transitTicks 2.25 = 80 := by norm_num [transitTicks]
        rw [hT]
        exact ⟨by norm_num, fun a ha => runningSum32_2_25 a ha⟩
      · have hT : transitTicks 2.5 = 72 := by norm_num [transitTicks]
        rw [hT]
        exact ⟨by norm_num, fun a ha => runningSum32_2_5 a ha⟩
      · have hT : transitTicks 3.0 = 60 := by norm_num [transitTicks]
        rw [hT]
        exact ⟨by norm_num, fun a ha => runningSum32_3_0 a ha⟩
    obtain ⟨h180, hsum⟩ := hex
    have hmv : g.m_ball.m_rev_angle = (m : ℚ) * g.m_ball.m_rev_angular_vel := by
      rw [hm2, hsum m hm1]
    have hle : g.m_ball.m_rev_angle ≤ 180 := by
      rw [hmv, ← h180]
      have : (m : ℚ) ≤ (transitTicks g.m_ball.m_rev_angular_vel : ℚ) := by exact_mod_cast hm1
      exact mul_le_mul_of_nonneg_right this (le_of_lt hpos)
    refine ⟨h180, hmv, hle, ?_⟩
    constructor
    · intro h
      rw [hmv, hfm.1 h, h180]
    · intro h
      rw [is_fallen_iff, h]
  · intro he
    have hv36 : g.m_ball.m_rev_angular_vel = 7549747 / 2097152 := he.trans f32_3_6
    have hT : transitTicks g.m_ball.m_rev_angular_vel = 50 := by
      rw [he]
      exact transitTicks_f32_3_6
    have hm50 : m ≤ 50 := by
      rw [← hT]
      exact hm1
    have hb := runningSum32_3_6 m hm50
    rw [← hv36, ← hm2] at hb
    refine ⟨hv36, hT, hb.2.1, ?_⟩
    constructor
    · intro h
      have hmN := hfm.1 h
      rw [hT] at hmN
      exact hb.2.2.2 hmN
    · intro h
      rw [is_fallen_iff, h]
      norm_num
  · intro fuel j hjle
    have hrev := iterate_update_juggle_f32_rev g.m_ball m hm2
    have hrun := ticks_f32_juggling rnd fuel j g hm (by
      intro i hi
      rw [hrev i]
      exact hlt (m + i) (by omega))
    have hf := hfall (Ball.update_juggle_f32^[j] g.m_ball) (m + j) (by omega) (hrev j)
    refine ⟨_, hrun, hm, (iterate_update_juggle_f32_frame g.m_ball j).1, hrev j, ?_⟩
    show (Ball.update_juggle_f32^[j] g.m_ball).is_fallen = true ↔ _
    rw [hf]
    omega

/-- Instance of C17 (as amended) at the reachable state `overshootState`
(velocity `3.6f`, 50 steps): the velocity is in the palette, the transit has
one of the four lengths, and the angle is the running sum of `m` additions,
with the arrival check true exactly for `m` the length of the transit. -/
theorem arrival_binary32_witness :
    Reachable_f32 drawsFrom2 Vec3.zero 1 overshootState
      ∧ overshootState.m_game_mode = GameMode.JUGGLING
      ∧ overshootState.m_ball.m_rev_angular_vel ∈ REV_PALETTE_F32
      ∧ transitTicks overshootState.m_ball.m_rev_angular_vel ∈ [80, 72, 60, 50]
      ∧ ∃ m : Nat, m ≤ transitTicks overshootState.m_ball.m_rev_angular_vel
        ∧ overshootState.m_ball.m_rev_angle
          = runningSum32 overshootState.m_ball.m_rev_angular_vel m
        ∧ (overshootState.m_ball.is_fallen = true
          ↔ m = transitTicks overshootState.m_ball.m_rev_angular_vel) :=
  ⟨overshootState_reachable, rfl,
    (arrival_binary32 drawsFrom2 Vec3.zero 1 overshootState overshootState_reachable rfl).1,
    (arrival_binary32 drawsFrom2 Vec3.zero 1 overshootState overshootState_reachable rfl).2.1,
    (arrival_binary32 drawsFrom2 Vec3.zero 1 overshootState overshootState_reachable
      rfl).2.2.imp (fun _ h => ⟨h.1, h.2.1, h.2.2.2.1⟩)⟩

/-- C15 (as stated, refuted): `set_dest` on the constructed ball with the draws
`2, 3, 4, …` chooses cell 2 and stores the rotation axis `(-2, 0, -2)`, whose
squared length is 8, not 1: the axis is not normalised. -/
theorem set_dest_axis_not_unit :
    ∃ b, Ball.set_dest drawsFrom2 1 Ball.new 0 = Except.ok (b, 3)
      ∧ b.m_last_pos_idx = 4 ∧ b.m_next_pos_idx = 2
      ∧ b.m_rotation_axis = ⟨-2, 0, -2⟩
      ∧ b.m_rotation_axis.dot b.m_rotation_axis = 8
      ∧ b.m_rotation_axis.dot b.m_rotation_axis ≠ 1 := by
  have hax : (destined Ball.new 2 3.6 1.0).m_rotation_axis = ⟨-2, 0, -2⟩ := by
    show ((Ball.get_pos_from_idx 2).sub (Ball.get_pos_from_idx 4)).cross ⟨0.0, -1.0, 0.0⟩ = _
    rw [get_pos_from_idx_2, get_pos_from_idx_4]
    apply Vec3.eq_of_coords <;> simp only [Vec3.cross, Vec3.sub] <;> norm_num
  refine ⟨_, set_dest_drawsFrom2 Ball.new rfl, rfl, rfl, hax, ?_, ?_⟩ <;>
    rw [hax] <;> simp only [Vec3.dot] <;> norm_num

/-- C15 (as amended): after `set_dest` (old `m_next_pos_idx` in `0..8`, the draws
hitting within the fuel) the stored rotation axis is the cross product of the
direction from the grid point of `m_last_pos_idx` to that of `m_next_pos_idx`
with the down vector `(0, -1, 0)`, not normalised: it is at a right angle to the
direction and to the vertical, and its squared length is the squared length of
the direction, one of 4, 8, 16, 20, 32, so it is neither zero nor a unit
vector.  The rotation centre is the midpoint of the two grid points. -/
theorem set_dest_axis (rnd : Nat → Nat) (fuel : Nat) (b : Ball) (calls k : Nat)
    (hn : InGrid b.m_next_pos_idx)
    (hk : FirstHit rnd calls b.m_next_pos_idx k) (hf : k < fuel) :
    ∃ b' calls', Ball.set_dest rnd fuel b calls = Except.ok (b', calls')
      ∧ b'.m_rotation_axis
        = ((Ball.get_pos_from_idx b'.m_next_pos_idx).sub
            (Ball.get_pos_from_idx b'.m_last_pos_idx)).cross ⟨0.0, -1.0, 0.0⟩
      ∧ b'.m_rotation_center
        = ((Ball.get_pos_from_idx b'.m_last_pos_idx).add
            (Ball.get_pos_from_idx b'.m_next_pos_idx)).smul 0.5
      ∧ b'.m_rotation_axis.dot
          ((Ball.get_pos_from_idx b'.m_next_pos_idx).sub
            (Ball.get_pos_from_idx b'.m_last_pos_idx)) = 0
      ∧ b'.m_rotation_axis.dot ⟨0.0, -1.0, 0.0⟩ = 0
      ∧ b'.m_rotation_axis.dot b'.m_rotation_axis
        = ((Ball.get_pos_from_idx b'.m_next_pos_idx).sub
            (Ball.get_pos_from_idx b'.m_last_pos_idx)).dot
          ((Ball.get_pos_from_idx b'.m_next_pos_idx).sub
            (Ball.get_pos_from_idx b'.m_last_pos_idx))
      ∧ b'.m_rotation_axis.dot b'.m_rotation_axis ∈ [(4 : ℚ), 8, 16, 20, 32]
      ∧ b'.m_rotation_axis.dot b'.m_rotation_axis ≠ 1 := by
  obtain ⟨rev, rot, -, -, hd⟩ := set_dest_hit rnd fuel b calls k hf hk
  have hr := draw_range rnd calls k
  have hgrid := grid_distance b.m_next_pos_idx ((rnd (calls + k) % 9 : Nat) : Int) hn
    ⟨hr.1, hr.2⟩ hk.1
  obtain ⟨c1, c2, c3⟩ := cross_down
    ((Ball.get_pos_from_idx ((rnd (calls + k) % 9 : Nat) : Int)).sub
      (Ball.get_pos_from_idx b.m_next_pos_idx))
  have hsq : (((Ball.get_pos_from_idx ((rnd (calls + k) % 9 : Nat) : Int)).sub
        (Ball.get_pos_from_idx b.m_next_pos_idx)).cross ⟨0.0, -1.0, 0.0⟩).dot
      (((Ball.get_pos_from_idx ((rnd (calls + k) % 9 : Nat) : Int)).sub
        (Ball.get_pos_from_idx b.m_next_pos_idx)).cross ⟨0.0, -1.0, 0.0⟩)
      = ((Ball.get_pos_from_idx ((rnd (calls + k) % 9 : Nat) : Int)).sub
          (Ball.get_pos_from_idx b.m_next_pos_idx)).dot
        ((Ball.get_pos_from_idx ((rnd (calls + k) % 9 : Nat) : Int)).sub
          (Ball.get_pos_from_idx b.m_next_pos_idx)) := by
    rw [c3]
    simp only [Vec3.dot, Vec3.sub, get_pos_from_idx_y]
    ring
  refine ⟨_, _, hd, rfl, rfl, c1, c2, hsq, ?_, ?_⟩
  · show (((Ball.get_pos_from_idx ((rnd (calls + k) % 9 : Nat) : Int)).sub
        (Ball.get_pos_from_idx b.m_next_pos_idx)).cross ⟨0.0, -1.0, 0.0⟩).dot
      (((Ball.get_pos_from_idx ((rnd (calls + k) % 9 : Nat) : Int)).sub
        (Ball.get_pos_from_idx b.m_next_pos_idx)).cross ⟨0.0, -1.0, 0.0⟩) ∈ _
    rw [hsq]
    exact hgrid
  · show (((Ball.get_pos_from_idx ((rnd (calls + k) % 9 : Nat) : Int)).sub
        (Ball.get_pos_from_idx b.m_next_pos_idx)).cross ⟨0.0, -1.0, 0.0⟩).dot
      (((Ball.get_pos_from_idx ((rnd (calls + k) % 9 : Nat) : Int)).sub
        (Ball.get_pos_from_idx b.m_next_pos_idx)).cross ⟨0.0, -1.0, 0.0⟩) ≠ 1
    rw [hsq]
    intro h1
    rw [h1] at hgrid
    norm_num at hgrid

/-- Instance of C15 (as amended): `set_dest` on the constructed ball with the
draws `2, 3, 4, …`. -/
theorem set_dest_axis_witness :
    InGrid Ball.new.m_next_pos_idx ∧ FirstHit drawsFrom2 0 Ball.new.m_next_pos_idx 0
      ∧ ∃ b' calls', Ball.set_dest drawsFrom2 1 Ball.new 0 = Except.ok (b', calls')
        ∧ b'.m_rotation_axis.dot b'.m_rotation_axis ∈ [(4 : ℚ), 8, 16, 20, 32] :=
  ⟨⟨by decide, by decide⟩, drawsFrom2_hit,
    (set_dest_axis drawsFrom2 1 Ball.new 0 0 ⟨by decide, by decide⟩ drawsFrom2_hit
      (by decide)).elim fun b' h => h.elim fun c' h' =>
        ⟨b', c', h'.1, h'.2.2.2.2.2.2.1⟩⟩

end FootballJuggling
